import Mathlib

/-!
Movie review application: rating aggregation, review uniqueness, watchlist, listings,
access control, admin and profile routes, demo fallback.

A shallow embedding of the backend of the movie review application
(`backend/models/Review.js`, `backend/models/Movie.js`, `backend/routes/reviews.js`,
`backend/routes/users.js`, `backend/routes/movies.js`, `backend/middleware/auth.js`), of
the demo fallback of the client for adding a review (`frontend/src/services/api.js`,
`frontend/src/services/demoState.js`), and theorems about them.

Modelling conventions.

* A MongoDB collection is a list of documents; `findById` returns the first document
  with the given `_id` and `findByIdAndUpdate` rewrites that same document.
* An `ObjectId` is a natural number (a route parameter and the stored id it denotes
  are the same value).
* A JavaScript `Number` is an exact rational: `$avg`, `* 10`, `Math.round` and `/ 10`
  are computed without floating-point error.
* A `Date` is a natural number (milliseconds). The clock is read once for a request:
  `Date.now()`, `new Date()` and the timestamps that `timestamps: true` writes while the
  request is handled are one value, `env.now` (`now` where the handler takes nothing else
  from outside). `updateMovieRating` and the hooks take the time of their run.
* A JavaScript string is a sequence of characters and `length` counts them: the count
  of UTF-16 units for text of the Basic Multilingual Plane. White space is the
  `WhiteSpace` and `LineTerminator` of ECMAScript (`isWhiteSpace`), which `trim` removes
  and `parseInt` skips.
* Every handler is a function from the store before the request to the response and
  the store after it; the requests are handled one at a time.
* The handlers below start after `authenticateToken` has set `req.user`; the middleware
  is modelled on its own, with `jwt.verify` as a parameter.
* The store does not fail, except in `postMovieReviewWith`, whose switch makes the
  recompute of the post `save` hook throw.
* A query parameter is a string or absent; `parseInt` and the check `isInt` of
  validator.js are computed on its characters.
-/

namespace MovieReview

/-- A MongoDB `ObjectId`. -/
abbrev ObjectId := Nat

/-- A JavaScript `Number`, taken exactly. -/
abbrev Number := ℚ

/-- A document of the `reviews` collection (`models/Review.js`, `reviewSchema`). Of the
two timestamps only `createdAt`, by which the listings sort, is kept; no route reads the
`updatedAt` of a review. -/
structure Review where
  _id : ObjectId
  userId : ObjectId
  movieId : ObjectId
  rating : Number
  reviewText : String
  isEdited : Bool := false
  editedAt : Option Nat := none
  helpfulVotes : Number := 0
  reportCount : Number := 0
  isActive : Bool := true
  createdAt : Nat := 0
  deriving DecidableEq, Repr

/-- A document of the `movies` collection (`models/Movie.js`, `movieSchema`). -/
structure Movie where
  _id : ObjectId
  title : String
  genre : List String
  releaseYear : Number
  director : String
  cast : List String := []
  synopsis : String
  posterUrl : String := "https://via.placeholder.com/300x450?text=No+Poster"
  trailerUrl : String := ""
  averageRating : Number := 0
  totalReviews : Number := 0
  duration : Number
  language : String := "English"
  isActive : Bool := true
  createdAt : Nat := 0
  updatedAt : Nat := 0
  deriving DecidableEq, Repr

/-- Modelled from the spec: `models/User.js` is not among the sources. A user record
holds an identity, a role flag, an active flag, a watchlist of movie references kept in
insertion order, and profile fields; the field names are the ones the routes and the
middleware read (`_id`, `isAdmin`, `isActive`, `watchlist`, `username`, `bio`,
`profilePicture`, `favoriteGenres`, `password`, `email`). -/
structure User where
  _id : ObjectId
  username : String
  email : String := ""
  password : String := ""
  isAdmin : Bool := false
  isActive : Bool := true
  watchlist : List ObjectId := []
  bio : String := ""
  profilePicture : String := ""
  favoriteGenres : List String := []
  deriving DecidableEq, Repr

/-- The three collections of the persistent store. -/
structure Store where
  users : List User
  movies : List Movie
  reviews : List Review
  deriving DecidableEq, Repr

/-! ## Strings -/

/-- The characters JavaScript counts as white space: `WhiteSpace` and `LineTerminator`
of ECMAScript, which is also the class `\s` of a regular expression (tab, line feed,
vertical tab, form feed, carriage return, space, no-break space, U+1680, U+2000 to
U+200A, U+2028, U+2029, U+202F, U+205F, U+3000, U+FEFF). -/
def isWhiteSpace (c : Char) : Bool :=
  c.toNat == 0x09 || c.toNat == 0x0A || c.toNat == 0x0B || c.toNat == 0x0C ||
  c.toNat == 0x0D || c.toNat == 0x20 || c.toNat == 0xA0 || c.toNat == 0x1680 ||
  (decide (0x2000 ≤ c.toNat) && decide (c.toNat ≤ 0x200A)) ||
  c.toNat == 0x2028 || c.toNat == 0x2029 || c.toNat == 0x202F || c.toNat == 0x205F ||
  c.toNat == 0x3000 || c.toNat == 0xFEFF

/-- The white space at both ends of a string removed: `String.prototype.trim`, which
the schema option `trim: true` applies, and the sanitizer `trim()` of validator.js
(`/^\s+/` at the left, `/\s/` tested from the right). -/
def trim (str : String) : String :=
  String.mk ((str.toList.dropWhile isWhiteSpace).reverse.dropWhile isWhiteSpace).reverse

/-! ## Collection primitives -/

/-- `Movie.findById(id)`. -/
def Movie.findById (movies : List Movie) (id : ObjectId) : Option Movie :=
  movies.find? (fun m => m._id == id)

/-- `Review.findById(id)`. -/
def Review.findById (reviews : List Review) (id : ObjectId) : Option Review :=
  reviews.find? (fun r => r._id == id)

/-- `User.findById(id)`. -/
def User.findById (users : List User) (id : ObjectId) : Option User :=
  users.find? (fun u => u._id == id)

/-- Rewrite the first document that satisfies `p` with `f`, leaving the others alone. -/
def updateFirst {α : Type} (p : α → Bool) (f : α → α) : List α → List α
  | [] => []
  | x :: xs => if p x then f x :: xs else x :: updateFirst p f xs

/-- `Movie.findByIdAndUpdate(id, update)` without validators: the first movie with
that id is rewritten; nothing happens when there is none. The schema option
`timestamps: true` (`models/Movie.js`, lines 63-65) makes every such update set
`updatedAt` to the time of the call. -/
def Movie.findByIdAndUpdate (now : Nat) (movies : List Movie) (id : ObjectId)
    (f : Movie → Movie) : List Movie :=
  updateFirst (fun m => m._id == id) (fun m => { f m with updatedAt := now }) movies

/-! ## The aggregation routine (`models/Review.js`, lines 68-94) -/

/-- `Math.round`: the nearest integer, a tie going up. -/
def Math.round (x : Number) : ℤ := ⌊x + 1 / 2⌋

/-- One output document of the `$group` stage. -/
structure Stats where
  _id : ObjectId
  averageRating : Number
  totalReviews : Number
  deriving DecidableEq, Repr

/-- The stage `$match: { movieId: movieId, isActive: true }`. -/
def matchStage (movieId : ObjectId) (reviews : List Review) : List Review :=
  reviews.filter (fun r => r.movieId == movieId && r.isActive)

/-- The stage `$group: { _id: '$movieId', averageRating: { $avg: '$rating' },
totalReviews: { $sum: 1 } }` applied to documents that all carry the same `movieId`:
no group for no document, one group otherwise. -/
def groupStage (movieId : ObjectId) (matched : List Review) : List Stats :=
  match matched with
  | [] => []
  | _ :: _ =>
    [{ _id := movieId
       averageRating := (matched.map (fun r => r.rating)).sum / (matched.length : Number)
       totalReviews := (matched.length : Number) }]

/-- `Review.aggregate([ { $match ... }, { $group ... } ])`. -/
def Review.aggregate (movieId : ObjectId) (reviews : List Review) : List Stats :=
  groupStage movieId (matchStage movieId reviews)

/-- `updateMovieRating(movieId)`, run at the time `now`. -/
def updateMovieRating (now : Nat) (movieId : ObjectId) (s : Store) : Store :=
  let stats := Review.aggregate movieId s.reviews
  match stats with
  | st :: _ =>
    { s with movies := Movie.findByIdAndUpdate now s.movies movieId (fun m =>
        { m with averageRating := (Math.round (st.averageRating * 10) : Number) / 10
                 totalReviews := st.totalReviews }) }
  | [] =>
    { s with movies := Movie.findByIdAndUpdate now s.movies movieId (fun m =>
        { m with averageRating := 0, totalReviews := 0 }) }

/-! ## Mongoose middleware on the review schema (`models/Review.js`, lines 53-66) -/

/-- The Mongoose operations whose middleware matters here. `review.save()` runs the
`save` middleware; `Review.findByIdAndUpdate` is a `findOneAndUpdate` query and runs
only the `findOneAndUpdate` middleware. -/
inductive Middleware
  | save
  | remove
  | findOneAndDelete
  | findOneAndUpdate
  deriving DecidableEq, Repr

/-- The post hooks registered by `reviewSchema.post(...)`: one for `save`, one for
`remove`, one for `findOneAndDelete` (guarded by `if (doc)`). The schema registers no
hook for `findOneAndUpdate`. The hooks run at the time `now`. -/
def reviewSchema.post (now : Nat) (op : Middleware) (doc : Option Review) (s : Store) :
    Store :=
  match op, doc with
  | .save, some d => updateMovieRating now d.movieId s
  | .remove, some d => updateMovieRating now d.movieId s
  | .findOneAndDelete, some d => updateMovieRating now d.movieId s
  | _, _ => s

/-- The schema validators of a review (`rating`: `min: 1, max: 5`; `reviewText`:
`required`, `maxlength: 1000`). -/
def Review.validate (r : Review) : Bool :=
  decide (1 ≤ r.rating) && decide (r.rating ≤ 5) &&
    decide (0 < r.reviewText.length) && decide (r.reviewText.length ≤ 1000)

/-- The unique index `{ userId: 1, movieId: 1 }`: does a document other than `r`
already hold the key of `r`? -/
def Review.duplicateKey (reviews : List Review) (r : Review) : Bool :=
  reviews.any (fun x => x._id != r._id && x.userId == r.userId && x.movieId == r.movieId)

/-- `new Review(fields)` followed by `review.save()`: the setter `trim: true`, the
validators, the insertion under the unique index, then the post `save` hook. `none`
stands for a thrown error. -/
def Review.save (now : Nat) (doc : Review) (s : Store) : Option Store :=
  let d := { doc with reviewText := trim doc.reviewText }
  if !Review.validate d then none
  else if s.reviews.any (fun x => x._id == d._id) || Review.duplicateKey s.reviews d then none
  else some (reviewSchema.post now .save (some d) { s with reviews := s.reviews ++ [d] })

/-- `Review.findByIdAndUpdate(id, update)`: the first review with that id is rewritten
under the unique index, then the post hooks of `findOneAndUpdate` run. `none` stands
for a thrown error. -/
def Review.findByIdAndUpdate (now : Nat) (id : ObjectId) (f : Review → Review)
    (s : Store) : Option Store :=
  match Review.findById s.reviews id with
  | none => some (reviewSchema.post now .findOneAndUpdate none s)
  | some r =>
    if Review.duplicateKey s.reviews (f r) then none
    else
      let s2 := { s with reviews := updateFirst (fun x => x._id == id) f s.reviews }
      some (reviewSchema.post now .findOneAndUpdate (some (f r)) s2)

/-! ## Requests and responses -/

/-- The JSON body of a review request. Every field of the schema may be present: the
update route spreads the whole body into the update document. -/
structure ReviewBody where
  rating : Option Number := none
  reviewText : Option String := none
  isEdited : Option Bool := none
  editedAt : Option Nat := none
  helpfulVotes : Option Number := none
  reportCount : Option Number := none
  isActive : Option Bool := none
  userId : Option ObjectId := none
  movieId : Option ObjectId := none
  deriving DecidableEq, Repr

/-- What a handler sends with `res.json`. -/
inductive Payload
  | message (text : String)
  | errors (messages : List String)
  | serverError
  | review (text : String) (review : Option Review)
  deriving DecidableEq, Repr

/-- A response: the status code and the JSON payload. -/
structure Response where
  status : Nat
  payload : Payload
  deriving DecidableEq, Repr

/-- What the handler takes from outside the request: the clock and the `_id` that
`new Review(...)` generates. -/
structure Env where
  now : Nat
  newId : ObjectId
  deriving DecidableEq, Repr

/-- The express-validator check `isInt({ min, max })` on a numeric field; an absent
field fails. -/
def isInt (lo hi : ℤ) (v : Option Number) : Bool :=
  match v with
  | none => false
  | some q => decide (q.den = 1) && decide (lo ≤ q.num) && decide (q.num ≤ hi)

/-- The express-validator chain `trim().isLength({ min, max })`; an absent field is the
empty string. -/
def isLengthTrimmed (lo hi : Nat) (v : Option String) : Bool :=
  let t := trim (v.getD "")
  decide (lo ≤ t.length) && decide (t.length ≤ hi)

/-- The sanitizer `trim()` as it leaves `req.body.reviewText`. -/
def sanitizeBody (b : ReviewBody) : ReviewBody :=
  { b with reviewText := b.reviewText.map trim }

/-- The validation chain of `POST /reviews/movie/:movieId` (lines 48-51): the list of
error messages, empty when the body passes. -/
def validatePost (b : ReviewBody) : List String :=
  (if isInt 1 5 b.rating then [] else ["Rating must be between 1 and 5"]) ++
  (if isLengthTrimmed 10 1000 b.reviewText then [] else ["Review must be 10-1000 characters"])

/-- The validation chain of `PUT /reviews/:id` (lines 91-94): both checks are
`optional()`. -/
def validatePut (b : ReviewBody) : List String :=
  (if b.rating.isNone || isInt 1 5 b.rating then [] else ["Rating must be between 1 and 5"]) ++
  (if b.reviewText.isNone || isLengthTrimmed 10 1000 b.reviewText then []
   else ["Review must be 10-1000 characters"])

/-! ## The review routes (`routes/reviews.js`) -/

/-- The update document applied to a stored review: every field present in the update
replaces the stored one. -/
def applyUpdate (u : ReviewBody) (r : Review) : Review :=
  { r with
    rating := u.rating.getD r.rating
    reviewText := u.reviewText.getD r.reviewText
    isEdited := u.isEdited.getD r.isEdited
    editedAt := match u.editedAt with
      | some t => some t
      | none => r.editedAt
    helpfulVotes := u.helpfulVotes.getD r.helpfulVotes
    reportCount := u.reportCount.getD r.reportCount
    isActive := u.isActive.getD r.isActive
    userId := u.userId.getD r.userId
    movieId := u.movieId.getD r.movieId }

/-- The update validators that `runValidators: true` runs on the fields of an update. -/
def runValidators (u : ReviewBody) : Bool :=
  (match u.rating with
    | some q => decide (1 ≤ q) && decide (q ≤ 5)
    | none => true) &&
  (match u.reviewText with
    | some t => decide (0 < t.length) && decide (t.length ≤ 1000)
    | none => true)

/-- The handler of `POST /reviews/movie/:movieId` (lines 48-88), after
`authenticateToken` has set `req.user`. -/
def postMovieReview (env : Env) (reqUser : User) (movieId : ObjectId) (body : ReviewBody)
    (s : Store) : Response × Store :=
  if validatePost body ≠ [] then (⟨400, .errors (validatePost body)⟩, s)
  else
    let body := sanitizeBody body
    match Movie.findById s.movies movieId with
    | none => (⟨404, .message "Movie not found"⟩, s)
    | some movie =>
      if !movie.isActive then (⟨404, .message "Movie not found"⟩, s)
      else
        match s.reviews.find? (fun r => r.userId == reqUser._id && r.movieId == movieId) with
        | some _ => (⟨400, .message "You have already reviewed this movie"⟩, s)
        | none =>
          match body.rating, body.reviewText with
          | some rating, some reviewText =>
            let review : Review :=
              { _id := env.newId, userId := reqUser._id, movieId := movieId, rating := rating
                reviewText := trim reviewText, createdAt := env.now }
            match Review.save env.now review s with
            | none => (⟨500, .serverError⟩, s)
            | some s2 => (⟨201, .review "Review added successfully" (some review)⟩, s2)
          | _, _ => (⟨500, .serverError⟩, s)

/-- The handler of `PUT /reviews/:id` (lines 91-125), after `authenticateToken` has set
`req.user`. -/
def putReview (env : Env) (reqUser : User) (id : ObjectId) (body : ReviewBody)
    (s : Store) : Response × Store :=
  if validatePut body ≠ [] then (⟨400, .errors (validatePut body)⟩, s)
  else
    let body := sanitizeBody body
    match Review.findById s.reviews id with
    | none => (⟨404, .message "Review not found"⟩, s)
    | some review =>
      if !review.isActive then (⟨404, .message "Review not found"⟩, s)
      else if review.userId != reqUser._id && !reqUser.isAdmin then
        (⟨403, .message "You can only edit your own reviews"⟩, s)
      else
        let update : ReviewBody := { body with isEdited := some true, editedAt := some env.now }
        if !runValidators update then (⟨500, .serverError⟩, s)
        else
          match Review.findByIdAndUpdate env.now id (applyUpdate update) s with
          | none => (⟨500, .serverError⟩, s)
          | some s2 =>
            (⟨200, .review "Review updated successfully" (Review.findById s2.reviews id)⟩, s2)

/-- The handler of `DELETE /reviews/:id` (lines 128-145), after `authenticateToken` has
set `req.user`; `now` is the time of the request. -/
def deleteReview (now : Nat) (reqUser : User) (id : ObjectId) (s : Store) :
    Response × Store :=
  match Review.findById s.reviews id with
  | none => (⟨404, .message "Review not found"⟩, s)
  | some review =>
    if !review.isActive then (⟨404, .message "Review not found"⟩, s)
    else if review.userId != reqUser._id && !reqUser.isAdmin then
      (⟨403, .message "You can only delete your own reviews"⟩, s)
    else
      match Review.findByIdAndUpdate now id (fun r => { r with isActive := false }) s with
      | none => (⟨500, .serverError⟩, s)
      | some s2 => (⟨200, .message "Review deleted successfully"⟩, s2)

/-! ## The watchlist route (`routes/users.js`, lines 82-101) -/

/-- `user.save()` for a loaded user: the stored document with that `_id` is replaced. -/
def User.save (u : User) (s : Store) : Store :=
  { s with users := updateFirst (fun x => x._id == u._id) (fun _ => u) s.users }

/-- The handler of `POST /users/watchlist/:movieId`, after `authenticateToken` has set
`req.user`. Reading `watchlist` of a user that `User.findById` does not find throws, and
the `catch` answers 500. -/
def postWatchlist (reqUser : User) (movieId : ObjectId) (s : Store) : Response × Store :=
  match Movie.findById s.movies movieId with
  | none => (⟨404, .message "Movie not found"⟩, s)
  | some movie =>
    if !movie.isActive then (⟨404, .message "Movie not found"⟩, s)
    else
      match User.findById s.users reqUser._id with
      | none => (⟨500, .serverError⟩, s)
      | some user =>
        if user.watchlist.contains movieId then
          (⟨400, .message "Movie already in watchlist"⟩, s)
        else
          (⟨200, .message "Movie added to watchlist"⟩,
            User.save { user with watchlist := user.watchlist ++ [movieId] } s)

/-! ## The words of the specification -/

/-- The active reviews referencing a movie. -/
def Spec.activeReviews (movieId : ObjectId) (reviews : List Review) : List Review :=
  reviews.filter (fun r => decide (r.movieId = movieId ∧ r.isActive = true))

/-- The arithmetic mean of a list of numbers. -/
def Spec.mean (xs : List Number) : Number := xs.sum / (xs.length : Number)

/-- The aggregate pair of the specification for a list of active reviews: the mean
rating rounded to one decimal and the count, or zero and zero for no review. -/
def Spec.aggregate (active : List Review) : Number × Number :=
  if active = [] then (0, 0)
  else ((Math.round (Spec.mean (active.map (fun r => r.rating)) * 10) : Number) / 10,
        (active.length : Number))

/-- The aggregate pair a movie record carries. -/
def Movie.aggregate (m : Movie) : Number × Number := (m.averageRating, m.totalReviews)

/-! ## Sample data -/

/-- Movie X of the example scenario, with no reviews yet. -/
def movieX : Movie :=
  { _id := 7, title := "X", genre := ["Drama"], releaseYear := 2000, director := "D"
    synopsis := "S", duration := 90 }

/-- User A. -/
def userA : User := { _id := 1, username := "alice" }

/-- User B. -/
def userB : User := { _id := 2, username := "bob" }

/-- The store at the start of the example scenario. -/
def store0 : Store := { users := [userA, userB], movies := [movieX], reviews := [] }

/-- A review body with a rating and a text. -/
def bodyOf (rating : Number) (text : String) : ReviewBody :=
  { rating := some rating, reviewText := some text }

/-- A store with an active review of movie 7 (rating 4), an active review of movie 7
(rating 3), an inactive review of movie 7 and a review of another movie. -/
def storeC1 : Store :=
  { users := [userA, userB]
    movies := [{ movieX with averageRating := 1, totalReviews := 9 }]
    reviews :=
      [ { _id := 11, userId := 1, movieId := 7, rating := 4, reviewText := "a fine movie" },
        { _id := 12, userId := 2, movieId := 7, rating := 3, reviewText := "a fair movie" },
        { _id := 13, userId := 3, movieId := 7, rating := 1, reviewText := "a poor movie"
          isActive := false },
        { _id := 14, userId := 1, movieId := 8, rating := 5, reviewText := "another one" } ] }

/-- A store whose only review of movie 7 is inactive, the movie holding stale values. -/
def storeC2 : Store :=
  { users := [userA]
    movies := [{ movieX with averageRating := 4, totalReviews := 1 }]
    reviews :=
      [ { _id := 11, userId := 1, movieId := 7, rating := 4, reviewText := "a fine movie"
          isActive := false } ] }

/-- Step 1 of the example scenario: user A reviews movie X with rating 4. -/
def scenario1 : Response × Store :=
  postMovieReview ⟨100, 11⟩ userA 7 (bodyOf 4 "a fine movie indeed") store0

/-- Step 2: user B reviews movie X with rating 2. -/
def scenario2 : Response × Store :=
  postMovieReview ⟨101, 12⟩ userB 7 (bodyOf 2 "a poor movie indeed") scenario1.2

/-- Step 3: user A updates their review to rating 5. -/
def scenario3 : Response × Store :=
  putReview ⟨102, 0⟩ userA 11 { rating := some 5 } scenario2.2

/-- Step 4: user B deletes their review. -/
def scenario4 : Response × Store := deleteReview 103 userB 12 scenario3.2

/-- Step 5: user A deletes their review. -/
def scenario5 : Response × Store := deleteReview 104 userA 11 scenario4.2

/-- The aggregate pair stored on movie X. -/
def aggregateOfX (s : Store) : Option (Number × Number) :=
  (Movie.findById s.movies 7).map Movie.aggregate

/-- The reviews of `storeC1` in another order, the movie holding other stale values. -/
def storeC7 : Store :=
  { users := [userB, userA]
    movies := [{ movieX with averageRating := 5, totalReviews := 0 }]
    reviews :=
      [ { _id := 14, userId := 1, movieId := 8, rating := 5, reviewText := "another one" },
        { _id := 12, userId := 2, movieId := 7, rating := 3, reviewText := "a fair movie" },
        { _id := 11, userId := 1, movieId := 7, rating := 4, reviewText := "a fine movie" } ] }

/-- A store with three active reviews of movie 7, of ratings 5, 4 and 4. -/
def storeC8 : Store :=
  { users := [userA, userB]
    movies := [movieX]
    reviews :=
      [ { _id := 11, userId := 1, movieId := 7, rating := 5, reviewText := "a fine movie" },
        { _id := 12, userId := 2, movieId := 7, rating := 4, reviewText := "a good movie" },
        { _id := 13, userId := 3, movieId := 7, rating := 4, reviewText := "a good movie" } ] }

/-- Movie X soft-deleted, with a review of it by user A still in the collection. -/
def storeC9 : Store :=
  { users := [userA, userB]
    movies := [{ movieX with averageRating := 4, totalReviews := 1, isActive := false }]
    reviews :=
      [ { _id := 11, userId := 1, movieId := 7, rating := 4, reviewText := "a fine movie" } ] }

/-- A store in which user A has movies 3 and 7 in the watchlist. -/
def storeC10 : Store :=
  { users := [{ userA with watchlist := [3, 7] }, userB], movies := [movieX], reviews := [] }

/-! ## Watchlist removal and request sequences (`routes/users.js`, lines 104-114) -/

/-- The handler of `DELETE /users/watchlist/:movieId`, after `authenticateToken` has set
`req.user`: the watchlist is filtered and the user saved, whether or not the movie was
in it; no movie lookup is made. -/
def deleteWatchlist (reqUser : User) (movieId : ObjectId) (s : Store) : Response × Store :=
  match User.findById s.users reqUser._id with
  | none => (⟨500, .serverError⟩, s)
  | some user =>
    (⟨200, .message "Movie removed from watchlist"⟩,
      User.save { user with watchlist := user.watchlist.filter (fun id => id != movieId) } s)

/-- A watchlist request: who asks, which route, which movie. -/
inductive WatchlistRequest
  | add (reqUser : User) (movieId : ObjectId)
  | remove (reqUser : User) (movieId : ObjectId)
  deriving DecidableEq, Repr

/-- The handler a watchlist request reaches. -/
def WatchlistRequest.handle (r : WatchlistRequest) (s : Store) : Response × Store :=
  match r with
  | .add reqUser movieId => postWatchlist reqUser movieId s
  | .remove reqUser movieId => deleteWatchlist reqUser movieId s

/-- The store after a sequence of watchlist requests, handled one after the other. -/
def runWatchlist (reqs : List WatchlistRequest) (s : Store) : Store :=
  reqs.foldl (fun st r => (r.handle st).2) s

/-- A store with two active movies in which user A has 3 and 7 in the watchlist. -/
def storeC11 : Store :=
  { users := [{ userA with watchlist := [3, 7] }, userB]
    movies := [movieX, { movieX with _id := 3, title := "Y" }], reviews := [] }

/-! ## JavaScript and validator.js primitives on query strings -/

/-- The value of a string of decimal digits. -/
def digitsValue (ds : List Char) : Nat :=
  ds.foldl (fun acc c => 10 * acc + (c.toNat - 48)) 0

/-- Is the character a hexadecimal digit? -/
def isHexDigit (c : Char) : Bool :=
  c.isDigit || (decide ('a' ≤ c) && decide (c ≤ 'f')) || (decide ('A' ≤ c) && decide (c ≤ 'F'))

/-- The value of a string of hexadecimal digits. -/
def hexValue (ds : List Char) : Nat :=
  ds.foldl (fun acc c =>
    16 * acc + (if c.isDigit then c.toNat - 48
      else if decide ('a' ≤ c) then c.toNat - 87 else c.toNat - 55)) 0

/-- An optional leading sign: is it a minus, and what follows it. -/
def splitSign : List Char → Bool × List Char
  | '-' :: r => (true, r)
  | '+' :: r => (false, r)
  | r => (false, r)

/-- A magnitude under a sign. -/
def applySign (neg : Bool) (n : Nat) : ℤ := if neg then -(n : ℤ) else (n : ℤ)

/-- `parseInt(value)` without radix on a query value: `none` is `NaN`. Leading white
space (`WhiteSpace` and `LineTerminator`) is skipped, a sign is read, a `0x` or `0X`
prefix selects base 16, and the longest run of digits is taken. An absent value gives
`NaN`. -/
def parseInt (v : Option String) : Option ℤ :=
  match v with
  | none => none
  | some str =>
    let signed := splitSign (str.toList.dropWhile isWhiteSpace)
    match signed.2 with
    | '0' :: 'x' :: h =>
      if (h.takeWhile isHexDigit).isEmpty then none
      else some (applySign signed.1 (hexValue (h.takeWhile isHexDigit)))
    | '0' :: 'X' :: h =>
      if (h.takeWhile isHexDigit).isEmpty then none
      else some (applySign signed.1 (hexValue (h.takeWhile isHexDigit)))
    | rest =>
      if (rest.takeWhile Char.isDigit).isEmpty then none
      else some (applySign signed.1 (digitsValue (rest.takeWhile Char.isDigit)))

/-- `parseInt(value) || d`: `NaN` and 0 are falsy. -/
def orDefault (v : Option ℤ) (d : ℤ) : ℤ :=
  match v with
  | some n => if n = 0 then d else n
  | none => d

/-- The regular expression of validator.js `isInt`, `^[-+]?[0-9]+$`. -/
def matchesInt (cs : List Char) : Bool :=
  !(splitSign cs).2.isEmpty && (splitSign cs).2.all Char.isDigit

/-- The number a string that matches `matchesInt` converts to in a comparison. -/
def toNumberInt (cs : List Char) : ℤ :=
  applySign (splitSign cs).1 (digitsValue (splitSign cs).2)

/-- The check `isInt({ min, max })` of validator.js on a query string; an absent bound
is not checked. -/
def isIntStr (lo hi : Option ℤ) (str : String) : Bool :=
  matchesInt str.toList &&
    (match lo with
      | some m => decide (m ≤ toNumberInt str.toList)
      | none => true) &&
    (match hi with
      | some m => decide (toNumberInt str.toList ≤ m)
      | none => true)

/-- What the catalog route takes from JavaScript, validator.js and MongoDB without it
being computed here: the check `isFloat({ min, max })`, `parseFloat` (`none` is `NaN`)
and the text index match of `$text: { $search }`. -/
structure Platform where
  isFloat : Number → Number → String → Bool
  parseFloat : String → Option Number
  textSearch : String → Movie → Bool

/-! ## Pagination (`routes/movies.js`, `routes/reviews.js`, `routes/users.js`) -/

/-- `Math.ceil`. -/
def Math.ceil (x : Number) : ℤ := ⌈x⌉

/-- The `pagination` object of a listing response. -/
structure Pagination where
  currentPage : ℤ
  totalPages : ℤ
  total : Nat
  hasNext : Bool
  hasPrev : Bool
  deriving DecidableEq, Repr

/-- The `pagination` object the three listing handlers build from `page`, `limit` and
the count of matching documents. -/
def pagination (page limit : ℤ) (total : Nat) : Pagination :=
  { currentPage := page
    totalPages := Math.ceil ((total : Number) / (limit : Number))
    total := total
    hasNext := decide (page < Math.ceil ((total : Number) / (limit : Number)))
    hasPrev := decide (page > 1) }

/-- The cursor calls `.skip(skip).limit(limit)` on a sorted result: a negative skip is
an error of the store (`none`), a limit of 0 is no limit and a negative limit counts as
its absolute value. -/
def skipLimit {α : Type} (skip limit : ℤ) (docs : List α) : Option (List α) :=
  if skip < 0 then none
  else if limit = 0 then some (docs.drop skip.toNat)
  else some ((docs.drop skip.toNat).take limit.natAbs)

/-- What a listing handler answers: 200 with a page and its pagination object, 400 with
validation errors, or 500. -/
inductive Listing (α : Type)
  | ok (items : List α) (pagination : Pagination)
  | badRequest (errors : List String)
  | serverError
  deriving DecidableEq, Repr

/-- The status code of a listing answer. -/
def Listing.status {α : Type} : Listing α → Nat
  | .ok _ _ => 200
  | .badRequest _ => 400
  | .serverError => 500

/-- The sort `{ createdAt: -1 }` on reviews. -/
def Review.sortNewest (reviews : List Review) : List Review :=
  reviews.insertionSort (fun a b => b.createdAt ≤ a.createdAt)

/-- The shared body of the two review listings: `page` and `limit` are read with
`parseInt(...) || default`, the matching reviews are sorted newest first, skipped and
limited, and counted for the pagination object. -/
def listReviews (page limit : Option String) (matching : List Review) : Listing Review :=
  match skipLimit ((orDefault (parseInt page) 1 - 1) * orDefault (parseInt limit) 10)
      (orDefault (parseInt limit) 10) (Review.sortNewest matching) with
  | none => .serverError
  | some reviews =>
    .ok reviews (pagination (orDefault (parseInt page) 1) (orDefault (parseInt limit) 10)
      matching.length)

/-- The handler of `GET /reviews/movie/:movieId` (`routes/reviews.js`, lines 12-45). -/
def getMovieReviews (movieId : ObjectId) (page limit : Option String) (s : Store) :
    Listing Review :=
  listReviews page limit (s.reviews.filter (fun r => r.movieId == movieId && r.isActive))

/-- The handler of `GET /users/reviews` (`routes/users.js`, lines 117-150), after
`authenticateToken` has set `req.user`. -/
def getUserReviews (reqUser : User) (page limit : Option String) (s : Store) :
    Listing Review :=
  listReviews page limit (s.reviews.filter (fun r => r.userId == reqUser._id && r.isActive))

/-! ## The catalog listing (`routes/movies.js`, lines 11-90) -/

/-- The query string of `GET /movies`. -/
structure MoviesQuery where
  page : Option String := none
  limit : Option String := none
  search : Option String := none
  genre : Option String := none
  year : Option String := none
  minRating : Option String := none
  sortBy : Option String := none
  deriving DecidableEq, Repr

/-- The validation chain of `GET /movies` (lines 11-18), every check `optional()`: the
list of error messages, empty when the query passes. -/
def validateMovies (P : Platform) (q : MoviesQuery) : List String :=
  (match q.page with
    | some v => if isIntStr (some 1) none v then [] else ["Page must be a positive integer"]
    | none => []) ++
  (match q.limit with
    | some v => if isIntStr (some 1) (some 50) v then [] else ["Limit must be 1-50"]
    | none => []) ++
  (match q.year with
    | some v => if isIntStr (some 1900) none v then [] else ["Invalid value"]
    | none => []) ++
  (match q.minRating with
    | some v => if P.isFloat 0 5 v then [] else ["Invalid value"]
    | none => [])

/-- The sanitizers `trim()` on `search` and `genre` as they leave `req.query`. -/
def sanitizeQuery (q : MoviesQuery) : MoviesQuery :=
  { q with search := q.search.map trim, genre := q.genre.map trim }

/-- Is a query value truthy: present and not the empty string. -/
def truthy (v : Option String) : Bool :=
  match v with
  | some str => str != ""
  | none => false

/-- The filter object handed to `Movie.find` and `Movie.countDocuments`. An absent field
is an absent key; the inner option of `releaseYear` and `averageRating` is the number
parsed, `none` being `NaN`. -/
structure MovieFilter where
  isActive : Bool
  text : Option String := none
  genre : Option (List String) := none
  releaseYear : Option (Option ℤ) := none
  averageRating : Option (Option Number) := none
  deriving DecidableEq, Repr

/-- The filter built from the sanitized query (lines 29-50). -/
def buildFilter (P : Platform) (q : MoviesQuery) : MovieFilter :=
  { isActive := true
    text := if truthy q.search then q.search else none
    genre := if truthy q.genre then q.genre.map (fun g => [g]) else none
    releaseYear := if truthy q.year then some (parseInt q.year) else none
    averageRating := if truthy q.minRating then q.minRating.map P.parseFloat else none }

/-- Does a movie satisfy the filter: `isActive` equal, the text index match, a genre
among the listed ones, the release year equal, the average rating at least the bound
(nothing equals or exceeds `NaN`). -/
def MovieFilter.matches (P : Platform) (f : MovieFilter) (m : Movie) : Bool :=
  (m.isActive == f.isActive) &&
  (match f.text with
    | some t => P.textSearch t m
    | none => true) &&
  (match f.genre with
    | some gs => m.genre.any (fun g => gs.contains g)
    | none => true) &&
  (match f.releaseYear with
    | some (some y) => decide (m.releaseYear = (y : Number))
    | some none => false
    | none => true) &&
  (match f.averageRating with
    | some (some r) => decide (r ≤ m.averageRating)
    | some none => false
    | none => true)

/-- The fields the catalog can be sorted on. -/
inductive SortField
  | averageRating
  | releaseYear
  | title
  | createdAt
  deriving DecidableEq, Repr

/-- A sort option: one field and its direction, 1 ascending and -1 descending. -/
structure SortOption where
  field : SortField
  direction : ℤ
  deriving DecidableEq, Repr

/-- The `switch (req.query.sortBy)` of lines 52-66. -/
def sortOption (sortBy : Option String) : SortOption :=
  match sortBy with
  | some "rating" => { field := .averageRating, direction := -1 }
  | some "year" => { field := .releaseYear, direction := -1 }
  | some "title" => { field := .title, direction := 1 }
  | _ => { field := .createdAt, direction := -1 }

/-- The order of two movies on one field, smaller value first. -/
def SortField.le (f : SortField) (a b : Movie) : Prop :=
  match f with
  | .averageRating => a.averageRating ≤ b.averageRating
  | .releaseYear => a.releaseYear ≤ b.releaseYear
  | .title => a.title ≤ b.title
  | .createdAt => a.createdAt ≤ b.createdAt

instance (f : SortField) (a b : Movie) : Decidable (f.le a b) := by
  cases f <;> unfold SortField.le <;> infer_instance

/-- May `a` stand before `b` under the sort option. -/
def SortOption.before (o : SortOption) (a b : Movie) : Prop :=
  if o.direction < 0 then o.field.le b a else o.field.le a b

instance (o : SortOption) : DecidableRel o.before := by
  intro a b; unfold SortOption.before; infer_instance

/-- The cursor call `.sort(sortOption)` on movies. -/
def Movie.sort (o : SortOption) (movies : List Movie) : List Movie :=
  movies.insertionSort o.before

/-- The page size `GET /movies` uses: `parseInt(req.query.limit) || 12`. -/
def moviesLimit (q : MoviesQuery) : ℤ := orDefault (parseInt q.limit) 12

/-- The page number `GET /movies` uses: `parseInt(req.query.page) || 1`. -/
def moviesPage (q : MoviesQuery) : ℤ := orDefault (parseInt q.page) 1

/-- The movies that match the filter of a sanitized query, sorted as asked. -/
def moviesMatching (P : Platform) (q : MoviesQuery) (s : Store) : List Movie :=
  Movie.sort (sortOption q.sortBy) (s.movies.filter ((buildFilter P q).matches P))

/-- The handler of `GET /movies`. -/
def getMovies (P : Platform) (q : MoviesQuery) (s : Store) : Listing Movie :=
  if validateMovies P q ≠ [] then .badRequest (validateMovies P q)
  else
    match skipLimit ((moviesPage q - 1) * moviesLimit q) (moviesLimit q)
        (moviesMatching P (sanitizeQuery q) s) with
    | none => .serverError
    | some movies =>
      .ok movies (pagination (moviesPage q) (moviesLimit q)
        (moviesMatching P (sanitizeQuery q) s).length)

/-! ## Sample data for the catalog -/

/-- A sample platform: numbers are read as integers and the text index matches a movie
by its exact title. -/
def samplePlatform : Platform :=
  { isFloat := fun _ _ v => isIntStr (some 0) (some 5) v
    parseFloat := fun v => (parseInt (some v)).map (fun z => (z : Number))
    textSearch := fun t m => m.title == t }

/-- A catalog of three active movies and a soft-deleted one. -/
def catalog : Store :=
  { users := [userA]
    reviews := []
    movies :=
      [ { movieX with _id := 1, title := "B", averageRating := 3, createdAt := 5 },
        { movieX with _id := 2, title := "A", averageRating := 4, createdAt := 6
                      releaseYear := 1999, genre := ["Comedy"] },
        { movieX with _id := 3, title := "C", averageRating := 2, createdAt := 7 },
        { movieX with _id := 4, title := "D", isActive := false } ] }

/-! ## The access-control middleware (`middleware/auth.js`) -/

/-- What a middleware does with a request: it sends a response and stops, or it calls
`next()` with `req.user` as it then stands (`none` for a request left anonymous). -/
inductive Next
  | respond (response : Response)
  | next (reqUser : Option User)
  deriving DecidableEq, Repr

/-- What `jwt.verify(token, process.env.JWT_SECRET)` does with a token: it returns the
decoded payload, of which `userId` is read (absent when the payload has none), or it
throws an error named `JsonWebTokenError`, `TokenExpiredError`, or another name. -/
inductive Verified
  | decoded (userId : Option ObjectId)
  | jsonWebTokenError
  | tokenExpiredError
  | otherError
  deriving DecidableEq, Repr

/-- The expression `authHeader && authHeader.split(' ')[1]`: the second of the pieces of
the header between single spaces. -/
def bearerToken (authHeader : Option String) : Option String :=
  match authHeader with
  | none => none
  | some h => (h.splitOn " ")[1]?

/-- `authenticateToken` (lines 5-33), `verify` standing for `jwt.verify` with the
secret of the server. An absent or empty token is falsy. -/
def authenticateToken (verify : String → Verified) (authHeader : Option String)
    (s : Store) : Next :=
  match bearerToken authHeader with
  | none => .respond ⟨401, .message "Access denied. No token provided."⟩
  | some token =>
    if token = "" then .respond ⟨401, .message "Access denied. No token provided."⟩
    else
      match verify token with
      | .decoded userId =>
        match userId.bind (User.findById s.users) with
        | none => .respond ⟨401, .message "Invalid token. User not found."⟩
        | some user =>
          if !user.isActive then .respond ⟨401, .message "Invalid token. User not found."⟩
          else .next (some user)
      | .jsonWebTokenError => .respond ⟨401, .message "Invalid token."⟩
      | .tokenExpiredError => .respond ⟨401, .message "Token expired."⟩
      | .otherError => .respond ⟨500, .message "Token verification failed."⟩

/-- `requireAdmin` (lines 35-46). -/
def requireAdmin (reqUser : Option User) : Next :=
  match reqUser with
  | none => .respond ⟨401, .message "Authentication required."⟩
  | some user =>
    if !user.isAdmin then .respond ⟨403, .message "Admin access required."⟩
    else .next (some user)

/-- `optionalAuth` (lines 48-67) on a request without `req.user`: every error is caught
and ignored, and `next()` is called after the `try`. -/
def optionalAuth (verify : String → Verified) (authHeader : Option String)
    (s : Store) : Next :=
  match bearerToken authHeader with
  | none => .next none
  | some token =>
    if token = "" then .next none
    else
      match verify token with
      | .decoded userId =>
        match userId.bind (User.findById s.users) with
        | none => .next none
        | some user => if user.isActive then .next (some user) else .next none
      | _ => .next none

/-- A sample `jwt.verify`: the token `good1` decodes to user 1, `good2` to user 2, `good3`
to user 3, `good9` to user 9, `old` has expired, and every other token is malformed. -/
def sampleVerify (token : String) : Verified :=
  if token = "good1" then .decoded (some 1)
  else if token = "good2" then .decoded (some 2)
  else if token = "good3" then .decoded (some 3)
  else if token = "good9" then .decoded (some 9)
  else if token = "old" then .tokenExpiredError
  else .jsonWebTokenError

/-- A store with an admin, an active user and a deactivated user. -/
def storeAuth : Store :=
  { users := [{ userA with isAdmin := true }, userB,
      { _id := 3, username := "carol", isActive := false }]
    movies := [movieX], reviews := [] }

/-! ## Counters of a review -/

/-- The identity of a review with its two counters `helpfulVotes` and `reportCount`. -/
def Review.counters (r : Review) : ObjectId × Number × Number :=
  (r._id, r.helpfulVotes, r.reportCount)

/-! ## The items of a listing answer -/

/-- The documents a listing answer carries: the page for 200, none otherwise. -/
def Listing.items {α : Type} : Listing α → List α
  | .ok items _ => items
  | .badRequest _ => []
  | .serverError => []

/-- The pagination object a listing answer carries, if any. -/
def Listing.pagination? {α : Type} : Listing α → Option Pagination
  | .ok _ pagination => some pagination
  | .badRequest _ => none
  | .serverError => none

/-! ## The admin routes of the catalog (`routes/movies.js`, lines 121-162) -/

/-- The JSON body of a movie request: every field of the schema may be present, since
`new Movie(req.body)` and `{ ...req.body }` take the whole body. -/
structure MovieBody where
  title : Option String := none
  genre : Option (List String) := none
  releaseYear : Option Number := none
  director : Option String := none
  cast : Option (List String) := none
  synopsis : Option String := none
  posterUrl : Option String := none
  trailerUrl : Option String := none
  averageRating : Option Number := none
  totalReviews : Option Number := none
  duration : Option Number := none
  language : Option String := none
  isActive : Option Bool := none
  deriving DecidableEq, Repr

/-- What an admin route of the catalog sends with `res.json`. -/
inductive MoviePayload
  | message (text : String)
  | errors (messages : List String)
  | serverError
  | movie (text : String) (movie : Movie)
  deriving DecidableEq, Repr

/-- A response of an admin route of the catalog. -/
structure MovieResponse where
  status : Nat
  payload : MoviePayload
  deriving DecidableEq, Repr

/-- The express-validator check `isInt({ min })` on a numeric field; an absent field
fails. -/
def isIntMin (lo : ℤ) (v : Option Number) : Bool :=
  match v with
  | none => false
  | some q => decide (q.den = 1) && decide (lo ≤ q.num)

/-- The express-validator chain `trim().notEmpty()`; an absent field is the empty
string. -/
def notEmptyTrimmed (v : Option String) : Bool := trim (v.getD "") != ""

/-- The validation chain of `POST /movies` (lines 123-128). -/
def validateMoviePost (b : MovieBody) : List String :=
  (if notEmptyTrimmed b.title then [] else ["Title is required"]) ++
  (if (match b.genre with
        | some g => decide (1 ≤ g.length)
        | none => false) then [] else ["At least one genre is required"]) ++
  (if isIntMin 1900 b.releaseYear then [] else ["Valid release year is required"]) ++
  (if notEmptyTrimmed b.director then [] else ["Director is required"]) ++
  (if notEmptyTrimmed b.synopsis then [] else ["Synopsis is required"]) ++
  (if isIntMin 1 b.duration then [] else ["Duration in minutes is required"])

/-- The sanitizers `trim()` on `title`, `director` and `synopsis` as they leave
`req.body`. -/
def sanitizeMovieBody (b : MovieBody) : MovieBody :=
  { b with title := b.title.map trim, director := b.director.map trim
           synopsis := b.synopsis.map trim }

/-- The schema validators of a movie (`models/Movie.js`): the required strings are not
empty, `releaseYear` lies between 1900 and the bound computed when the schema was loaded
(`new Date().getFullYear() + 5`), `synopsis` has at most 2000 characters and
`averageRating` lies between 0 and 5. -/
def Movie.validate (maxYear : ℤ) (m : Movie) : Bool :=
  decide (m.title ≠ "") && m.genre.all (fun g => g != "") &&
    decide (1900 ≤ m.releaseYear) && decide (m.releaseYear ≤ (maxYear : Number)) &&
    decide (m.director ≠ "") && decide (m.synopsis ≠ "") &&
    decide (m.synopsis.length ≤ 2000) &&
    decide (0 ≤ m.averageRating) && decide (m.averageRating ≤ 5)

/-- The handler of `POST /movies`, after `authenticateToken` and `requireAdmin`:
`new Movie(req.body)` takes every field the body has and the schema defaults for the
others, `movie.save()` validates and inserts. The movie schema has no hook. -/
def postMovie (maxYear : ℤ) (env : Env) (body : MovieBody) (s : Store) :
    MovieResponse × Store :=
  if validateMoviePost body ≠ [] then (⟨400, .errors (validateMoviePost body)⟩, s)
  else
    match (sanitizeMovieBody body).title, (sanitizeMovieBody body).genre,
        (sanitizeMovieBody body).releaseYear, (sanitizeMovieBody body).director,
        (sanitizeMovieBody body).synopsis, (sanitizeMovieBody body).duration with
    | some title, some genre, some releaseYear, some director, some synopsis, some duration =>
      let movie : Movie :=
        { _id := env.newId, title := trim title, genre := genre, releaseYear := releaseYear
          director := trim director, cast := (body.cast.getD []).map trim
          synopsis := synopsis
          posterUrl := body.posterUrl.getD "https://via.placeholder.com/300x450?text=No+Poster"
          trailerUrl := body.trailerUrl.getD ""
          averageRating := body.averageRating.getD 0
          totalReviews := body.totalReviews.getD 0
          duration := duration, language := body.language.getD "English"
          isActive := body.isActive.getD true, createdAt := env.now, updatedAt := env.now }
      if !Movie.validate maxYear movie || s.movies.any (fun x => x._id == env.newId) then
        (⟨500, .serverError⟩, s)
      else (⟨201, .movie "Movie added successfully" movie⟩, { s with movies := s.movies ++ [movie] })
    | _, _, _, _, _, _ => (⟨500, .serverError⟩, s)

/-- The update document `{ ...req.body, updatedAt: Date.now() }` applied to a stored
movie: every field present in the body replaces the stored one. -/
def applyMovieUpdate (now : Nat) (u : MovieBody) (m : Movie) : Movie :=
  { m with
    title := (u.title.map trim).getD m.title
    genre := u.genre.getD m.genre
    releaseYear := u.releaseYear.getD m.releaseYear
    director := (u.director.map trim).getD m.director
    cast := (u.cast.map (fun c => c.map trim)).getD m.cast
    synopsis := u.synopsis.getD m.synopsis
    posterUrl := u.posterUrl.getD m.posterUrl
    trailerUrl := u.trailerUrl.getD m.trailerUrl
    averageRating := u.averageRating.getD m.averageRating
    totalReviews := u.totalReviews.getD m.totalReviews
    duration := u.duration.getD m.duration
    language := u.language.getD m.language
    isActive := u.isActive.getD m.isActive
    updatedAt := now }

/-- The update validators that `runValidators: true` runs on the fields of a movie
update. -/
def runMovieValidators (maxYear : ℤ) (u : MovieBody) : Bool :=
  (match u.title with
    | some t => trim t != ""
    | none => true) &&
  (match u.genre with
    | some g => g.all (fun x => x != "")
    | none => true) &&
  (match u.releaseYear with
    | some y => decide (1900 ≤ y) && decide (y ≤ (maxYear : Number))
    | none => true) &&
  (match u.director with
    | some d => trim d != ""
    | none => true) &&
  (match u.synopsis with
    | some t => t != "" && decide (t.length ≤ 2000)
    | none => true) &&
  (match u.averageRating with
    | some r => decide (0 ≤ r) && decide (r ≤ 5)
    | none => true)

/-- The handler of `PUT /movies/:id`, after `authenticateToken` and `requireAdmin`: the
whole body is spread into the update; there is no validation chain and no check of
`isActive`. -/
def putMovie (maxYear : ℤ) (env : Env) (id : ObjectId) (body : MovieBody) (s : Store) :
    MovieResponse × Store :=
  if !runMovieValidators maxYear body then (⟨500, .serverError⟩, s)
  else
    match Movie.findById s.movies id with
    | none => (⟨404, .message "Movie not found"⟩, s)
    | some movie =>
      (⟨200, .movie "Movie updated successfully" (applyMovieUpdate env.now body movie)⟩,
        { s with movies :=
            Movie.findByIdAndUpdate env.now s.movies id (applyMovieUpdate env.now body) })

/-- A body for a new movie with the six validated fields. -/
def movieBodyOf (title : String) : MovieBody :=
  { title := some title, genre := some ["Drama"], releaseYear := some 2001
    director := some "D", synopsis := some "S", duration := some 100 }

/-- A body for a new movie that also carries the aggregate fields. -/
def movieBodyWithAggregate : MovieBody :=
  { movieBodyOf "Y" with averageRating := some 5, totalReviews := some 1000 }

/-- A body for a movie update that carries only the aggregate fields. -/
def movieBodyAggregateOnly : MovieBody :=
  { averageRating := some 1, totalReviews := some 77 }

/-! ## Review creation when the recompute fails (`models/Review.js`, lines 53-56) -/

/-- `review.save()` when the store may fail during the post `save` hook: the document
is validated and inserted first; `updateMovieRating` then runs in the hook, and when it
throws, `save()` rejects with the insertion already made. The result says whether
`save()` resolved and gives the store it leaves. -/
def Review.saveWith (recomputeFails : Bool) (now : Nat) (doc : Review) (s : Store) :
    Bool × Store :=
  let d := { doc with reviewText := trim doc.reviewText }
  if !Review.validate d then (false, s)
  else if s.reviews.any (fun x => x._id == d._id) || Review.duplicateKey s.reviews d then
    (false, s)
  else if recomputeFails then (false, { s with reviews := s.reviews ++ [d] })
  else (true, reviewSchema.post now .save (some d) { s with reviews := s.reviews ++ [d] })

/-- The handler of `POST /reviews/movie/:movieId` when the store may fail during the
recompute: the `catch` answers 500 for a rejected `save()`. -/
def postMovieReviewWith (recomputeFails : Bool) (env : Env) (reqUser : User)
    (movieId : ObjectId) (body : ReviewBody) (s : Store) : Response × Store :=
  if validatePost body ≠ [] then (⟨400, .errors (validatePost body)⟩, s)
  else
    let body := sanitizeBody body
    match Movie.findById s.movies movieId with
    | none => (⟨404, .message "Movie not found"⟩, s)
    | some movie =>
      if !movie.isActive then (⟨404, .message "Movie not found"⟩, s)
      else
        match s.reviews.find? (fun r => r.userId == reqUser._id && r.movieId == movieId) with
        | some _ => (⟨400, .message "You have already reviewed this movie"⟩, s)
        | none =>
          match body.rating, body.reviewText with
          | some rating, some reviewText =>
            let review : Review :=
              { _id := env.newId, userId := reqUser._id, movieId := movieId, rating := rating
                reviewText := trim reviewText, createdAt := env.now }
            match Review.saveWith recomputeFails env.now review s with
            | (false, s2) => (⟨500, .serverError⟩, s2)
            | (true, s2) => (⟨201, .review "Review added successfully" (some review)⟩, s2)
          | _, _ => (⟨500, .serverError⟩, s)

/-! ## The profile route (`routes/users.js`, lines 32-67) -/

/-- The JSON body of `PUT /users/profile`: the four allow-listed keys and other keys of
the user record a client may send. -/
structure ProfileBody where
  username : Option String := none
  bio : Option String := none
  profilePicture : Option String := none
  favoriteGenres : Option (List String) := none
  isAdmin : Option Bool := none
  isActive : Option Bool := none
  watchlist : Option (List ObjectId) := none
  password : Option String := none
  email : Option String := none
  deriving DecidableEq, Repr

/-- The object `updates` built from the keys of the body that are in `allowedUpdates`
(`['username', 'bio', 'profilePicture', 'favoriteGenres']`). -/
structure ProfileUpdates where
  username : Option String := none
  bio : Option String := none
  profilePicture : Option String := none
  favoriteGenres : Option (List String) := none
  deriving DecidableEq, Repr

/-- What the profile route sends with `res.json`. -/
inductive UserPayload
  | message (text : String)
  | errors (messages : List String)
  | serverError
  | user (text : String) (user : Option User)
  deriving DecidableEq, Repr

/-- A response of the profile route. -/
structure UserResponse where
  status : Nat
  payload : UserPayload
  deriving DecidableEq, Repr

/-- The validation chain of `PUT /users/profile` (lines 33-37) on a typed body:
`username` and `bio` are `optional()`, trimmed and checked for length; `favoriteGenres`
is an array by its type. -/
def validateProfile (b : ProfileBody) : List String :=
  (if b.username.isNone || isLengthTrimmed 3 20 b.username then []
   else ["Username must be 3-20 characters"]) ++
  (if b.bio.isNone || isLengthTrimmed 0 500 b.bio then []
   else ["Bio must be less than 500 characters"])

/-- The sanitizers `trim()` on `username` and `bio` as they leave `req.body`. -/
def sanitizeProfile (b : ProfileBody) : ProfileBody :=
  { b with username := b.username.map trim, bio := b.bio.map trim }

/-- The loop over `Object.keys(req.body)` that copies the allow-listed keys (lines
44-51). -/
def allowedUpdates (b : ProfileBody) : ProfileUpdates :=
  { username := b.username, bio := b.bio, profilePicture := b.profilePicture
    favoriteGenres := b.favoriteGenres }

/-- The update document applied to a stored user. -/
def applyProfileUpdates (u : ProfileUpdates) (x : User) : User :=
  { x with
    username := u.username.getD x.username
    bio := u.bio.getD x.bio
    profilePicture := u.profilePicture.getD x.profilePicture
    favoriteGenres := u.favoriteGenres.getD x.favoriteGenres }

/-- `User.findByIdAndUpdate(id, update)`: the first user with that id is rewritten. -/
def User.findByIdAndUpdate (id : ObjectId) (f : User → User) (s : Store) : Store :=
  { s with users := updateFirst (fun x => x._id == id) f s.users }

/-- The handler of `PUT /users/profile`, after `authenticateToken` has set `req.user`.
`schemaValid` stands for the validators of the user schema, which is not among the
sources; a username held by another user violates the unique index (error code 11000)
and is answered 400; `select('-password')` blanks the password in the answer. -/
def putProfile (schemaValid : ProfileUpdates → Bool) (reqUser : User) (body : ProfileBody)
    (s : Store) : UserResponse × Store :=
  if validateProfile body ≠ [] then (⟨400, .errors (validateProfile body)⟩, s)
  else if !schemaValid (allowedUpdates (sanitizeProfile body)) then (⟨500, .serverError⟩, s)
  else
    match User.findById s.users reqUser._id with
    | none => (⟨200, .user "Profile updated successfully" none⟩, s)
    | some user =>
      if (match (allowedUpdates (sanitizeProfile body)).username with
          | some name => s.users.any (fun x => x._id != reqUser._id && x.username == name)
          | none => false) then
        (⟨400, .message "Username already taken"⟩, s)
      else
        (⟨200, .user "Profile updated successfully"
            (some { (applyProfileUpdates (allowedUpdates (sanitizeProfile body)) user) with
              password := "" })⟩,
          User.findByIdAndUpdate reqUser._id
            (applyProfileUpdates (allowedUpdates (sanitizeProfile body))) s)

/-- A body that tries to raise the requester to admin along with a new bio. -/
def profileBodyEscalating : ProfileBody :=
  { bio := some " likes films ", isAdmin := some true, isActive := some false
    watchlist := some [9], password := some "x", email := some "e@x" }

/-! ## The offline demo emulation (`frontend/src/services/api.js`, lines 461-497, and
`frontend/src/services/demoState.js`, lines 19-38) -/

/-- A review of the demo state: `userId` and `movieId` are objects there, given here by
their fields. -/
structure DemoReview where
  _id : String
  userId : String
  username : String
  movieId : String
  movieTitle : String
  rating : Number
  reviewText : String
  timestamp : Nat
  isEdited : Bool := false
  deriving DecidableEq, Repr

/-- The profile of the demo user. -/
structure DemoProfile where
  _id : String := "demo-user-1"
  username : String := "Demo User"
  email : String := "demo@test.com"
  bio : String := "Movie enthusiast and avid reviewer"
  favoriteGenres : List String := ["Action", "Drama", "Sci-Fi"]
  deriving DecidableEq, Repr

/-- The demo state kept in local storage; the watchlist is given by the ids of its
movies. -/
structure DemoState where
  reviews : List DemoReview := []
  watchlist : List String := []
  userProfile : DemoProfile := {}
  deriving DecidableEq, Repr

/-- The `reviewData` a caller passes to `addReview`. -/
structure ReviewData where
  rating : Number
  reviewText : String
  deriving DecidableEq, Repr

/-- The ids and titles of `sampleMovies` (`api.js`, lines 46-185). -/
def sampleMovies : List (String × String) :=
  [("1", "The Shawshank Redemption"), ("2", "The Godfather"), ("3", "The Dark Knight"),
   ("4", "Pulp Fiction"), ("5", "Forrest Gump"), ("6", "Inception"), ("7", "The Matrix"),
   ("8", "Goodfellas"), ("9", "Schindler\x27s List"), ("10", "Fight Club")]

/-- The `catch` branch of `reviewsAPI.addReview` (`api.js`, lines 464-496), taken when
the request to the backend fails: the message sent back, the review built, and the demo
state saved. `now` is the clock read by `Date.now()` and `new Date()`. -/
def reviewsAPI.addReviewDemo (now : Nat) (movieId : String) (reviewData : ReviewData)
    (st : DemoState) : (String × DemoReview) × DemoState :=
  let demoReview : DemoReview :=
    { _id := "demo-review-" ++ toString now
      userId := st.userProfile._id
      username := st.userProfile.username
      movieId := movieId
      movieTitle := match sampleMovies.find? (fun m => m.1 == movieId) with
        | some m => m.2
        | none => "Unknown Movie"
      rating := reviewData.rating
      reviewText := reviewData.reviewText
      timestamp := now }
  (("Review added successfully (demo mode)", demoReview),
    { st with reviews := demoReview :: st.reviews })

/-- `DemoStateManager.addReview(movieId, reviewData, movieTitle)` (`demoState.js`, lines
19-38): the review returned and the state after `unshift`. -/
def DemoStateManager.addReview (now : Nat) (movieId : String) (reviewData : ReviewData)
    (movieTitle : String) (st : DemoState) : DemoReview × DemoState :=
  let review : DemoReview :=
    { _id := "demo-review-" ++ toString now
      userId := st.userProfile._id
      username := st.userProfile.username
      movieId := movieId
      movieTitle := movieTitle
      rating := reviewData.rating
      reviewText := reviewData.reviewText
      timestamp := now }
  (review, { st with reviews := review :: st.reviews })

/-- The demo state after a first review of movie '1'. -/
def demoAfterOne : DemoState :=
  (reviewsAPI.addReviewDemo 1000 "1" ⟨4, "a fine movie indeed"⟩ {}).2

/-! ## Lemmas on the collection primitives -/

theorem find?_updateFirst {α : Type} (p : α → Bool) (f : α → α)
    (hp : ∀ x, p x = true → p (f x) = true) (l : List α) :
    (updateFirst p f l).find? p = (l.find? p).map f := by
  induction l with
  | nil => rfl
  | cons x xs ih =>
    by_cases hx : p x = true
    · simp [updateFirst, hx, List.find?_cons, hp x hx]
    · simp [updateFirst, hx, List.find?_cons, ih]

theorem updateFirst_idem {α : Type} (p : α → Bool) (f : α → α)
    (hp : ∀ x, p x = true → p (f x) = true) (hf : ∀ x, f (f x) = f x) (l : List α) :
    updateFirst p f (updateFirst p f l) = updateFirst p f l := by
  induction l with
  | nil => rfl
  | cons x xs ih =>
    by_cases hx : p x = true
    · simp [updateFirst, hx, hp x hx, hf]
    · simp [updateFirst, hx, ih]

theorem updateFirst_of_find?_none {α : Type} (p : α → Bool) (f : α → α) (l : List α)
    (h : l.find? p = none) : updateFirst p f l = l := by
  induction l with
  | nil => rfl
  | cons x xs ih =>
    by_cases hx : p x = true
    · simp [List.find?_cons, hx] at h
    · simp only [List.find?_cons, hx] at h
      simp [updateFirst, hx, ih h]

theorem Movie.findById_findByIdAndUpdate (now : Nat) (movies : List Movie) (id : ObjectId)
    (f : Movie → Movie) (hf : ∀ m, (f m)._id = m._id) :
    Movie.findById (Movie.findByIdAndUpdate now movies id f) id =
      (Movie.findById movies id).map (fun m => { f m with updatedAt := now }) := by
  unfold Movie.findById Movie.findByIdAndUpdate
  apply find?_updateFirst
  intro x hx
  simpa [hf x] using hx

theorem matchStage_eq_activeReviews (movieId : ObjectId) (reviews : List Review) :
    matchStage movieId reviews = Spec.activeReviews movieId reviews := by
  unfold matchStage Spec.activeReviews
  apply List.filter_congr
  intro r _
  by_cases h : r.movieId = movieId <;> simp [h]

/-- What `updateMovieRating` does, in one expression: the reviews and users are kept
and the aggregate pair of the matched reviews is written on the first movie with the
given id. -/
theorem updateMovieRating_eq (now : Nat) (movieId : ObjectId) (s : Store) :
    updateMovieRating now movieId s =
      { s with movies := Movie.findByIdAndUpdate now s.movies movieId (fun m =>
          { m with averageRating := (Spec.aggregate (Spec.activeReviews movieId s.reviews)).1
                   totalReviews := (Spec.aggregate (Spec.activeReviews movieId s.reviews)).2 }) } := by
  unfold updateMovieRating Review.aggregate
  rw [matchStage_eq_activeReviews]
  cases h : Spec.activeReviews movieId s.reviews with
  | nil => simp [groupStage, Spec.aggregate]
  | cons a l => simp [groupStage, Spec.aggregate, Spec.mean]

theorem updateMovieRating_find (now : Nat) (movieId : ObjectId) (s : Store) :
    Movie.findById (updateMovieRating now movieId s).movies movieId =
      (Movie.findById s.movies movieId).map (fun m =>
        { m with averageRating := (Spec.aggregate (Spec.activeReviews movieId s.reviews)).1
                 totalReviews := (Spec.aggregate (Spec.activeReviews movieId s.reviews)).2
                 updatedAt := now }) := by
  rw [updateMovieRating_eq]
  exact Movie.findById_findByIdAndUpdate _ _ _ _ (fun _ => rfl)

theorem updateMovieRating_reviews (now : Nat) (movieId : ObjectId) (s : Store) :
    (updateMovieRating now movieId s).reviews = s.reviews := by
  rw [updateMovieRating_eq]

/-! ## Theorems on the aggregation routine -/

/-- C1: when the movie exists and at least one review of it is active,
`updateMovieRating` writes `Math.round(mean * 10) / 10` as `averageRating` and the number
of those reviews as `totalReviews`, the mean and the count being taken over exactly the
active reviews of that movie, and besides them only `updatedAt`, which receives the time
of the run; a review collection with the same active reviews of that movie (differing in
inactive reviews or reviews of other movies) gives the same movies. -/
theorem updateMovieRating_writes_rounded_mean (now : Nat) (movieId : ObjectId) (s : Store)
    (m : Movie) (hm : Movie.findById s.movies movieId = some m)
    (hactive : ∃ r ∈ s.reviews, r.movieId = movieId ∧ r.isActive = true) :
    Movie.findById (updateMovieRating now movieId s).movies movieId =
      some { m with
        averageRating :=
          (Math.round (Spec.mean ((Spec.activeReviews movieId s.reviews).map
            (fun r => r.rating)) * 10) : Number) / 10
        totalReviews := ((Spec.activeReviews movieId s.reviews).length : Number)
        updatedAt := now } ∧
    ∀ s2 : Store, s2.movies = s.movies →
      Spec.activeReviews movieId s2.reviews = Spec.activeReviews movieId s.reviews →
      (updateMovieRating now movieId s2).movies = (updateMovieRating now movieId s).movies := by
  have hne : Spec.activeReviews movieId s.reviews ≠ [] := by
    obtain ⟨r, hr, h1, h2⟩ := hactive
    have : r ∈ Spec.activeReviews movieId s.reviews := by
      simp [Spec.activeReviews, hr, h1, h2]
    exact List.ne_nil_of_mem this
  refine ⟨?_, ?_⟩
  · rw [updateMovieRating_find, hm]
    simp [Spec.aggregate, hne]
  · intro s2 h1 h2
    rw [updateMovieRating_eq, updateMovieRating_eq, h1, h2]

/-- Witness of C1: on `storeC1` the movie receives 3.5 and 2. -/
theorem updateMovieRating_writes_rounded_mean_witness :
    Movie.findById (updateMovieRating 50 7 storeC1).movies 7 =
      some { movieX with averageRating := 7 / 2, totalReviews := 2, updatedAt := 50 } := by
  have h := (updateMovieRating_writes_rounded_mean 50 7 storeC1
    { movieX with averageRating := 1, totalReviews := 9 } (by decide!)
    ⟨{ _id := 11, userId := 1, movieId := 7, rating := 4, reviewText := "a fine movie" },
      by decide!, rfl, rfl⟩).1
  rw [h]
  decide!

/-- C2: when the movie exists and no review of it is active (no review at all, or only
inactive ones), `updateMovieRating` sets `averageRating` and `totalReviews` to 0,
whatever the record held before, and changes no other field but `updatedAt`, which
receives the time of the run. -/
theorem updateMovieRating_resets_when_empty (now : Nat) (movieId : ObjectId) (s : Store)
    (m : Movie) (hm : Movie.findById s.movies movieId = some m)
    (hnone : ∀ r ∈ s.reviews, ¬ (r.movieId = movieId ∧ r.isActive = true)) :
    Movie.findById (updateMovieRating now movieId s).movies movieId =
      some { m with averageRating := 0, totalReviews := 0, updatedAt := now } := by
  have hnil : Spec.activeReviews movieId s.reviews = [] := by
    unfold Spec.activeReviews
    rw [List.filter_eq_nil_iff]
    intro r hr
    simpa using hnone r hr
  rw [updateMovieRating_find, hm]
  simp [Spec.aggregate, hnil]

/-- Witness of C2: on `storeC2` the stale pair (4, 1) becomes (0, 0). -/
theorem updateMovieRating_resets_when_empty_witness :
    Movie.findById (updateMovieRating 50 7 storeC2).movies 7 =
      some { movieX with updatedAt := 50 } :=
  updateMovieRating_resets_when_empty 50 7 storeC2
    { movieX with averageRating := 4, totalReviews := 1 } (by decide!) (by decide!)

/-! ## Review creation -/

/-- A creation answered 201 found the movie, built an active review of it for the
requester with the rating of the body, appended it to the collection and ran
`updateMovieRating` on the movie. -/
theorem postMovieReview_created (env : Env) (reqUser : User) (movieId : ObjectId)
    (body : ReviewBody) (s : Store)
    (h : (postMovieReview env reqUser movieId body s).1.status = 201) :
    ∃ movie d, Movie.findById s.movies movieId = some movie ∧
      d._id = env.newId ∧ d.userId = reqUser._id ∧ d.movieId = movieId ∧
      d.isActive = true ∧ body.rating = some d.rating ∧
      (postMovieReview env reqUser movieId body s).2 =
        updateMovieRating env.now movieId { s with reviews := s.reviews ++ [d] } := by
  revert h
  unfold postMovieReview
  split
  · intro h; simp at h
  · simp only []
    split
    · intro h; simp at h
    · rename_i movie hmovie
      split
      · intro h; simp at h
      · split
        · intro h; simp at h
        · split
          · rename_i rating text hr ht
            split
            · intro h; simp at h
            · rename_i s2 hsave
              intro _
              unfold Review.save at hsave
              simp only [] at hsave
              split at hsave
              · simp at hsave
              · split at hsave
                · simp at hsave
                · simp only [Option.some.injEq] at hsave
                  subst hsave
                  refine ⟨movie, _, hmovie, rfl, rfl, rfl, rfl, ?_, rfl⟩
                  simpa [sanitizeBody] using hr
          · intro h; simp at h

/-- C3: after a review creation answered 201, the collection is the old one followed
by the new active review of that movie, and the movie record holds as `averageRating`
the mean rating of all active reviews of the movie (the new one included) rounded to
one decimal and as `totalReviews` their number. -/
theorem postMovieReview_aggregate_invariant (env : Env) (reqUser : User)
    (movieId : ObjectId) (body : ReviewBody) (s : Store)
    (h : (postMovieReview env reqUser movieId body s).1.status = 201) :
    ∃ m d,
      (postMovieReview env reqUser movieId body s).2.reviews = s.reviews ++ [d] ∧
      d._id = env.newId ∧ d.userId = reqUser._id ∧ d.movieId = movieId ∧
      d.isActive = true ∧ body.rating = some d.rating ∧
      d ∈ Spec.activeReviews movieId (postMovieReview env reqUser movieId body s).2.reviews ∧
      Movie.findById (postMovieReview env reqUser movieId body s).2.movies movieId = some m ∧
      m.averageRating =
        (Math.round (Spec.mean ((Spec.activeReviews movieId
          (postMovieReview env reqUser movieId body s).2.reviews).map
            (fun r => r.rating)) * 10) : Number) / 10 ∧
      m.totalReviews =
        ((Spec.activeReviews movieId
          (postMovieReview env reqUser movieId body s).2.reviews).length : Number) := by
  obtain ⟨movie, d, hmovie, h1, h2, h3, h4, h5, hres⟩ :=
    postMovieReview_created env reqUser movieId body s h
  have hmem : d ∈ Spec.activeReviews movieId (s.reviews ++ [d]) := by
    simp [Spec.activeReviews, h3, h4]
  have hne : Spec.activeReviews movieId (s.reviews ++ [d]) ≠ [] := List.ne_nil_of_mem hmem
  rw [hres, updateMovieRating_reviews, updateMovieRating_find]
  simp only [hmovie, Option.map_some']
  exact ⟨_, d, rfl, h1, h2, h3, h4, h5, hmem, rfl, by simp [Spec.aggregate, hne],
    by simp [Spec.aggregate, hne]⟩

/-- Witness of C3: user A reviews movie X, which has no review yet, with rating 4. -/
theorem postMovieReview_aggregate_invariant_witness :
    ∃ m d,
      (postMovieReview ⟨100, 11⟩ userA 7 (bodyOf 4 "a fine movie indeed") store0).2.reviews
        = store0.reviews ++ [d] ∧
      d._id = 11 ∧ d.userId = 1 ∧ d.movieId = 7 ∧ d.isActive = true ∧
      (bodyOf 4 "a fine movie indeed").rating = some d.rating ∧
      d ∈ Spec.activeReviews 7
        (postMovieReview ⟨100, 11⟩ userA 7 (bodyOf 4 "a fine movie indeed") store0).2.reviews ∧
      Movie.findById
        (postMovieReview ⟨100, 11⟩ userA 7 (bodyOf 4 "a fine movie indeed") store0).2.movies 7
        = some m ∧
      m.averageRating =
        (Math.round (Spec.mean ((Spec.activeReviews 7
          (postMovieReview ⟨100, 11⟩ userA 7 (bodyOf 4 "a fine movie indeed") store0).2.reviews).map
            (fun r => r.rating)) * 10) : Number) / 10 ∧
      m.totalReviews =
        ((Spec.activeReviews 7
          (postMovieReview ⟨100, 11⟩ userA 7 (bodyOf 4 "a fine movie indeed") store0).2.reviews).length
            : Number) :=
  postMovieReview_aggregate_invariant ⟨100, 11⟩ userA 7 (bodyOf 4 "a fine movie indeed") store0
    (by decide!)

/-! ## Review update and deletion -/

/-- `Review.findByIdAndUpdate` touches neither the movies nor the users: the schema has
no post hook for `findOneAndUpdate`. -/
theorem Review.findByIdAndUpdate_movies (now : Nat) (id : ObjectId) (f : Review → Review)
    (s s2 : Store) (h : Review.findByIdAndUpdate now id f s = some s2) :
    s2.movies = s.movies ∧ s2.users = s.users := by
  unfold Review.findByIdAndUpdate at h
  split at h
  · simp only [reviewSchema.post, Option.some.injEq] at h
    subst h
    exact ⟨rfl, rfl⟩
  · split at h
    · simp at h
    · simp only [reviewSchema.post, Option.some.injEq] at h
      subst h
      exact ⟨rfl, rfl⟩

/-- No answer of `PUT /reviews/:id` comes with a changed movie collection. -/
theorem putReview_movies (env : Env) (reqUser : User) (id : ObjectId) (body : ReviewBody)
    (s : Store) : (putReview env reqUser id body s).2.movies = s.movies := by
  unfold putReview
  split
  · rfl
  · simp only []
    split
    · rfl
    · split
      · rfl
      · split
        · rfl
        · split
          · rfl
          · split
            · rfl
            · rename_i h
              exact (Review.findByIdAndUpdate_movies _ _ _ _ _ h).1

/-- No answer of `DELETE /reviews/:id` comes with a changed movie collection. -/
theorem deleteReview_movies (now : Nat) (reqUser : User) (id : ObjectId) (s : Store) :
    (deleteReview now reqUser id s).2.movies = s.movies := by
  unfold deleteReview
  repeat' split
  all_goals first
    | rfl
    | (rename_i h; exact (Review.findByIdAndUpdate_movies _ _ _ _ _ h).1)

/-- C4, the code at a failing input: movie X has one active review (user A, rating 4) and
holds (4, 1); user A's `PUT /reviews/11` with rating 5 is answered 200 and stores rating
5, yet the movie still holds (4, 1) while the rounded mean of its active reviews is 5. -/
theorem putReview_leaves_aggregate_stale :
    (putReview ⟨102, 0⟩ userA 11 { rating := some 5 } scenario1.2).1.status = 200 ∧
    (Review.findById (putReview ⟨102, 0⟩ userA 11 { rating := some 5 } scenario1.2).2.reviews
      11).map (fun r => r.rating) = some 5 ∧
    aggregateOfX scenario1.2 = some (4, 1) ∧
    aggregateOfX (putReview ⟨102, 0⟩ userA 11 { rating := some 5 } scenario1.2).2
      = some (4, 1) ∧
    Spec.aggregate (Spec.activeReviews 7
      (putReview ⟨102, 0⟩ userA 11 { rating := some 5 } scenario1.2).2.reviews) = (5, 1) := by
  decide!

/-- C5, the code at a failing input: movie X has one active review (user A, rating 4) and
holds (4, 1); user A's `DELETE /reviews/11` is answered 200 and leaves no active review
of the movie, yet the movie still holds (4, 1) instead of (0, 0). -/
theorem deleteReview_leaves_aggregate_stale :
    (deleteReview 103 userA 11 scenario1.2).1.status = 200 ∧
    Spec.activeReviews 7 (deleteReview 103 userA 11 scenario1.2).2.reviews = [] ∧
    aggregateOfX scenario1.2 = some (4, 1) ∧
    aggregateOfX (deleteReview 103 userA 11 scenario1.2).2 = some (4, 1) := by
  decide!

/-- C6, the code on the example scenario: every step is answered with success, and the
pairs on movie X after the five steps are (4, 1), (3, 2), (3, 2), (3, 2), (3, 2); the
last three differ from (3.5, 2), (5, 1), (0, 0). -/
theorem scenario_aggregates :
    [scenario1.1.status, scenario2.1.status, scenario3.1.status, scenario4.1.status,
      scenario5.1.status] = [201, 201, 200, 200, 200] ∧
    [aggregateOfX scenario1.2, aggregateOfX scenario2.2, aggregateOfX scenario3.2,
      aggregateOfX scenario4.2, aggregateOfX scenario5.2] =
      [some (4, 1), some (3, 2), some (3, 2), some (3, 2), some (3, 2)] ∧
    [Spec.aggregate (Spec.activeReviews 7 scenario3.2.reviews),
      Spec.aggregate (Spec.activeReviews 7 scenario4.2.reviews),
      Spec.aggregate (Spec.activeReviews 7 scenario5.2.reviews)] =
      [(7 / 2, 2), (5, 1), (0, 0)] := by
  decide!

/-! ## Idempotence, independence of order and of stale values -/

theorem Spec.aggregate_perm (l1 l2 : List Review) (h : l1.Perm l2) :
    Spec.aggregate l1 = Spec.aggregate l2 := by
  unfold Spec.aggregate Spec.mean
  have hlen : l1.length = l2.length := h.length_eq
  have hsum : (l1.map (fun r => r.rating)).sum = (l2.map (fun r => r.rating)).sum :=
    (h.map _).sum_eq
  have hnil : l1 = [] ↔ l2 = [] := by
    constructor
    · intro e; subst e; exact h.nil_eq.symm
    · intro e; subst e; exact h.eq_nil
  by_cases e : l1 = []
  · simp [e, hnil.mp e]
  · have e2 : l2 ≠ [] := fun c => e (hnil.mpr c)
    simp [e, e2, List.length_map, hlen, hsum]

theorem updateFirst_absorb {α : Type} (p : α → Bool) (f g : α → α)
    (hp : ∀ x, p x = true → p (f x) = true) (hfg : ∀ x, g (f x) = g x) (l : List α) :
    updateFirst p g (updateFirst p f l) = updateFirst p g l := by
  induction l with
  | nil => rfl
  | cons x xs ih =>
    by_cases hx : p x = true
    · simp [updateFirst, hx, hp x hx, hfg]
    · simp [updateFirst, hx, ih]

/-- A second run of `updateMovieRating` on unchanged reviews leaves what a single run at
the later time leaves. -/
theorem updateMovieRating_idem (t1 t2 : Nat) (movieId : ObjectId) (s : Store) :
    updateMovieRating t2 movieId (updateMovieRating t1 movieId s) =
      updateMovieRating t2 movieId s := by
  rw [updateMovieRating_eq t2 movieId (updateMovieRating t1 movieId s),
    updateMovieRating_reviews]
  rw [updateMovieRating_eq t1 movieId s, updateMovieRating_eq t2 movieId s]
  simp only [Movie.findByIdAndUpdate]
  rw [updateFirst_absorb]
  · intro x hx; simpa using hx
  · intro x; rfl

/-- C7, the claim as worded fails: on `storeC1` a run of `updateMovieRating` at time 50
followed by a run at time 60, the reviews unchanged, leaves a movie record other than
the one the first run left. Both carry the pair (3.5, 2); `updatedAt` is 60 after the
second run and 50 after the first. -/
theorem updateMovieRating_twice_other_record :
    (updateMovieRating 60 7 (updateMovieRating 50 7 storeC1)).reviews = storeC1.reviews ∧
    Movie.findById (updateMovieRating 50 7 storeC1).movies 7 =
      some { movieX with averageRating := 7 / 2, totalReviews := 2, updatedAt := 50 } ∧
    Movie.findById (updateMovieRating 60 7 (updateMovieRating 50 7 storeC1)).movies 7 =
      some { movieX with averageRating := 7 / 2, totalReviews := 2, updatedAt := 60 } ∧
    Movie.findById (updateMovieRating 60 7 (updateMovieRating 50 7 storeC1)).movies 7 ≠
      Movie.findById (updateMovieRating 50 7 storeC1).movies 7 := by
  decide!

/-- C7, amended: the pair `updateMovieRating` writes depends only on the active reviews
of the movie. For two stores in which the movie exists, with any previous aggregate
values and any storage order, whose active reviews of the movie are the same up to
order, the pair written is the same, whenever the runs take place. A second run on
unchanged reviews leaves the store of a single run at the later time: the movie record
is the one of the first run except for `updatedAt`, which holds the time of the last
run, and the pair does not change. -/
theorem updateMovieRating_idempotent_order_free (t1 t2 : Nat) (movieId : ObjectId)
    (s1 s2 : Store) (m1 m2 : Movie)
    (h1 : Movie.findById s1.movies movieId = some m1)
    (h2 : Movie.findById s2.movies movieId = some m2)
    (hperm : (Spec.activeReviews movieId s1.reviews).Perm
      (Spec.activeReviews movieId s2.reviews)) :
    updateMovieRating t2 movieId (updateMovieRating t1 movieId s1) =
      updateMovieRating t2 movieId s1 ∧
    Movie.findById (updateMovieRating t2 movieId (updateMovieRating t1 movieId s1)).movies
        movieId =
      (Movie.findById (updateMovieRating t1 movieId s1).movies movieId).map
        (fun m => { m with updatedAt := t2 }) ∧
    (Movie.findById (updateMovieRating t2 movieId (updateMovieRating t1 movieId s1)).movies
        movieId).map Movie.aggregate =
      (Movie.findById (updateMovieRating t1 movieId s1).movies movieId).map Movie.aggregate ∧
    (Movie.findById (updateMovieRating t1 movieId s1).movies movieId).map Movie.aggregate =
      some (Spec.aggregate (Spec.activeReviews movieId s1.reviews)) ∧
    (Movie.findById (updateMovieRating t1 movieId s1).movies movieId).map Movie.aggregate =
      (Movie.findById (updateMovieRating t2 movieId s2).movies movieId).map
        Movie.aggregate := by
  refine ⟨updateMovieRating_idem t1 t2 movieId s1, ?_, ?_, ?_, ?_⟩
  · rw [updateMovieRating_idem, updateMovieRating_find, updateMovieRating_find, h1]
    rfl
  · rw [updateMovieRating_idem, updateMovieRating_find, updateMovieRating_find, h1]
    rfl
  · rw [updateMovieRating_find, h1]
    rfl
  · rw [updateMovieRating_find, updateMovieRating_find, h1, h2,
      Spec.aggregate_perm _ _ hperm]
    rfl

/-- Witness of C7: `storeC1` at times 50 and 60, and `storeC7`, which holds the same
active reviews of movie 7 in another order and other stale values. -/
theorem updateMovieRating_idempotent_order_free_witness :
    updateMovieRating 60 7 (updateMovieRating 50 7 storeC1) = updateMovieRating 60 7 storeC1 ∧
    Movie.findById (updateMovieRating 60 7 (updateMovieRating 50 7 storeC1)).movies 7 =
      (Movie.findById (updateMovieRating 50 7 storeC1).movies 7).map
        (fun m => { m with updatedAt := 60 }) ∧
    (Movie.findById (updateMovieRating 60 7 (updateMovieRating 50 7 storeC1)).movies
        7).map Movie.aggregate =
      (Movie.findById (updateMovieRating 50 7 storeC1).movies 7).map Movie.aggregate ∧
    (Movie.findById (updateMovieRating 50 7 storeC1).movies 7).map Movie.aggregate =
      some (Spec.aggregate (Spec.activeReviews 7 storeC1.reviews)) ∧
    (Movie.findById (updateMovieRating 50 7 storeC1).movies 7).map Movie.aggregate =
      (Movie.findById (updateMovieRating 60 7 storeC7).movies 7).map Movie.aggregate :=
  updateMovieRating_idempotent_order_free 50 60 7 storeC1 storeC7
    { movieX with averageRating := 1, totalReviews := 9 }
    { movieX with averageRating := 5, totalReviews := 0 } (by decide!) (by decide!)
    (by
      have e1 : Spec.activeReviews 7 storeC1.reviews =
          [ { _id := 11, userId := 1, movieId := 7, rating := 4, reviewText := "a fine movie" },
            { _id := 12, userId := 2, movieId := 7, rating := 3, reviewText := "a fair movie" } ] := by
        decide!
      have e2 : Spec.activeReviews 7 storeC7.reviews =
          [ { _id := 12, userId := 2, movieId := 7, rating := 3, reviewText := "a fair movie" },
            { _id := 11, userId := 1, movieId := 7, rating := 4, reviewText := "a fine movie" } ] := by
        decide!
      rw [e1, e2]
      exact List.Perm.swap _ _ _)

/-! ## Range and precision of the stored average -/

theorem sum_rating_bounds (l : List Review)
    (h : ∀ r ∈ l, 1 ≤ r.rating ∧ r.rating ≤ 5) :
    (l.length : Number) ≤ (l.map (fun r => r.rating)).sum ∧
      (l.map (fun r => r.rating)).sum ≤ 5 * (l.length : Number) := by
  induction l with
  | nil => simp
  | cons x xs ih =>
    have hx := h x (List.mem_cons_self _ _)
    have hxs := ih (fun r hr => h r (List.mem_cons_of_mem _ hr))
    simp only [List.map_cons, List.sum_cons, List.length_cons, Nat.cast_add, Nat.cast_one]
    constructor <;> linarith [hx.1, hx.2, hxs.1, hxs.2]

theorem Spec.aggregate_bounds (l : List Review) (hl : l ≠ [])
    (h : ∀ r ∈ l, 1 ≤ r.rating ∧ r.rating ≤ 5) :
    1 ≤ (Spec.aggregate l).1 ∧ (Spec.aggregate l).1 ≤ 5 := by
  have hpos : (0 : Number) < (l.length : Number) := by
    have : 0 < l.length := List.length_pos.mpr hl
    exact_mod_cast this
  obtain ⟨hlo, hhi⟩ := sum_rating_bounds l h
  have hmlo : (10 : Number) ≤ Spec.mean (l.map (fun r => r.rating)) * 10 := by
    unfold Spec.mean
    rw [List.length_map, div_mul_eq_mul_div, le_div_iff₀ hpos]
    linarith
  have hmhi : Spec.mean (l.map (fun r => r.rating)) * 10 ≤ 50 := by
    unfold Spec.mean
    rw [List.length_map, div_mul_eq_mul_div, div_le_iff₀ hpos]
    linarith
  have hr1 : (10 : ℤ) ≤ Math.round (Spec.mean (l.map (fun r => r.rating)) * 10) := by
    unfold Math.round
    rw [Int.le_floor]
    push_cast
    linarith
  have hr2 : Math.round (Spec.mean (l.map (fun r => r.rating)) * 10) ≤ (50 : ℤ) := by
    unfold Math.round
    rw [← Int.lt_add_one_iff, Int.floor_lt]
    push_cast
    linarith
  have c1 : (10 : Number) ≤ (Math.round (Spec.mean (l.map (fun r => r.rating)) * 10) : Number) := by
    exact_mod_cast hr1
  have c2 : (Math.round (Spec.mean (l.map (fun r => r.rating)) * 10) : Number) ≤ 50 := by
    exact_mod_cast hr2
  simp only [Spec.aggregate, hl, if_false]
  constructor
  · rw [le_div_iff₀ (by norm_num)]; linarith
  · rw [div_le_iff₀ (by norm_num)]; linarith

theorem Spec.aggregate_tenths (l : List Review) :
    ∃ z : ℤ, 10 * (Spec.aggregate l).1 = (z : Number) := by
  unfold Spec.aggregate
  by_cases hl : l = []
  · exact ⟨0, by simp [hl]⟩
  · refine ⟨Math.round (Spec.mean (l.map (fun r => r.rating)) * 10), ?_⟩
    simp only [hl, if_false]
    field_simp

/-- C8: when every rating in the collection is an integer between 1 and 5 and the movie
exists, the `averageRating` written by `updateMovieRating` lies between 0 and 5, is at
least 1 when an active review of the movie exists, and ten times it is an integer. -/
theorem updateMovieRating_average_range (now : Nat) (movieId : ObjectId) (s : Store)
    (m : Movie) (hm : Movie.findById s.movies movieId = some m)
    (hint : ∀ r ∈ s.reviews, ∃ k : ℤ, r.rating = (k : Number) ∧ 1 ≤ k ∧ k ≤ 5) :
    ∃ m2, Movie.findById (updateMovieRating now movieId s).movies movieId = some m2 ∧
      0 ≤ m2.averageRating ∧ m2.averageRating ≤ 5 ∧
      ((∃ r ∈ s.reviews, r.movieId = movieId ∧ r.isActive = true) → 1 ≤ m2.averageRating) ∧
      ∃ z : ℤ, 10 * m2.averageRating = (z : Number) := by
  rw [updateMovieRating_find, hm]
  refine ⟨_, rfl, ?_⟩
  simp only []
  have hrange : ∀ r ∈ Spec.activeReviews movieId s.reviews, 1 ≤ r.rating ∧ r.rating ≤ 5 := by
    intro r hr
    have hr2 : r ∈ s.reviews := (List.mem_filter.mp hr).1
    obtain ⟨k, hk, h1, h5⟩ := hint r hr2
    rw [hk]
    exact ⟨by exact_mod_cast h1, by exact_mod_cast h5⟩
  by_cases hl : Spec.activeReviews movieId s.reviews = []
  · refine ⟨by simp [Spec.aggregate, hl], by simp [Spec.aggregate, hl], ?_,
      Spec.aggregate_tenths _⟩
    rintro ⟨r, hr, h1, h2⟩
    have : r ∈ Spec.activeReviews movieId s.reviews := by
      simp [Spec.activeReviews, hr, h1, h2]
    rw [hl] at this
    simp at this
  · obtain ⟨hlo, hhi⟩ := Spec.aggregate_bounds _ hl hrange
    exact ⟨by linarith, hhi, fun _ => hlo, Spec.aggregate_tenths _⟩

/-- Witness of C8: on `storeC8` the mean 13/3 is stored as 4.3. -/
theorem updateMovieRating_average_range_witness :
    (Movie.findById (updateMovieRating 50 7 storeC8).movies 7).map Movie.aggregate
      = some (43 / 10, 3) ∧
    ∃ m2, Movie.findById (updateMovieRating 50 7 storeC8).movies 7 = some m2 ∧
      0 ≤ m2.averageRating ∧ m2.averageRating ≤ 5 ∧
      ((∃ r ∈ storeC8.reviews, r.movieId = 7 ∧ r.isActive = true) → 1 ≤ m2.averageRating) ∧
      ∃ z : ℤ, 10 * m2.averageRating = (z : Number) :=
  ⟨by decide!,
    updateMovieRating_average_range 50 7 storeC8 movieX (by decide!) (by
      intro r hr
      simp only [storeC8, List.mem_cons, List.mem_singleton, List.not_mem_nil, or_false] at hr
      rcases hr with rfl | rfl | rfl
      · exact ⟨5, by norm_num, by norm_num, by norm_num⟩
      · exact ⟨4, by norm_num, by norm_num, by norm_num⟩
      · exact ⟨4, by norm_num, by norm_num, by norm_num⟩)⟩

/-! ## Review uniqueness -/

/-- C9 as stated fails at two inputs. User A already has a review of movie 7 in both.
In `storeC9` the movie is soft-deleted and the further POST is answered 404 'Movie not
found'; after step 1 of the scenario a further POST with rating 9 is answered 400 with
the validation errors, not with the message 'You have already reviewed this movie'. -/
theorem postMovieReview_duplicate_other_answers :
    (∃ r ∈ storeC9.reviews, r.userId = userA._id ∧ r.movieId = 7) ∧
    (postMovieReview ⟨103, 13⟩ userA 7 (bodyOf 4 "a fine movie indeed") storeC9).1 =
      ⟨404, .message "Movie not found"⟩ ∧
    (∃ r ∈ scenario1.2.reviews, r.userId = userA._id ∧ r.movieId = 7) ∧
    (postMovieReview ⟨103, 13⟩ userA 7 (bodyOf 9 "a fine movie indeed") scenario1.2).1 =
      ⟨400, .errors ["Rating must be between 1 and 5"]⟩ := by
  decide!

/-- C9 amended: when a review by the requester for the movie already exists (active or
not), a further POST is always rejected with status 400 or 404 and leaves the whole
store as it was, so no review is created and the original review is unchanged; when
moreover the body passes validation and the movie exists and is active, the answer is
400 with the message 'You have already reviewed this movie'. -/
theorem postMovieReview_duplicate_rejected (env : Env) (reqUser : User)
    (movieId : ObjectId) (body : ReviewBody) (s : Store)
    (hex : ∃ r ∈ s.reviews, r.userId = reqUser._id ∧ r.movieId = movieId) :
    (postMovieReview env reqUser movieId body s).2 = s ∧
    ((postMovieReview env reqUser movieId body s).1.status = 400 ∨
      (postMovieReview env reqUser movieId body s).1.status = 404) ∧
    (validatePost body = [] →
      (∃ m, Movie.findById s.movies movieId = some m ∧ m.isActive = true) →
      (postMovieReview env reqUser movieId body s).1 =
        ⟨400, .message "You have already reviewed this movie"⟩) := by
  have hfind : s.reviews.find? (fun r => r.userId == reqUser._id && r.movieId == movieId)
      ≠ none := by
    obtain ⟨r, hr, h1, h2⟩ := hex
    intro hnone
    have := List.find?_eq_none.mp hnone r hr
    simp [h1, h2] at this
  unfold postMovieReview
  split
  · rename_i hv
    exact ⟨rfl, Or.inl rfl, fun h0 => absurd h0 hv⟩
  · simp only []
    split
    · rename_i hmovie
      refine ⟨rfl, Or.inr rfl, ?_⟩
      rintro - ⟨m, hm, -⟩
      rw [hmovie] at hm
      simp at hm
    · rename_i movie hmovie
      split
      · rename_i hact
        refine ⟨rfl, Or.inr rfl, ?_⟩
        rintro - ⟨m, hm, ha⟩
        rw [hmovie] at hm
        simp only [Option.some.injEq] at hm
        subst hm
        simp [ha] at hact
      · split
        · exact ⟨rfl, Or.inl rfl, fun _ _ => rfl⟩
        · rename_i hn
          exact absurd hn hfind

/-- Witness of C9 amended: after step 1 of the scenario user A posts again. -/
theorem postMovieReview_duplicate_rejected_witness :
    postMovieReview ⟨103, 13⟩ userA 7 (bodyOf 1 "not so fine after all") scenario1.2 =
      (⟨400, .message "You have already reviewed this movie"⟩, scenario1.2) := by
  have h := postMovieReview_duplicate_rejected ⟨103, 13⟩ userA 7
    (bodyOf 1 "not so fine after all") scenario1.2 (by decide!)
  exact Prod.ext (h.2.2 (by decide!) (by decide!)) h.1

/-! ## Watchlist -/

/-- C10: when the movie exists and is active and its id is already in the requester's
watchlist, `POST /users/watchlist/:movieId` is answered 400 'Movie already in watchlist'
and the store, the watchlist included, is exactly as before. -/
theorem postWatchlist_duplicate_rejected (reqUser : User) (movieId : ObjectId) (s : Store)
    (movie : Movie) (user : User)
    (hm : Movie.findById s.movies movieId = some movie) (ha : movie.isActive = true)
    (hu : User.findById s.users reqUser._id = some user)
    (hin : movieId ∈ user.watchlist) :
    postWatchlist reqUser movieId s = (⟨400, .message "Movie already in watchlist"⟩, s) ∧
    (User.findById (postWatchlist reqUser movieId s).2.users reqUser._id).map
      (fun u => u.watchlist) = some user.watchlist := by
  have h : postWatchlist reqUser movieId s =
      (⟨400, .message "Movie already in watchlist"⟩, s) := by
    unfold postWatchlist
    simp [hm, ha, hu, hin]
  rw [h]
  exact ⟨rfl, by simp [hu]⟩

/-- Witness of C10: user A adds movie 7 again. -/
theorem postWatchlist_duplicate_rejected_witness :
    postWatchlist userA 7 storeC10 = (⟨400, .message "Movie already in watchlist"⟩, storeC10) ∧
    (User.findById (postWatchlist userA 7 storeC10).2.users userA._id).map
      (fun u => u.watchlist) = some [3, 7] :=
  postWatchlist_duplicate_rejected userA 7 storeC10 movieX { userA with watchlist := [3, 7] }
    (by decide!) (by decide!) (by decide!) (by decide!)

/-! ## Watchlist removal and the set invariant -/

theorem updateFirst_const_of_find? {α : Type} (p : α → Bool) (u : α) (l : List α)
    (h : l.find? p = some u) : updateFirst p (fun _ => u) l = l := by
  induction l with
  | nil => simp at h
  | cons x xs ih =>
    by_cases hx : p x = true
    · simp only [List.find?_cons, hx, Option.some.injEq] at h
      subst h
      simp [updateFirst, hx]
    · simp only [List.find?_cons, hx] at h
      simp [updateFirst, hx, ih h]

theorem mem_updateFirst {α : Type} (p : α → Bool) (f : α → α) (l : List α) (x : α)
    (h : x ∈ updateFirst p f l) : x ∈ l ∨ ∃ y ∈ l, x = f y := by
  induction l with
  | nil => simp [updateFirst] at h
  | cons a as ih =>
    by_cases ha : p a = true
    · rw [updateFirst, if_pos ha, List.mem_cons] at h
      rcases h with h | h
      · exact Or.inr ⟨a, List.mem_cons_self _ _, h⟩
      · exact Or.inl (List.mem_cons_of_mem _ h)
    · rw [updateFirst, if_neg ha, List.mem_cons] at h
      rcases h with h | h
      · exact Or.inl (h ▸ List.mem_cons_self _ _)
      · rcases ih h with h2 | ⟨y, hy, e⟩
        · exact Or.inl (List.mem_cons_of_mem _ h2)
        · exact Or.inr ⟨y, List.mem_cons_of_mem _ hy, e⟩

theorem User.findById_id (users : List User) (id : ObjectId) (u : User)
    (h : User.findById users id = some u) : u._id = id ∧ u ∈ users := by
  unfold User.findById at h
  have h1 := List.find?_some h
  exact ⟨by simpa using h1, List.mem_of_find?_eq_some h⟩

theorem User.findById_save (s : Store) (id : ObjectId) (u v : User)
    (h : User.findById s.users id = some u) (hv : v._id = id) :
    User.findById (User.save v s).users id = some v := by
  unfold User.save User.findById
  simp only [hv]
  rw [find?_updateFirst _ _ (fun _ _ => by simp [hv])]
  unfold User.findById at h
  rw [h]
  rfl


/-- Removing a movie that is not in the stored requester's watchlist is answered 200 and
changes nothing. -/
theorem deleteWatchlist_absent (reqUser : User) (movieId : ObjectId) (s : Store)
    (user : User) (hu : User.findById s.users reqUser._id = some user)
    (hnot : movieId ∉ user.watchlist) :
    deleteWatchlist reqUser movieId s =
      (⟨200, .message "Movie removed from watchlist"⟩, s) := by
  have hid := (User.findById_id _ _ _ hu).1
  have hsame : user.watchlist.filter (fun id => id != movieId) = user.watchlist := by
    rw [List.filter_eq_self]
    intro a ha
    have : a ≠ movieId := fun e => hnot (e ▸ ha)
    simpa using this
  unfold deleteWatchlist
  rw [hu]
  simp only [hsame]
  unfold User.save
  unfold User.findById at hu
  rw [← hid] at hu
  rw [updateFirst_const_of_find? _ _ _ hu]

/-- C11: for a stored requester, `DELETE /users/watchlist/:movieId` is answered 200 and
leaves the requester with the old watchlist without that movie id, the other entries in
their old order; when the id was not in the watchlist the whole store is unchanged, and a
second removal of the same movie gives the store of the first. -/
theorem deleteWatchlist_idempotent (reqUser : User) (movieId : ObjectId) (s : Store)
    (user : User) (hu : User.findById s.users reqUser._id = some user) :
    (deleteWatchlist reqUser movieId s).1 = ⟨200, .message "Movie removed from watchlist"⟩ ∧
    (movieId ∉ user.watchlist → (deleteWatchlist reqUser movieId s).2 = s) ∧
    (deleteWatchlist reqUser movieId (deleteWatchlist reqUser movieId s).2).2 =
      (deleteWatchlist reqUser movieId s).2 ∧
    User.findById (deleteWatchlist reqUser movieId s).2.users reqUser._id =
      some { user with watchlist := user.watchlist.filter (fun id => decide (id ≠ movieId)) } ∧
    movieId ∉ user.watchlist.filter (fun id => decide (id ≠ movieId)) ∧
    (user.watchlist.filter (fun id => decide (id ≠ movieId))).Sublist user.watchlist ∧
    ∀ id, id ≠ movieId →
      (user.watchlist.filter (fun id => decide (id ≠ movieId))).count id
        = user.watchlist.count id := by
  have hfilter : (fun id : ObjectId => id != movieId) = (fun id => decide (id ≠ movieId)) := by
    funext id
    by_cases h : id = movieId <;> simp [h]
  have hid := (User.findById_id _ _ _ hu).1
  have hdel : deleteWatchlist reqUser movieId s =
      (⟨200, .message "Movie removed from watchlist"⟩,
        User.save { user with watchlist :=
          user.watchlist.filter (fun id => decide (id ≠ movieId)) } s) := by
    unfold deleteWatchlist
    rw [hu, hfilter]
  have hfound : User.findById (deleteWatchlist reqUser movieId s).2.users reqUser._id =
      some { user with watchlist := user.watchlist.filter (fun id => decide (id ≠ movieId)) } := by
    rw [hdel]
    exact User.findById_save s _ user _ hu hid
  have hgone : movieId ∉ user.watchlist.filter (fun id => decide (id ≠ movieId)) := by
    simp [List.mem_filter]
  refine ⟨by rw [hdel], ?_, ?_, hfound, hgone, List.filter_sublist _, ?_⟩
  · intro hnot
    rw [deleteWatchlist_absent reqUser movieId s user hu hnot]
  · rw [deleteWatchlist_absent reqUser movieId _ _ hfound hgone]
  · intro id hne
    rw [List.count_filter]
    simpa using hne

/-- Witness of C11: user A, whose watchlist is [3, 7], removes movie 3 and movie 9. -/
theorem deleteWatchlist_idempotent_witness :
    ((deleteWatchlist userA 9 storeC11).1 = ⟨200, .message "Movie removed from watchlist"⟩ ∧
      (deleteWatchlist userA 9 storeC11).2 = storeC11) ∧
    User.findById (deleteWatchlist userA 3 storeC11).2.users 1 =
      some { userA with watchlist := [7] } := by
  have h := deleteWatchlist_idempotent userA 9 storeC11 { userA with watchlist := [3, 7] }
    (by decide!)
  exact ⟨⟨h.1, h.2.1 (by decide!)⟩, by decide!⟩
theorem User.save_nodup (u : User) (s : Store) (hu : u.watchlist.Nodup)
    (h : ∀ x ∈ s.users, x.watchlist.Nodup) :
    ∀ x ∈ (User.save u s).users, x.watchlist.Nodup := by
  intro x hx
  unfold User.save at hx
  rcases mem_updateFirst _ _ _ _ hx with h1 | ⟨_, _, e⟩
  · exact h x h1
  · rw [e]; exact hu

theorem postWatchlist_nodup (reqUser : User) (movieId : ObjectId) (s : Store)
    (h : ∀ x ∈ s.users, x.watchlist.Nodup) :
    ∀ x ∈ (postWatchlist reqUser movieId s).2.users, x.watchlist.Nodup := by
  unfold postWatchlist
  split
  · exact h
  · split
    · exact h
    · split
      · exact h
      · rename_i user hu
        split
        · exact h
        · rename_i hc
          apply User.save_nodup _ _ _ h
          have hmem := (User.findById_id _ _ _ hu).2
          have hnot : movieId ∉ user.watchlist := by simpa using hc
          simp only []
          rw [← List.concat_eq_append]
          exact List.Nodup.concat hnot (h user hmem)

theorem deleteWatchlist_nodup (reqUser : User) (movieId : ObjectId) (s : Store)
    (h : ∀ x ∈ s.users, x.watchlist.Nodup) :
    ∀ x ∈ (deleteWatchlist reqUser movieId s).2.users, x.watchlist.Nodup := by
  unfold deleteWatchlist
  split
  · exact h
  · rename_i user hu
    apply User.save_nodup _ _ _ h
    exact List.Nodup.filter _ (h user (User.findById_id _ _ _ hu).2)

/-- C12: when no stored watchlist holds a movie id twice, then after any sequence of
`POST /users/watchlist/:movieId` and `DELETE /users/watchlist/:movieId` requests, by any
requesters and whatever their answers, no stored watchlist holds a movie id twice. -/
theorem runWatchlist_nodup (reqs : List WatchlistRequest) (s : Store)
    (h : ∀ u ∈ s.users, u.watchlist.Nodup) :
    ∀ u ∈ (runWatchlist reqs s).users, u.watchlist.Nodup ∧ ∀ id, u.watchlist.count id ≤ 1 := by
  induction reqs generalizing s with
  | nil =>
    intro u hu
    exact ⟨h u hu, fun id => List.nodup_iff_count_le_one.mp (h u hu) id⟩
  | cons r rs ih =>
    have hstep : ∀ u ∈ (r.handle s).2.users, u.watchlist.Nodup := by
      cases r with
      | add reqUser movieId => exact postWatchlist_nodup reqUser movieId s h
      | remove reqUser movieId => exact deleteWatchlist_nodup reqUser movieId s h
    exact ih (r.handle s).2 hstep

/-- Witness of C12: from the empty watchlist, user A adds 7, adds 7 again (rejected), adds
3, removes 9, adds 7 once more (rejected): the watchlist is [7, 3]. -/
theorem runWatchlist_nodup_witness :
    (User.findById (runWatchlist
      [.add userA 7, .add userA 7, .add userA 3, .remove userA 9, .add userA 7]
      { storeC11 with users := [userA, userB] }).users 1).map (fun u => u.watchlist)
      = some [7, 3] ∧
    ∀ u ∈ (runWatchlist
      [.add userA 7, .add userA 7, .add userA 3, .remove userA 9, .add userA 7]
      { storeC11 with users := [userA, userB] }).users,
      u.watchlist.Nodup ∧ ∀ id, u.watchlist.count id ≤ 1 :=
  ⟨by decide!, runWatchlist_nodup _ _ (by decide!)⟩

/-! ## Pagination -/

theorem pagination_hasNext_iff (P L : ℤ) (T : Nat) (hL : 1 ≤ L) :
    (pagination P L T).hasNext = true ↔ P * L < (T : ℤ) := by
  have hpos : (0 : Number) < (L : Number) := by exact_mod_cast (by omega : (0 : ℤ) < L)
  simp only [pagination, Math.ceil, decide_eq_true_eq]
  rw [Int.lt_ceil, lt_div_iff₀ hpos]
  exact_mod_cast Iff.rfl

theorem skipLimit_some {α : Type} (skip limit : ℤ) (docs : List α) (hs : 0 ≤ skip)
    (hl : 1 ≤ limit) :
    skipLimit skip limit docs = some ((docs.drop skip.toNat).take limit.toNat) ∧
      (((docs.drop skip.toNat).take limit.toNat).length : ℤ) ≤ limit := by
  have h1 : ¬ skip < 0 := by omega
  have h2 : ¬ limit = 0 := by omega
  have h3 : limit.natAbs = limit.toNat := by omega
  refine ⟨by simp [skipLimit, h1, h2, h3], ?_⟩
  have : ((docs.drop skip.toNat).take limit.toNat).length ≤ limit.toNat := by
    rw [List.length_take]; exact Nat.min_le_left _ _
  omega

theorem listReviews_page (page limit : Option String) (matching : List Review)
    (hP : 1 ≤ orDefault (parseInt page) 1) (hL : 1 ≤ orDefault (parseInt limit) 10) :
    ∃ items pg, listReviews page limit matching = .ok items pg ∧
      (items.length : ℤ) ≤ orDefault (parseInt limit) 10 ∧
      pg.total = matching.length ∧
      (pg.hasNext = true ↔
        orDefault (parseInt page) 1 * orDefault (parseInt limit) 10 < (pg.total : ℤ)) := by
  have hs : 0 ≤ (orDefault (parseInt page) 1 - 1) * orDefault (parseInt limit) 10 :=
    Int.mul_nonneg (by omega) (by omega)
  obtain ⟨h1, h2⟩ := skipLimit_some _ _ (Review.sortNewest matching) hs hL
  refine ⟨_, _, by unfold listReviews; rw [h1], h2, rfl, ?_⟩
  exact pagination_hasNext_iff _ _ _ hL

/-- C13: for every page `P >= 1` and limit `L >= 1` read from the request, each of the
three listing handlers answers with a page of at most `L` items, and its `hasNext` flag
is true exactly when `P * L` is less than the count of matching documents (for the
catalog, when the query passes validation). -/
theorem listings_page_size_and_hasNext (P L : ℤ) (hP : 1 ≤ P) (hL : 1 ≤ L) :
    (∀ (movieId : ObjectId) (page limit : Option String) (s : Store),
      orDefault (parseInt page) 1 = P → orDefault (parseInt limit) 10 = L →
      ∃ items pg, getMovieReviews movieId page limit s = .ok items pg ∧
        (items.length : ℤ) ≤ L ∧
        pg.total = (s.reviews.filter (fun r => r.movieId == movieId && r.isActive)).length ∧
        (pg.hasNext = true ↔ P * L < (pg.total : ℤ))) ∧
    (∀ (reqUser : User) (page limit : Option String) (s : Store),
      orDefault (parseInt page) 1 = P → orDefault (parseInt limit) 10 = L →
      ∃ items pg, getUserReviews reqUser page limit s = .ok items pg ∧
        (items.length : ℤ) ≤ L ∧
        pg.total =
          (s.reviews.filter (fun r => r.userId == reqUser._id && r.isActive)).length ∧
        (pg.hasNext = true ↔ P * L < (pg.total : ℤ))) ∧
    (∀ (Pf : Platform) (q : MoviesQuery) (s : Store),
      validateMovies Pf q = [] → moviesPage q = P → moviesLimit q = L →
      ∃ items pg, getMovies Pf q s = .ok items pg ∧
        (items.length : ℤ) ≤ L ∧
        pg.total =
          (s.movies.filter ((buildFilter Pf (sanitizeQuery q)).matches Pf)).length ∧
        (pg.hasNext = true ↔ P * L < (pg.total : ℤ))) := by
  refine ⟨?_, ?_, ?_⟩
  · intro movieId page limit s h1 h2
    subst h1 h2
    exact listReviews_page page limit _ hP hL
  · intro reqUser page limit s h1 h2
    subst h1 h2
    exact listReviews_page page limit _ hP hL
  · intro Pf q s hv h1 h2
    subst h1 h2
    have hs : 0 ≤ (moviesPage q - 1) * moviesLimit q := Int.mul_nonneg (by omega) (by omega)
    obtain ⟨e1, e2⟩ := skipLimit_some _ _ (moviesMatching Pf (sanitizeQuery q) s) hs hL
    refine ⟨_, _, by unfold getMovies; simp only [hv, ne_eq, not_true_eq_false, if_false]; rw [e1],
      e2, ?_, pagination_hasNext_iff _ _ _ hL⟩
    simp only [pagination, moviesMatching, Movie.sort, List.length_insertionSort]

/-- Witness of C13: page 2 with limit 1 of the three active reviews of movie 7 in
`storeC8`. -/
theorem listings_page_size_and_hasNext_witness :
    ∃ items pg, getMovieReviews 7 (some "2") (some "1") storeC8 = .ok items pg ∧
      (items.length : ℤ) ≤ 1 ∧
      pg.total = (storeC8.reviews.filter (fun r => r.movieId == 7 && r.isActive)).length ∧
      (pg.hasNext = true ↔ (2 : ℤ) * 1 < (pg.total : ℤ)) :=
  (listings_page_size_and_hasNext 2 1 (by decide) (by decide)).1 7 (some "2") (some "1")
    storeC8 (by decide!) (by decide!)

/-! ## The page size of the catalog -/

theorem isWhiteSpace_of_isDigit (c : Char) (h : c.isDigit = true) :
    isWhiteSpace c = false := by
  simp only [Char.isDigit, Bool.and_eq_true, decide_eq_true_eq, ge_iff_le, UInt32.le_def,
    Fin.le_def] at h
  have h1 : 48 ≤ c.toNat := h.1
  have h2 : c.toNat ≤ 57 := h.2
  simp only [isWhiteSpace, Bool.or_eq_false_iff, Bool.and_eq_false_imp, beq_eq_false_iff_ne,
    decide_eq_true_eq, decide_eq_false_iff_not, ne_eq]
  omega

theorem splitSign_cons_other (c : Char) (t : List Char) (h1 : c ≠ '-') (h2 : c ≠ '+') :
    splitSign (c :: t) = (false, c :: t) := by
  unfold splitSign
  split
  · rename_i heq; simp only [List.cons.injEq] at heq; exact absurd heq.1 h1
  · rename_i heq; simp only [List.cons.injEq] at heq; exact absurd heq.1 h2
  · rfl

theorem dropWhile_of_matchesInt (cs : List Char) (h : matchesInt cs = true) :
    cs.dropWhile isWhiteSpace = cs := by
  cases cs with
  | nil => rfl
  | cons c t =>
    have hc : isWhiteSpace c = false := by
      by_cases h1 : c = '-'
      · subst h1; rfl
      · by_cases h2 : c = '+'
        · subst h2; rfl
        · rw [matchesInt, splitSign_cons_other c t h1 h2] at h
          simp only [List.isEmpty_cons, Bool.not_false, List.all_cons, Bool.true_and,
            Bool.and_eq_true] at h
          exact isWhiteSpace_of_isDigit c h.1
    simp [List.dropWhile_cons, hc]

/-- On a string that passes the integer pattern of validator.js, `parseInt` reads the
number the validator compared with the bounds. -/
theorem parseInt_of_matchesInt (str : String) (h : matchesInt str.toList = true) :
    parseInt (some str) = some (toNumberInt str.toList) := by
  have hdrop := dropWhile_of_matchesInt _ h
  simp only [matchesInt, Bool.and_eq_true, Bool.not_eq_true', List.all_eq_true] at h
  obtain ⟨hne, hall⟩ := h
  have htw : (splitSign str.toList).2.takeWhile Char.isDigit = (splitSign str.toList).2 :=
    List.takeWhile_eq_self_iff.mpr hall
  unfold parseInt
  simp only [hdrop]
  split
  · rename_i t heq
    have := hall 'x' (by rw [heq]; simp)
    simp [Char.isDigit] at this
  · rename_i t heq
    have := hall 'X' (by rw [heq]; simp)
    simp [Char.isDigit] at this
  · simp only [htw, hne, toNumberInt]
    simp

theorem isIntStr_bounds (lo hi : ℤ) (str : String)
    (h : isIntStr (some lo) (some hi) str = true) :
    matchesInt str.toList = true ∧ lo ≤ toNumberInt str.toList ∧
      toNumberInt str.toList ≤ hi := by
  simpa [isIntStr, and_assoc] using h

theorem isIntStr_lower (lo : ℤ) (str : String) (h : isIntStr (some lo) none str = true) :
    matchesInt str.toList = true ∧ lo ≤ toNumberInt str.toList := by
  simpa [isIntStr] using h

theorem orDefault_of_pos (n d : ℤ) (h : 1 ≤ n) : orDefault (some n) d = n := by
  have : n ≠ 0 := by omega
  simp [orDefault, this]

theorem validateMovies_nil (Pf : Platform) (q : MoviesQuery) (h : validateMovies Pf q = []) :
    (∀ v, q.page = some v → isIntStr (some 1) none v = true) ∧
    (∀ v, q.limit = some v → isIntStr (some 1) (some 50) v = true) ∧
    (∀ v, q.year = some v → isIntStr (some 1900) none v = true) ∧
    (∀ v, q.minRating = some v → Pf.isFloat 0 5 v = true) := by
  simp only [validateMovies, List.append_eq_nil] at h
  obtain ⟨⟨⟨h1, h2⟩, h3⟩, h4⟩ := h
  refine ⟨?_, ?_, ?_, ?_⟩
  · intro v hv; rw [hv] at h1; by_contra hc; simp [hc] at h1
  · intro v hv; rw [hv] at h2; by_contra hc; simp [hc] at h2
  · intro v hv; rw [hv] at h3; by_contra hc; simp [hc] at h3
  · intro v hv; rw [hv] at h4; by_contra hc; simp [hc] at h4

theorem moviesPage_pos (Pf : Platform) (q : MoviesQuery) (h : validateMovies Pf q = []) :
    1 ≤ moviesPage q := by
  unfold moviesPage
  cases hp : q.page with
  | none => simp [parseInt, orDefault]
  | some v =>
    obtain ⟨hm, hlo⟩ := isIntStr_lower 1 v ((validateMovies_nil Pf q h).1 v hp)
    rw [parseInt_of_matchesInt v hm, orDefault_of_pos _ _ hlo]
    exact hlo

theorem moviesLimit_of_valid (Pf : Platform) (q : MoviesQuery)
    (h : validateMovies Pf q = []) :
    (q.limit = none → moviesLimit q = 12) ∧
    (∀ v, q.limit = some v →
      isIntStr (some 1) (some 50) v = true ∧ moviesLimit q = toNumberInt v.toList) ∧
    1 ≤ moviesLimit q ∧ moviesLimit q ≤ 50 := by
  unfold moviesLimit
  cases hl : q.limit with
  | none => simp [parseInt, orDefault]
  | some v =>
    have hv := (validateMovies_nil Pf q h).2.1 v hl
    obtain ⟨hm, hlo, hhi⟩ := isIntStr_bounds 1 50 v hv
    rw [parseInt_of_matchesInt v hm, orDefault_of_pos _ _ hlo]
    refine ⟨by simp, ?_, hlo, hhi⟩
    intro w hw
    simp only [Option.some.injEq] at hw
    subst hw
    exact ⟨hv, rfl⟩

/-- A catalog query that passes validation with a page and a limit of at least 1 is
answered with a page of at most `limit` movies. -/
theorem getMovies_ok (Pf : Platform) (q : MoviesQuery) (s : Store)
    (hv : validateMovies Pf q = []) (hP : 1 ≤ moviesPage q) (hL : 1 ≤ moviesLimit q) :
    ∃ items pg, getMovies Pf q s = .ok items pg ∧ (items.length : ℤ) ≤ moviesLimit q := by
  have hs : 0 ≤ (moviesPage q - 1) * moviesLimit q := Int.mul_nonneg (by omega) (by omega)
  obtain ⟨e1, e2⟩ := skipLimit_some _ _ (moviesMatching Pf (sanitizeQuery q) s) hs hL
  refine ⟨_, pagination (moviesPage q) (moviesLimit q)
    (moviesMatching Pf (sanitizeQuery q) s).length, ?_, e2⟩
  unfold getMovies
  simp only [hv, ne_eq, not_true_eq_false, if_false]
  rw [e1]

/-- C14: in `GET /movies`, a `limit` that the check `isInt({ min: 1, max: 50 })` refuses
is answered 400 with 'Limit must be 1-50', the same answer for every store; when the
query passes validation the page size is 12 for an absent `limit` and the number
supplied otherwise, it lies between 1 and 50, and the page answered has at most that
many movies. -/
theorem getMovies_limit_bounded (Pf : Platform) (q : MoviesQuery) (s : Store) :
    (∀ v, q.limit = some v → isIntStr (some 1) (some 50) v = false →
      getMovies Pf q s = .badRequest (validateMovies Pf q) ∧
      "Limit must be 1-50" ∈ validateMovies Pf q ∧
      ∀ s2, getMovies Pf q s2 = getMovies Pf q s) ∧
    (validateMovies Pf q = [] →
      (q.limit = none → moviesLimit q = 12) ∧
      (∀ v, q.limit = some v →
        isIntStr (some 1) (some 50) v = true ∧ moviesLimit q = toNumberInt v.toList) ∧
      1 ≤ moviesLimit q ∧ moviesLimit q ≤ 50 ∧
      ∃ items pg, getMovies Pf q s = .ok items pg ∧ (items.length : ℤ) ≤ moviesLimit q) := by
  constructor
  · intro v hv hbad
    have hmem : "Limit must be 1-50" ∈ validateMovies Pf q := by
      simp [validateMovies, hv, hbad]
    have hne : validateMovies Pf q ≠ [] := List.ne_nil_of_mem hmem
    have hget : ∀ s2, getMovies Pf q s2 = .badRequest (validateMovies Pf q) := by
      intro s2
      unfold getMovies
      rw [if_pos hne]
    exact ⟨hget s, hmem, fun s2 => by rw [hget s2, hget s]⟩
  · intro hvalid
    obtain ⟨h1, h2, h3, h4⟩ := moviesLimit_of_valid Pf q hvalid
    refine ⟨h1, h2, h3, h4, ?_⟩
    exact getMovies_ok Pf q s hvalid (moviesPage_pos Pf q hvalid) h3

/-- Witness of C14: `limit=51` is refused; `limit=2` on the sample catalog gives a page
size of 2. -/
theorem getMovies_limit_bounded_witness :
    getMovies samplePlatform { limit := some "51" } catalog =
      .badRequest ["Limit must be 1-50"] ∧
    moviesLimit { limit := some "2" } = 2 ∧
    ∃ items pg, getMovies samplePlatform { limit := some "2" } catalog = .ok items pg ∧
      (items.length : ℤ) ≤ moviesLimit { limit := some "2" } := by
  have h1 := (getMovies_limit_bounded samplePlatform { limit := some "51" } catalog).1
    "51" rfl (by decide!)
  have h2 := (getMovies_limit_bounded samplePlatform { limit := some "2" } catalog).2
    (by decide!)
  refine ⟨?_, ?_, h2.2.2.2.2⟩
  · rw [h1.1]; decide!
  · rw [(h2.2.1 "2" rfl).2]; decide!

/-! ## The filter and the sort of the catalog -/

theorem skipLimit_sublist {α : Type} (skip limit : ℤ) (docs items : List α)
    (h : skipLimit skip limit docs = some items) : items.Sublist docs := by
  unfold skipLimit at h
  split at h
  · simp at h
  · split at h
    · simp only [Option.some.injEq] at h
      subst h
      exact List.drop_sublist _ _
    · simp only [Option.some.injEq] at h
      subst h
      exact (List.take_sublist _ _).trans (List.drop_sublist _ _)

theorem getMovies_items (Pf : Platform) (q : MoviesQuery) (s : Store) (items : List Movie)
    (pg : Pagination) (h : getMovies Pf q s = .ok items pg) :
    items.Sublist (moviesMatching Pf (sanitizeQuery q) s) := by
  unfold getMovies at h
  split at h
  · simp at h
  · split at h
    · simp at h
    · rename_i movies heq
      simp only [Listing.ok.injEq] at h
      rw [← h.1]
      exact skipLimit_sublist _ _ _ _ heq

theorem trim_empty : trim "" = "" := by decide

/-- C15: the filter `GET /movies` hands to the store always requires `isActive = true`;
it holds a text search, a genre, a release year or a lower bound on the average rating
exactly when `search`, `genre`, `year` or `minRating` is present and non-empty (for
`search` and `genre`, non-empty after trimming); with none of the four supplied it is
exactly `{ isActive: true }`; and every movie of an answered page is a stored movie that
satisfies the filter, hence active. -/
theorem getMovies_filter (Pf : Platform) (q : MoviesQuery) :
    (buildFilter Pf (sanitizeQuery q)).isActive = true ∧
    (∀ t, (buildFilter Pf (sanitizeQuery q)).text = some t ↔
      ∃ v, q.search = some v ∧ v ≠ "" ∧ trim v ≠ "" ∧ t = trim v) ∧
    (∀ gs, (buildFilter Pf (sanitizeQuery q)).genre = some gs ↔
      ∃ v, q.genre = some v ∧ v ≠ "" ∧ trim v ≠ "" ∧ gs = [trim v]) ∧
    (∀ y, (buildFilter Pf (sanitizeQuery q)).releaseYear = some y ↔
      ∃ v, q.year = some v ∧ v ≠ "" ∧ y = parseInt (some v)) ∧
    (∀ r, (buildFilter Pf (sanitizeQuery q)).averageRating = some r ↔
      ∃ v, q.minRating = some v ∧ v ≠ "" ∧ r = Pf.parseFloat v) ∧
    (q.search = none → q.genre = none → q.year = none → q.minRating = none →
      buildFilter Pf (sanitizeQuery q) = { isActive := true }) ∧
    (∀ s items pg, getMovies Pf q s = .ok items pg →
      ∀ m ∈ items, m ∈ s.movies ∧ m.isActive = true ∧
        (buildFilter Pf (sanitizeQuery q)).matches Pf m = true) := by
  have hne : ∀ v : String, trim v ≠ "" → v ≠ "" := by
    intro v h e
    subst e
    exact h trim_empty
  refine ⟨rfl, ?_, ?_, ?_, ?_, ?_, ?_⟩
  · intro t
    cases hs : q.search with
    | none => simp [buildFilter, sanitizeQuery, truthy, hs]
    | some v =>
      by_cases hv : trim v = ""
      · simp [buildFilter, sanitizeQuery, truthy, hs, hv]
      · simp only [buildFilter, sanitizeQuery, truthy, hs, Option.map_some', bne_iff_ne, ne_eq,
          hv, not_false_eq_true, if_true, Option.some.injEq, exists_eq_left']
        exact ⟨fun e => ⟨hne v hv, trivial, e.symm⟩, fun e => e.2.2.symm⟩
  · intro gs
    cases hs : q.genre with
    | none => simp [buildFilter, sanitizeQuery, truthy, hs]
    | some v =>
      by_cases hv : trim v = ""
      · simp [buildFilter, sanitizeQuery, truthy, hs, hv]
      · simp only [buildFilter, sanitizeQuery, truthy, hs, Option.map_some', bne_iff_ne, ne_eq,
          hv, not_false_eq_true, if_true, Option.some.injEq, exists_eq_left']
        exact ⟨fun e => ⟨hne v hv, trivial, e.symm⟩, fun e => e.2.2.symm⟩
  · intro y
    cases hs : q.year with
    | none => simp [buildFilter, sanitizeQuery, truthy, hs]
    | some v =>
      by_cases hv : v = ""
      · simp [buildFilter, sanitizeQuery, truthy, hs, hv]
      · simp only [buildFilter, sanitizeQuery, truthy, hs, bne_iff_ne, ne_eq,
          hv, not_false_eq_true, if_true, Option.some.injEq, exists_eq_left', true_and]
        exact ⟨fun e => e.symm, fun e => e.symm⟩
  · intro r
    cases hs : q.minRating with
    | none => simp [buildFilter, sanitizeQuery, truthy, hs]
    | some v =>
      by_cases hv : v = ""
      · simp [buildFilter, sanitizeQuery, truthy, hs, hv]
      · simp only [buildFilter, sanitizeQuery, truthy, hs, bne_iff_ne, ne_eq, Option.map_some',
          hv, not_false_eq_true, if_true, Option.some.injEq, exists_eq_left', true_and]
        exact ⟨fun e => e.symm, fun e => e.symm⟩
  · intro h1 h2 h3 h4
    simp [buildFilter, sanitizeQuery, truthy, h1, h2, h3, h4]
  · intro s items pg h m hm
    have hsub := (getMovies_items Pf q s items pg h).subset hm
    unfold moviesMatching Movie.sort at hsub
    rw [(List.perm_insertionSort _ _).mem_iff, List.mem_filter] at hsub
    refine ⟨hsub.1, ?_, hsub.2⟩
    have hmatch := hsub.2
    simp only [MovieFilter.matches, Bool.and_eq_true] at hmatch
    have := hmatch.1.1.1.1
    simpa [buildFilter] using this

/-- Witness of C15: the empty query gives `{ isActive: true }`, and `search= B ` with
`minRating=3` gives the text search 'B' and the bound 3. -/
theorem getMovies_filter_witness :
    buildFilter samplePlatform (sanitizeQuery {}) = { isActive := true } ∧
    (buildFilter samplePlatform
      (sanitizeQuery { search := some " B ", minRating := some "3" })).text = some "B" ∧
    (buildFilter samplePlatform
      (sanitizeQuery { search := some " B ", minRating := some "3" })).averageRating
        = some (some 3) :=
  ⟨(getMovies_filter samplePlatform {}).2.2.2.2.2.1 rfl rfl rfl rfl,
    ((getMovies_filter samplePlatform { search := some " B ", minRating := some "3" }).2.1
      "B").mpr ⟨" B ", rfl, by decide!, by decide!, by decide!⟩,
    ((getMovies_filter samplePlatform { search := some " B ", minRating := some "3" }).2.2.2.2.1
      (some 3)).mpr ⟨"3", rfl, by decide!, by decide!⟩⟩

theorem sortField_total (f : SortField) (a b : Movie) : f.le a b ∨ f.le b a := by
  cases f <;> simp only [SortField.le] <;> exact le_total _ _

theorem sortField_trans (f : SortField) (a b c : Movie) (h1 : f.le a b) (h2 : f.le b c) :
    f.le a c := by
  cases f <;> simp only [SortField.le] at * <;> exact le_trans h1 h2

theorem sortOption_total (o : SortOption) (a b : Movie) : o.before a b ∨ o.before b a := by
  unfold SortOption.before
  split
  · exact sortField_total _ _ _
  · exact sortField_total _ _ _

theorem sortOption_trans (o : SortOption) (a b c : Movie) (h1 : o.before a b)
    (h2 : o.before b c) : o.before a c := by
  unfold SortOption.before at *
  split
  · rename_i h; rw [if_pos h] at h1 h2; exact sortField_trans _ _ _ _ h2 h1
  · rename_i h; rw [if_neg h] at h1 h2; exact sortField_trans _ _ _ _ h1 h2

/-- The sorted list of movies is ordered by the sort option and holds the same movies. -/
theorem Movie.sort_sorted (o : SortOption) (movies : List Movie) :
    (Movie.sort o movies).Pairwise o.before ∧ (Movie.sort o movies).Perm movies := by
  haveI : IsTotal Movie o.before := ⟨sortOption_total o⟩
  haveI : IsTrans Movie o.before := ⟨sortOption_trans o⟩
  exact ⟨List.sorted_insertionSort o.before movies, List.perm_insertionSort o.before movies⟩

/-- C16: the sort of `GET /movies` is by `averageRating` descending for `sortBy=rating`,
by `releaseYear` descending for `year`, by `title` ascending for `title`, and by
`createdAt` descending for every other value and for an absent one; the movies of an
answered page stand in that order. -/
theorem getMovies_sort_order (sortBy : Option String) :
    (sortBy = some "rating" → ∀ a b, (sortOption sortBy).before a b ↔
      b.averageRating ≤ a.averageRating) ∧
    (sortBy = some "year" → ∀ a b, (sortOption sortBy).before a b ↔
      b.releaseYear ≤ a.releaseYear) ∧
    (sortBy = some "title" → ∀ a b, (sortOption sortBy).before a b ↔ a.title ≤ b.title) ∧
    (sortBy ≠ some "rating" → sortBy ≠ some "year" → sortBy ≠ some "title" →
      ∀ a b, (sortOption sortBy).before a b ↔ b.createdAt ≤ a.createdAt) ∧
    (∀ (Pf : Platform) (q : MoviesQuery) (s : Store) items pg, q.sortBy = sortBy →
      getMovies Pf q s = .ok items pg → items.Pairwise (sortOption sortBy).before) := by
  refine ⟨?_, ?_, ?_, ?_, ?_⟩
  · rintro rfl a b
    simp [sortOption, SortOption.before, SortField.le]
  · rintro rfl a b
    simp [sortOption, SortOption.before, SortField.le]
  · rintro rfl a b
    simp [sortOption, SortOption.before, SortField.le]
  · intro h1 h2 h3 a b
    have : sortOption sortBy = { field := .createdAt, direction := -1 } := by
      unfold sortOption
      split <;> simp_all
    rw [this]
    simp [SortOption.before, SortField.le]
  · intro Pf q s items pg hq h
    have hsub := getMovies_items Pf q s items pg h
    unfold moviesMatching at hsub
    simp only [sanitizeQuery, hq] at hsub
    exact List.Pairwise.sublist hsub (Movie.sort_sorted _ _).1

/-- Witness of C16: the sample catalog by title, by rating and with an unknown key. -/
theorem getMovies_sort_order_witness :
    ((Movie.sort (sortOption (some "title")) catalog.movies).map (fun m => m.title)
      = ["A", "B", "C", "D"] ∧
    (Movie.sort (sortOption (some "rating")) catalog.movies).map (fun m => m.averageRating)
      = [4, 3, 2, 0] ∧
    (Movie.sort (sortOption (some "newest")) catalog.movies).map (fun m => m.createdAt)
      = [7, 6, 5, 0]) ∧
    ∀ a b, (sortOption (some "newest")).before a b ↔ b.createdAt ≤ a.createdAt :=
  ⟨by decide!, (getMovies_sort_order (some "newest")).2.2.2.1 (by decide) (by decide)
    (by decide)⟩

/-! ## Owner or admin -/

theorem isInt_bounds (lo hi : ℤ) (q : Number) (h : isInt lo hi (some q) = true) :
    (lo : Number) ≤ q ∧ q ≤ (hi : Number) := by
  simp only [isInt, Bool.and_eq_true, decide_eq_true_eq] at h
  obtain ⟨⟨hden, h1⟩, h2⟩ := h
  have hq : ((q.num : ℤ) : Number) = q := Rat.coe_int_num_of_den_eq_one hden
  rw [← hq]
  exact ⟨by exact_mod_cast h1, by exact_mod_cast h2⟩

theorem runValidators_of_validatePut (env : Env) (body : ReviewBody)
    (h : validatePut body = []) :
    runValidators { sanitizeBody body with isEdited := some true, editedAt := some env.now }
      = true := by
  simp only [validatePut, List.append_eq_nil] at h
  obtain ⟨h1, h2⟩ := h
  simp only [runValidators, sanitizeBody, Bool.and_eq_true]
  constructor
  · cases hr : body.rating with
    | none => rfl
    | some q =>
      have hi : isInt 1 5 (some q) = true := by
        by_contra hc
        simp [hr, hc] at h1
      have := isInt_bounds 1 5 q hi
      simp only [Bool.and_eq_true, decide_eq_true_eq]
      exact ⟨by exact_mod_cast this.1, by exact_mod_cast this.2⟩
  · cases ht : body.reviewText with
    | none => rfl
    | some t =>
      have hl : isLengthTrimmed 10 1000 (some t) = true := by
        by_contra hc
        simp [ht, hc] at h2
      simp only [isLengthTrimmed, Option.getD_some, Bool.and_eq_true, decide_eq_true_eq] at hl
      simp only [Option.map_some', Bool.and_eq_true, decide_eq_true_eq]
      exact ⟨by omega, hl.2⟩

theorem ownerGuard_iff (review : Review) (reqUser : User) :
    (review.userId != reqUser._id && !reqUser.isAdmin) = true ↔
      ¬ (review.userId = reqUser._id ∨ reqUser.isAdmin = true) := by
  cases h : reqUser.isAdmin <;> simp [h]

/-- What `DELETE /reviews/:id` does on an existing active review. -/
theorem deleteReview_of_active (now : Nat) (reqUser : User) (id : ObjectId) (s : Store) (review : Review)
    (hr : Review.findById s.reviews id = some review) (ha : review.isActive = true) :
    deleteReview now reqUser id s =
      if (review.userId != reqUser._id && !reqUser.isAdmin) = true then
        (⟨403, .message "You can only delete your own reviews"⟩, s)
      else
        match Review.findByIdAndUpdate now id (fun r => { r with isActive := false }) s with
        | none => (⟨500, .serverError⟩, s)
        | some s2 => (⟨200, .message "Review deleted successfully"⟩, s2) := by
  unfold deleteReview
  rw [hr]
  simp only [ha, Bool.not_true, Bool.false_eq_true, if_false]

/-- What `PUT /reviews/:id` does on an existing active review with a body that passes
validation. -/
theorem putReview_of_active (env : Env) (reqUser : User) (id : ObjectId) (body : ReviewBody)
    (s : Store) (review : Review)
    (hr : Review.findById s.reviews id = some review) (ha : review.isActive = true)
    (hv : validatePut body = []) :
    putReview env reqUser id body s =
      if (review.userId != reqUser._id && !reqUser.isAdmin) = true then
        (⟨403, .message "You can only edit your own reviews"⟩, s)
      else
        match Review.findByIdAndUpdate env.now id (applyUpdate
          { sanitizeBody body with isEdited := some true, editedAt := some env.now }) s with
        | none => (⟨500, .serverError⟩, s)
        | some s2 =>
          (⟨200, .review "Review updated successfully" (Review.findById s2.reviews id)⟩, s2) := by
  unfold putReview
  simp only [hv, ne_eq, not_true_eq_false, if_false]
  rw [hr]
  simp only [ha, Bool.not_true, Bool.false_eq_true, if_false,
    runValidators_of_validatePut env body hv]

/-- C17 as stated fails at this input: user B, not an admin, sends `PUT /reviews/11` for
the active review of user A with rating 9 and is answered 400 with the validation
errors, not 403. -/
theorem putReview_stranger_invalid_body :
    (Review.findById scenario1.2.reviews 11).map (fun r => (r.userId, r.isActive))
      = some (1, true) ∧
    userB._id ≠ 1 ∧ userB.isAdmin = false ∧
    putReview ⟨102, 0⟩ userB 11 (bodyOf 9 "not mine to edit") scenario1.2 =
      (⟨400, .errors ["Rating must be between 1 and 5"]⟩, scenario1.2) := by
  decide!

/-- C17 amended: for an existing active review, `DELETE /reviews/:id`, and
`PUT /reviews/:id` with a body that passes validation, are answered 403 exactly when the
requester is neither the review's user nor an admin, and then the store is unchanged;
otherwise the handler goes on to the update and answers 200 (500 when the update
throws). A `PUT` whose body fails validation is answered 400 for every requester, the
store unchanged. -/
theorem review_owner_or_admin (env : Env) (reqUser : User) (id : ObjectId)
    (body : ReviewBody) (s : Store) (review : Review)
    (hr : Review.findById s.reviews id = some review) (ha : review.isActive = true) :
    ((deleteReview env.now reqUser id s).1.status = 403 ↔
      ¬ (review.userId = reqUser._id ∨ reqUser.isAdmin = true)) ∧
    (validatePut body = [] →
      ((putReview env reqUser id body s).1.status = 403 ↔
        ¬ (review.userId = reqUser._id ∨ reqUser.isAdmin = true))) ∧
    (validatePut body ≠ [] →
      putReview env reqUser id body s = (⟨400, .errors (validatePut body)⟩, s)) ∧
    (¬ (review.userId = reqUser._id ∨ reqUser.isAdmin = true) →
      deleteReview env.now reqUser id s =
        (⟨403, .message "You can only delete your own reviews"⟩, s) ∧
      (putReview env reqUser id body s).2 = s ∧
      (validatePut body = [] → putReview env reqUser id body s =
        (⟨403, .message "You can only edit your own reviews"⟩, s))) ∧
    ((review.userId = reqUser._id ∨ reqUser.isAdmin = true) →
      deleteReview env.now reqUser id s =
        (match Review.findByIdAndUpdate env.now id (fun r => { r with isActive := false }) s with
          | none => (⟨500, .serverError⟩, s)
          | some s2 => (⟨200, .message "Review deleted successfully"⟩, s2)) ∧
      (validatePut body = [] → putReview env reqUser id body s =
        (match Review.findByIdAndUpdate env.now id (applyUpdate
            { sanitizeBody body with isEdited := some true, editedAt := some env.now }) s with
          | none => (⟨500, .serverError⟩, s)
          | some s2 =>
            (⟨200, .review "Review updated successfully" (Review.findById s2.reviews id)⟩,
              s2)))) := by
  have hdel := deleteReview_of_active env.now reqUser id s review hr ha
  have hput := putReview_of_active env reqUser id body s review hr ha
  have hinvalid : validatePut body ≠ [] →
      putReview env reqUser id body s = (⟨400, .errors (validatePut body)⟩, s) := by
    intro hne
    unfold putReview
    rw [if_pos hne]
  by_cases hauth : review.userId = reqUser._id ∨ reqUser.isAdmin = true
  · have hg : ¬ (review.userId != reqUser._id && !reqUser.isAdmin) = true :=
      fun c => (ownerGuard_iff review reqUser).mp c hauth
    rw [if_neg hg] at hdel
    simp only [if_neg hg] at hput
    refine ⟨?_, ?_, hinvalid, fun hn => absurd hauth hn, fun _ => ⟨hdel, hput⟩⟩
    · rw [hdel]
      constructor
      · intro h403
        exfalso
        revert h403
        split <;> simp
      · intro hn; exact absurd hauth hn
    · intro hv
      rw [hput hv]
      constructor
      · intro h403
        exfalso
        revert h403
        split <;> simp
      · intro hn; exact absurd hauth hn
  · have hg : (review.userId != reqUser._id && !reqUser.isAdmin) = true :=
      (ownerGuard_iff review reqUser).mpr hauth
    rw [if_pos hg] at hdel
    simp only [if_pos hg] at hput
    refine ⟨?_, ?_, hinvalid, fun _ => ⟨hdel, ?_, hput⟩, fun h => absurd h hauth⟩
    · rw [hdel]; exact ⟨fun _ => hauth, fun _ => rfl⟩
    · intro hv; rw [hput hv]; exact ⟨fun _ => hauth, fun _ => rfl⟩
    · by_cases hv : validatePut body = []
      · rw [hput hv]
      · rw [hinvalid hv]

/-- Witness of C17 amended: on the active review 11 of user A, user B's `DELETE` is
answered 403 with the store unchanged, and user A's `DELETE` is answered 200. -/
theorem review_owner_or_admin_witness :
    deleteReview 102 userB 11 scenario1.2 =
      (⟨403, .message "You can only delete your own reviews"⟩, scenario1.2) ∧
    (deleteReview 102 userA 11 scenario1.2).1.status = 200 ∧
    ((deleteReview 102 userA 11 scenario1.2).1.status = 403 ↔
      ¬ ((1 : ObjectId) = userA._id ∨ userA.isAdmin = true)) := by
  have hB := review_owner_or_admin ⟨102, 0⟩ userB 11 {} scenario1.2
    { _id := 11, userId := 1, movieId := 7, rating := 4, reviewText := "a fine movie indeed",
      createdAt := 100 } (by decide!) rfl
  have hA := review_owner_or_admin ⟨102, 0⟩ userA 11 {} scenario1.2
    { _id := 11, userId := 1, movieId := 7, rating := 4, reviewText := "a fine movie indeed",
      createdAt := 100 } (by decide!) rfl
  exact ⟨(hB.2.2.2.1 (by decide)).1, by decide!, hA.1⟩

/-! ## The access-control middleware -/

/-- C18: `requireAdmin` answers 401 without calling `next` when `req.user` is absent,
answers 403 without calling `next` when `req.user` is not an admin, and calls `next`,
sending nothing and leaving `req.user` as it is, exactly when `req.user.isAdmin` is
true. -/
theorem requireAdmin_tiers (reqUser : Option User) :
    (reqUser = none →
      requireAdmin reqUser = .respond ⟨401, .message "Authentication required."⟩) ∧
    (∀ u, reqUser = some u → u.isAdmin = false →
      requireAdmin reqUser = .respond ⟨403, .message "Admin access required."⟩) ∧
    (∀ u, reqUser = some u → u.isAdmin = true → requireAdmin reqUser = .next (some u)) ∧
    ((∃ r, requireAdmin reqUser = .next r) ↔ ∃ u, reqUser = some u ∧ u.isAdmin = true) := by
  cases reqUser with
  | none => simp [requireAdmin]
  | some u => cases h : u.isAdmin <;> simp [requireAdmin, h]

/-- Witness of C18: no user, user B and the admin of `storeAuth`. -/
theorem requireAdmin_tiers_witness :
    requireAdmin none = .respond ⟨401, .message "Authentication required."⟩ ∧
    requireAdmin (some userB) = .respond ⟨403, .message "Admin access required."⟩ ∧
    requireAdmin (some { userA with isAdmin := true }) =
      .next (some { userA with isAdmin := true }) :=
  ⟨(requireAdmin_tiers none).1 rfl, (requireAdmin_tiers (some userB)).2.1 userB rfl rfl,
    (requireAdmin_tiers (some { userA with isAdmin := true })).2.2.1 _ rfl rfl⟩

/-- C19: `authenticateToken` calls `next`, with the user as `req.user`, exactly when the
header carries a non-empty token that `jwt.verify` decodes to the id of a stored user
with `isActive = true`; otherwise it responds without calling `next`: 401 'Access denied.
No token provided.' for a missing token, 401 'Invalid token.' for a `JsonWebTokenError`,
401 'Token expired.' for a `TokenExpiredError`, 401 'Invalid token. User not found.' for
an absent or inactive user; the four messages differ. -/
theorem authenticateToken_outcomes (verify : String → Verified) (authHeader : Option String)
    (s : Store) :
    (∀ r, authenticateToken verify authHeader s = .next r ↔
      ∃ token uid user, bearerToken authHeader = some token ∧ token ≠ "" ∧
        verify token = .decoded (some uid) ∧ User.findById s.users uid = some user ∧
        user.isActive = true ∧ r = some user) ∧
    ((bearerToken authHeader = none ∨ bearerToken authHeader = some "") →
      authenticateToken verify authHeader s =
        .respond ⟨401, .message "Access denied. No token provided."⟩) ∧
    (∀ token, bearerToken authHeader = some token → token ≠ "" →
      (verify token = .jsonWebTokenError →
        authenticateToken verify authHeader s = .respond ⟨401, .message "Invalid token."⟩) ∧
      (verify token = .tokenExpiredError →
        authenticateToken verify authHeader s = .respond ⟨401, .message "Token expired."⟩) ∧
      (∀ userId, verify token = .decoded userId →
        (∀ user, userId.bind (User.findById s.users) = some user → user.isActive = false) →
        authenticateToken verify authHeader s =
          .respond ⟨401, .message "Invalid token. User not found."⟩)) ∧
    ((∀ r, authenticateToken verify authHeader s ≠ .next r) →
      ∃ response, authenticateToken verify authHeader s = .respond response) ∧
    ["Access denied. No token provided.", "Invalid token.", "Token expired.",
      "Invalid token. User not found."].Nodup := by
  refine ⟨?_, ?_, ?_, ?_, by decide⟩
  rotate_left 3
  · intro hno
    cases h : authenticateToken verify authHeader s with
    | respond response => exact ⟨response, rfl⟩
    | next r => exact absurd h (hno r)
  · intro r
    unfold authenticateToken
    cases hb : bearerToken authHeader with
    | none => simp
    | some token =>
      by_cases ht : token = ""
      · simp [ht]
      · simp only [ht, if_false, Option.some.injEq, ne_eq, exists_and_left, exists_eq_left',
          not_false_eq_true, true_and]
        cases hv : verify token with
        | jsonWebTokenError => simp
        | tokenExpiredError => simp
        | otherError => simp
        | decoded userId =>
          cases userId with
          | none => simp
          | some uid =>
            simp only [Option.some_bind, Verified.decoded.injEq, Option.some.injEq,
              exists_eq_left']
            cases hu : User.findById s.users uid with
            | none => simp
            | some user =>
              cases ha : user.isActive with
              | false => simp [ha]
              | true =>
                simp only [ha, Bool.not_true, Bool.false_eq_true, if_false, Next.next.injEq,
                  Option.some.injEq, exists_eq_left', true_and]
                exact eq_comm
  · rintro (h | h) <;> simp [authenticateToken, h]
  · intro token hb ht
    refine ⟨?_, ?_, ?_⟩
    · intro hv; simp [authenticateToken, hb, ht, hv]
    · intro hv; simp [authenticateToken, hb, ht, hv]
    · intro userId hv hu
      unfold authenticateToken
      simp only [hb, ht, if_false, hv]
      cases hf : userId.bind (User.findById s.users) with
      | none => rfl
      | some user => simp [hu user hf]

/-- Witness of C19: a valid token of the admin, no header, an expired token, a malformed
token, a token of an unknown user. -/
theorem authenticateToken_outcomes_witness :
    authenticateToken sampleVerify (some "Bearer good1") storeAuth =
      .next (some { userA with isAdmin := true }) ∧
    authenticateToken sampleVerify none storeAuth =
      .respond ⟨401, .message "Access denied. No token provided."⟩ ∧
    authenticateToken sampleVerify (some "Bearer old") storeAuth =
      .respond ⟨401, .message "Token expired."⟩ ∧
    authenticateToken sampleVerify (some "Bearer x.y.z") storeAuth =
      .respond ⟨401, .message "Invalid token."⟩ ∧
    authenticateToken sampleVerify (some "Bearer good9") storeAuth =
      .respond ⟨401, .message "Invalid token. User not found."⟩ :=
  ⟨((authenticateToken_outcomes sampleVerify (some "Bearer good1") storeAuth).1 _).mpr
      ⟨"good1", 1, _, by decide!, by decide, by decide!, by decide!, rfl, rfl⟩,
    (authenticateToken_outcomes sampleVerify none storeAuth).2.1 (Or.inl rfl),
    ((authenticateToken_outcomes sampleVerify (some "Bearer old") storeAuth).2.2.1 "old"
      (by decide!) (by decide)).2.1 (by decide!),
    ((authenticateToken_outcomes sampleVerify (some "Bearer x.y.z") storeAuth).2.2.1 "x.y.z"
      (by decide!) (by decide)).1 (by decide!),
    ((authenticateToken_outcomes sampleVerify (some "Bearer good9") storeAuth).2.2.1 "good9"
      (by decide!) (by decide)).2.2 (some 9) (by decide!) (by
        intro user h
        have : (some 9 : Option ObjectId).bind (User.findById storeAuth.users) = none := by
          decide!
        rw [this] at h
        cases h)⟩

/-- C20: `optionalAuth` sends no response and calls `next` for every request, with any
header, any outcome of `jwt.verify` and any store; `req.user` is set exactly when the
header carries a non-empty token that `jwt.verify` decodes to the id of a stored user
with `isActive = true`, and the request stays anonymous otherwise. -/
theorem optionalAuth_never_fails (verify : String → Verified) (authHeader : Option String)
    (s : Store) :
    (∀ response, optionalAuth verify authHeader s ≠ .respond response) ∧
    ∃ r, optionalAuth verify authHeader s = .next r ∧
      ∀ user, r = some user ↔
        ∃ token uid, bearerToken authHeader = some token ∧ token ≠ "" ∧
          verify token = .decoded (some uid) ∧ User.findById s.users uid = some user ∧
          user.isActive = true := by
  have key : ∃ r, optionalAuth verify authHeader s = .next r ∧
      ∀ user, r = some user ↔
        ∃ token uid, bearerToken authHeader = some token ∧ token ≠ "" ∧
          verify token = .decoded (some uid) ∧ User.findById s.users uid = some user ∧
          user.isActive = true := by
    unfold optionalAuth
    cases hb : bearerToken authHeader with
    | none => exact ⟨none, rfl, by simp⟩
    | some token =>
      by_cases ht : token = ""
      · exact ⟨none, by simp [ht], by simp [ht]⟩
      · simp only [ht, if_false, Option.some.injEq, ne_eq, exists_and_left, exists_eq_left',
          not_false_eq_true, true_and]
        cases hv : verify token with
        | jsonWebTokenError => exact ⟨none, rfl, by simp⟩
        | tokenExpiredError => exact ⟨none, rfl, by simp⟩
        | otherError => exact ⟨none, rfl, by simp⟩
        | decoded userId =>
          cases userId with
          | none => exact ⟨none, rfl, by simp⟩
          | some uid =>
            simp only [Option.some_bind, Verified.decoded.injEq, Option.some.injEq,
              exists_eq_left']
            cases hu : User.findById s.users uid with
            | none => exact ⟨none, rfl, by simp⟩
            | some u =>
              cases ha : u.isActive with
              | false =>
                refine ⟨none, by simp [ha], ?_⟩
                intro user
                simp only [Option.some.injEq, false_iff, not_and, reduceCtorEq]
                intro e; subst e; simp [ha]
              | true =>
                refine ⟨some u, by simp [ha], ?_⟩
                intro user
                simp only [Option.some.injEq]
                constructor
                · intro e; subst e; exact ⟨rfl, ha⟩
                · intro h; exact h.1
  refine ⟨?_, key⟩
  obtain ⟨r, hr, -⟩ := key
  intro response h
  rw [hr] at h
  cases h

/-- Witness of C20: a valid token, no header, a malformed token, an expired token and a
token of a deactivated user. -/
theorem optionalAuth_never_fails_witness :
    optionalAuth sampleVerify (some "Bearer good2") storeAuth = .next (some userB) ∧
    optionalAuth sampleVerify none storeAuth = .next none ∧
    optionalAuth sampleVerify (some "Bearer x.y.z") storeAuth = .next none ∧
    optionalAuth sampleVerify (some "Bearer old") storeAuth = .next none ∧
    optionalAuth sampleVerify (some "Bearer good3") storeAuth = .next none ∧
    ∀ response, optionalAuth sampleVerify (some "Bearer old") storeAuth ≠ .respond response :=
  ⟨by decide!, by decide!, by decide!, by decide!, by decide!,
    (optionalAuth_never_fails sampleVerify (some "Bearer old") storeAuth).1⟩

/-! ## Validation of a review creation -/

theorem isInt_iff (lo hi : ℤ) (v : Option Number) :
    isInt lo hi v = true ↔ ∃ k : ℤ, v = some (k : Number) ∧ lo ≤ k ∧ k ≤ hi := by
  cases v with
  | none => simp [isInt]
  | some q =>
    simp only [isInt, Bool.and_eq_true, decide_eq_true_eq, Option.some.injEq]
    constructor
    · rintro ⟨⟨hden, h1⟩, h2⟩
      exact ⟨q.num, (Rat.coe_int_num_of_den_eq_one hden).symm, h1, h2⟩
    · rintro ⟨k, rfl, h1, h2⟩
      simp [h1, h2]

theorem isLengthTrimmed_iff (lo hi : Nat) (hlo : 0 < lo) (v : Option String) :
    isLengthTrimmed lo hi v = true ↔
      ∃ t, v = some t ∧ lo ≤ (trim t).length ∧ (trim t).length ≤ hi := by
  cases v with
  | none =>
    have h0 : (trim "").length = 0 := by rw [trim_empty]; rfl
    simp only [isLengthTrimmed, Option.getD_none, h0, Bool.and_eq_true, decide_eq_true_eq,
      reduceCtorEq, false_and, exists_false, iff_false, not_and]
    intro h; omega
  | some t => simp [isLengthTrimmed]

theorem validatePost_nil_iff (body : ReviewBody) :
    validatePost body = [] ↔
      isInt 1 5 body.rating = true ∧ isLengthTrimmed 10 1000 body.reviewText = true := by
  unfold validatePost
  cases h1 : isInt 1 5 body.rating <;> cases h2 : isLengthTrimmed 10 1000 body.reviewText <;>
    simp

/-- C21: the body of `POST /reviews/movie/:movieId` passes validation exactly when its
rating is an integer between 1 and 5 and its review text has between 10 and 1000
characters after trimming, where `trim` removes every white space character of
JavaScript at both ends; every other body is answered 400 with the messages of the
fields that failed, and the store, reviews and movie aggregates included, is
unchanged. -/
theorem postMovieReview_validation (env : Env) (reqUser : User) (movieId : ObjectId)
    (body : ReviewBody) (s : Store) :
    (validatePost body = [] ↔
      (∃ k : ℤ, body.rating = some (k : Number) ∧ 1 ≤ k ∧ k ≤ 5) ∧
      (∃ t, body.reviewText = some t ∧ 10 ≤ (trim t).length ∧ (trim t).length ≤ 1000)) ∧
    (validatePost body ≠ [] →
      postMovieReview env reqUser movieId body s =
        (⟨400, .errors (validatePost body)⟩, s) ∧
      ("Rating must be between 1 and 5" ∈ validatePost body ↔
        ¬ ∃ k : ℤ, body.rating = some (k : Number) ∧ 1 ≤ k ∧ k ≤ 5) ∧
      ("Review must be 10-1000 characters" ∈ validatePost body ↔
        ¬ ∃ t, body.reviewText = some t ∧ 10 ≤ (trim t).length ∧ (trim t).length ≤ 1000)) := by
  have hi := isInt_iff 1 5 body.rating
  have hl := isLengthTrimmed_iff 10 1000 (by decide) body.reviewText
  refine ⟨?_, ?_⟩
  · rw [validatePost_nil_iff, hi, hl]
  · intro hne
    refine ⟨by unfold postMovieReview; rw [if_pos hne], ?_, ?_⟩
    · rw [← hi]
      unfold validatePost
      cases h1 : isInt 1 5 body.rating <;>
        cases h2 : isLengthTrimmed 10 1000 body.reviewText <;> simp
    · rw [← hl]
      unfold validatePost
      cases h1 : isInt 1 5 body.rating <;>
        cases h2 : isLengthTrimmed 10 1000 body.reviewText <;> simp

/-- Witness of C21: on the empty catalog of the scenario, rating 4 with a text of 19
characters passes, rating 4.5 and a text of 5 characters are refused, and so is rating 5
with a text of 5 characters between no-break spaces, a vertical tab and U+FEFF, which
has 10 characters before trimming. -/
theorem postMovieReview_validation_witness :
    validatePost (bodyOf 4 "a fine movie indeed") = [] ∧
    postMovieReview ⟨100, 11⟩ userA 7 (bodyOf (9 / 2) "  short  ") store0 =
      (⟨400, .errors ["Rating must be between 1 and 5", "Review must be 10-1000 characters"]⟩,
        store0) ∧
    ("\u00a0\u00a0short\u00a0\x0b\ufeff").length = 10 ∧
    postMovieReview ⟨100, 11⟩ userA 7 (bodyOf 5 "\u00a0\u00a0short\u00a0\x0b\ufeff") store0 =
      (⟨400, .errors ["Review must be 10-1000 characters"]⟩, store0) := by
  refine ⟨((postMovieReview_validation ⟨100, 11⟩ userA 7 (bodyOf 4 "a fine movie indeed")
    store0).1).mpr ⟨⟨4, by simp [bodyOf], by decide, by decide⟩,
      ⟨"a fine movie indeed", rfl, by decide!, by decide!⟩⟩, ?_, by decide, ?_⟩
  · rw [((postMovieReview_validation ⟨100, 11⟩ userA 7 (bodyOf (9 / 2) "  short  ")
      store0).2 (by decide!)).1]
    decide!
  · rw [((postMovieReview_validation ⟨100, 11⟩ userA 7
      (bodyOf 5 "\u00a0\u00a0short\u00a0\x0b\ufeff") store0).2 (by decide!)).1]
    decide!

/-! ## Frame of the review routes -/

theorem map_updateFirst {α β : Type} (p : α → Bool) (f : α → α) (g : α → β)
    (hg : ∀ x, g (f x) = g x) (l : List α) :
    (updateFirst p f l).map g = l.map g := by
  induction l with
  | nil => rfl
  | cons x xs ih =>
    by_cases hx : p x = true
    · simp [updateFirst, hx, hg]
    · simp [updateFirst, hx, ih]

/-- What `Review.findByIdAndUpdate` leaves: nothing changed when no review has the id,
otherwise the review collection with the first review of that id rewritten. -/
theorem Review.findByIdAndUpdate_reviews (now : Nat) (id : ObjectId) (f : Review → Review)
    (s s2 : Store) (h : Review.findByIdAndUpdate now id f s = some s2) :
    s2.reviews = updateFirst (fun x => x._id == id) f s.reviews := by
  unfold Review.findByIdAndUpdate at h
  split at h
  · rename_i hnone
    simp only [reviewSchema.post, Option.some.injEq] at h
    subst h
    unfold Review.findById at hnone
    rw [updateFirst_of_find?_none _ _ _ hnone]
  · split at h
    · simp at h
    · simp only [reviewSchema.post, Option.some.injEq] at h
      subst h
      rfl

/-- The review collection after `PUT /reviews/:id`: unchanged, or the targeted review
rewritten with the body under `isEdited: true` and `editedAt`. -/
theorem putReview_reviews (env : Env) (reqUser : User) (id : ObjectId) (body : ReviewBody)
    (s : Store) :
    ((putReview env reqUser id body s).1.status ≠ 200 ∧
        (putReview env reqUser id body s).2 = s) ∨
      ((putReview env reqUser id body s).1.status = 200 ∧
        ∃ review, Review.findById s.reviews id = some review ∧ review.isActive = true ∧
        (putReview env reqUser id body s).2.reviews =
          updateFirst (fun x => x._id == id)
            (applyUpdate { sanitizeBody body with
              isEdited := some true, editedAt := some env.now }) s.reviews) := by
  unfold putReview
  split
  · exact Or.inl ⟨by simp, rfl⟩
  · simp only []
    split
    · exact Or.inl ⟨by simp, rfl⟩
    · rename_i review hr
      split
      · exact Or.inl ⟨by simp, rfl⟩
      · rename_i hact
        split
        · exact Or.inl ⟨by simp, rfl⟩
        · split
          · exact Or.inl ⟨by simp, rfl⟩
          · split
            · exact Or.inl ⟨by simp, rfl⟩
            · rename_i s2 h
              exact Or.inr ⟨rfl, review, hr, by simpa using hact,
                Review.findByIdAndUpdate_reviews _ _ _ _ _ h⟩

/-- The review collection after `DELETE /reviews/:id`: unchanged, or the targeted review
marked inactive. -/
theorem deleteReview_reviews (now : Nat) (reqUser : User) (id : ObjectId) (s : Store) :
    ((deleteReview now reqUser id s).1.status ≠ 200 ∧ (deleteReview now reqUser id s).2 = s) ∨
      ((deleteReview now reqUser id s).1.status = 200 ∧
        (deleteReview now reqUser id s).2.reviews =
          updateFirst (fun x => x._id == id) (fun r => { r with isActive := false })
            s.reviews) := by
  unfold deleteReview
  split
  · exact Or.inl ⟨by simp, rfl⟩
  · split
    · exact Or.inl ⟨by simp, rfl⟩
    · split
      · exact Or.inl ⟨by simp, rfl⟩
      · split
        · exact Or.inl ⟨by simp, rfl⟩
        · rename_i s2 h
          exact Or.inr ⟨rfl, Review.findByIdAndUpdate_reviews _ _ _ _ _ h⟩

/-- The two outcomes of `POST /reviews/movie/:movieId`: an answer other than 201 with
the store unchanged, or 201 with one new active review of the requester, with the
default flags and counters, appended and the movie's aggregate recomputed. -/
theorem postMovieReview_cases (env : Env) (reqUser : User) (movieId : ObjectId)
    (body : ReviewBody) (s : Store) :
    ((postMovieReview env reqUser movieId body s).1.status ≠ 201 ∧
        (postMovieReview env reqUser movieId body s).2 = s) ∨
      ((postMovieReview env reqUser movieId body s).1.status = 201 ∧
        ∃ movie rating text, Movie.findById s.movies movieId = some movie ∧
          movie.isActive = true ∧ body.rating = some rating ∧
          (s.reviews.any (fun x => x._id == env.newId)) = false ∧
          Review.duplicateKey s.reviews
            { _id := env.newId, userId := reqUser._id, movieId := movieId, rating := rating
              reviewText := text, createdAt := env.now } = false ∧
          (postMovieReview env reqUser movieId body s).2 =
            updateMovieRating env.now movieId { s with reviews := s.reviews ++
              [{ _id := env.newId, userId := reqUser._id, movieId := movieId, rating := rating
                 reviewText := text, createdAt := env.now }] }) := by
  unfold postMovieReview
  split
  · exact Or.inl ⟨by simp, rfl⟩
  · simp only []
    split
    · exact Or.inl ⟨by simp, rfl⟩
    · rename_i movie hmovie
      split
      · exact Or.inl ⟨by simp, rfl⟩
      · rename_i hact
        split
        · exact Or.inl ⟨by simp, rfl⟩
        · split
          · rename_i rating text hr ht
            split
            · exact Or.inl ⟨by simp, rfl⟩
            · rename_i s2 hsave
              unfold Review.save at hsave
              simp only [] at hsave
              split at hsave
              · simp at hsave
              · split at hsave
                · simp at hsave
                · rename_i hdup
                  simp only [Option.some.injEq] at hsave
                  subst hsave
                  refine Or.inr ⟨rfl, movie, rating, (trim (trim text)), hmovie,
                    by simpa using hact, by simpa [sanitizeBody] using hr, ?_, ?_, rfl⟩
                  · simp only [Bool.or_eq_true, not_or, Bool.not_eq_true] at hdup
                    exact hdup.1
                  · simp only [Bool.or_eq_true, not_or, Bool.not_eq_true] at hdup
                    exact hdup.2
          · exact Or.inl ⟨by simp, rfl⟩

theorem mem_updateFirst_of_not {α : Type} (p : α → Bool) (f : α → α) (l : List α) (x : α)
    (hx : x ∈ l) (hp : p x = false) : x ∈ updateFirst p f l := by
  induction l with
  | nil => simp at hx
  | cons a as ih =>
    by_cases ha : p a = true
    · rw [updateFirst, if_pos ha]
      rcases List.mem_cons.mp hx with e | h
      · subst e; rw [hp] at ha; cases ha
      · exact List.mem_cons_of_mem _ h
    · rw [updateFirst, if_neg ha]
      rcases List.mem_cons.mp hx with e | h
      · subst e; exact List.mem_cons_self _ _
      · exact List.mem_cons_of_mem _ (ih h)

/-- After a `PUT /reviews/:id` answered 200 the review addressed is the old one with the
update document applied. -/
theorem putReview_found (env : Env) (reqUser : User) (id : ObjectId) (body : ReviewBody)
    (s : Store) (h200 : (putReview env reqUser id body s).1.status = 200) :
    ∃ old, Review.findById s.reviews id = some old ∧ old.isActive = true ∧
      Review.findById (putReview env reqUser id body s).2.reviews id =
        some (applyUpdate { sanitizeBody body with
          isEdited := some true, editedAt := some env.now } old) := by
  rcases putReview_reviews env reqUser id body s with ⟨hne, -⟩ | ⟨-, old, hold, hact, h⟩
  · exact absurd h200 hne
  · refine ⟨old, hold, hact, ?_⟩
    rw [h]
    unfold Review.findById
    rw [find?_updateFirst _ _ (fun x hx => by simpa [applyUpdate] using hx)]
    unfold Review.findById at hold
    rw [hold]
    rfl

/-- C23 as stated fails at this input: user A sends `PUT /reviews/11` for their own
review, whose counters are 0 and 0, with a body that carries `helpfulVotes: 999` and
`reportCount: 7`; the answer is 200 and the stored counters are 999 and 7. -/
theorem putReview_writes_counters :
    (Review.findById scenario1.2.reviews 11).map Review.counters = some (11, 0, 0) ∧
    (putReview ⟨102, 0⟩ userA 11 { helpfulVotes := some 999, reportCount := some 7 }
      scenario1.2).1.status = 200 ∧
    (Review.findById (putReview ⟨102, 0⟩ userA 11
      { helpfulVotes := some 999, reportCount := some 7 } scenario1.2).2.reviews 11).map
        Review.counters = some (11, 999, 7) := by
  decide!

/-- C23 amended: the create and delete routes leave `helpfulVotes` and `reportCount` of
every existing review as they were (a created review starts with 0 and 0); the update
route leaves them as they were when the body carries neither key, never touches a
review other than the one addressed, and otherwise writes the values of the body on the
review addressed. -/
theorem review_routes_counters (env : Env) (reqUser : User) (movieId id : ObjectId)
    (body : ReviewBody) (s : Store) :
    ((postMovieReview env reqUser movieId body s).2.reviews.map Review.counters =
        s.reviews.map Review.counters ∨
      (postMovieReview env reqUser movieId body s).2.reviews.map Review.counters =
        s.reviews.map Review.counters ++ [(env.newId, 0, 0)]) ∧
    (deleteReview env.now reqUser id s).2.reviews.map Review.counters =
      s.reviews.map Review.counters ∧
    (body.helpfulVotes = none → body.reportCount = none →
      (putReview env reqUser id body s).2.reviews.map Review.counters =
        s.reviews.map Review.counters) ∧
    (∀ r ∈ s.reviews, r._id ≠ id → r ∈ (putReview env reqUser id body s).2.reviews) ∧
    ((putReview env reqUser id body s).1.status = 200 →
      ∃ old new, Review.findById s.reviews id = some old ∧
        Review.findById (putReview env reqUser id body s).2.reviews id = some new ∧
        new.helpfulVotes = body.helpfulVotes.getD old.helpfulVotes ∧
        new.reportCount = body.reportCount.getD old.reportCount) := by
  refine ⟨?_, ?_, ?_, ?_, ?_⟩
  · rcases postMovieReview_cases env reqUser movieId body s with
      ⟨-, h⟩ | ⟨-, movie, rating, text, -, -, -, -, -, h⟩
    · exact Or.inl (by rw [h])
    · refine Or.inr ?_
      rw [h, updateMovieRating_reviews]
      simp [Review.counters]
  · rcases deleteReview_reviews env.now reqUser id s with ⟨-, h⟩ | ⟨-, h⟩
    · rw [h]
    · rw [h]
      apply map_updateFirst
      intro x
      rfl
  · intro h1 h2
    rcases putReview_reviews env reqUser id body s with ⟨-, h⟩ | ⟨-, -, -, -, h⟩
    · rw [h]
    · rw [h]
      apply map_updateFirst
      intro x
      simp [Review.counters, applyUpdate, sanitizeBody, h1, h2]
  · intro r hr hne
    rcases putReview_reviews env reqUser id body s with ⟨-, h⟩ | ⟨-, -, -, -, h⟩
    · rw [h]; exact hr
    · rw [h]
      exact mem_updateFirst_of_not _ _ _ _ hr (by simpa using hne)
  · intro h200
    obtain ⟨old, hold, -, hnew⟩ := putReview_found env reqUser id body s h200
    exact ⟨old, _, hold, hnew, by simp [applyUpdate, sanitizeBody],
      by simp [applyUpdate, sanitizeBody]⟩

/-- Witness of C23 amended: user A updates the rating of review 11 with a body without
counters; the counters of all reviews are as before. -/
theorem review_routes_counters_witness :
    (putReview ⟨102, 0⟩ userA 11 { rating := some 5 } scenario2.2).2.reviews.map
      Review.counters = scenario2.2.reviews.map Review.counters :=
  (review_routes_counters ⟨102, 0⟩ userA 7 11 { rating := some 5 } scenario2.2).2.2.1 rfl rfl

/-! ## The edited flag -/

/-- C24: after every `PUT /reviews/:id` answered 200, whatever the body holds (its own
`isEdited` or `editedAt` included), the stored review has `isEdited = true` and
`editedAt` equal to the time of the request. -/
theorem putReview_marks_edited (env : Env) (reqUser : User) (id : ObjectId)
    (body : ReviewBody) (s : Store)
    (h200 : (putReview env reqUser id body s).1.status = 200) :
    ∃ r, Review.findById (putReview env reqUser id body s).2.reviews id = some r ∧
      r.isEdited = true ∧ r.editedAt = some env.now := by
  obtain ⟨old, -, -, hnew⟩ := putReview_found env reqUser id body s h200
  exact ⟨_, hnew, by simp [applyUpdate], by simp [applyUpdate]⟩

/-- Witness of C24: user A updates review 11 at time 102 with a body that says
`isEdited: false` and `editedAt: 5`. -/
theorem putReview_marks_edited_witness :
    ∃ r, Review.findById (putReview ⟨102, 0⟩ userA 11
        { rating := some 5, isEdited := some false, editedAt := some 5 } scenario1.2).2.reviews
        11 = some r ∧
      r.isEdited = true ∧ r.editedAt = some 102 :=
  putReview_marks_edited ⟨102, 0⟩ userA 11
    { rating := some 5, isEdited := some false, editedAt := some 5 } scenario1.2 (by decide!)

/-! ## Not found -/

/-- C25 as stated fails at these inputs: no movie has id 99 and no review has id 99, yet a
review creation for movie 99 with rating 9 and an update of review 99 with rating 9 are
answered 400 with the validation errors, not 404. -/
theorem notFound_invalid_body :
    Movie.findById store0.movies 99 = none ∧
    postMovieReview ⟨100, 11⟩ userA 99 (bodyOf 9 "a fine movie indeed") store0 =
      (⟨400, .errors ["Rating must be between 1 and 5"]⟩, store0) ∧
    Review.findById store0.reviews 99 = none ∧
    putReview ⟨100, 11⟩ userA 99 (bodyOf 9 "a fine movie indeed") store0 =
      (⟨400, .errors ["Rating must be between 1 and 5"]⟩, store0) := by
  decide!

/-- C25 amended: when the movie does not exist or is inactive, adding it to the watchlist
is answered 404 and creating a review of it is answered 404 if the body passes
validation and 400 otherwise; when the review does not exist or is inactive, deleting it
is answered 404 and updating it is answered 404 if the body passes validation and 400
otherwise; in each case the store, with all reviews, watchlists and movie aggregates, is
unchanged. -/
theorem notFound_changes_nothing (env : Env) (reqUser : User) (movieId id : ObjectId)
    (body : ReviewBody) (s : Store) :
    ((∀ m, Movie.findById s.movies movieId = some m → m.isActive = false) →
      postWatchlist reqUser movieId s = (⟨404, .message "Movie not found"⟩, s) ∧
      (validatePost body = [] →
        postMovieReview env reqUser movieId body s =
          (⟨404, .message "Movie not found"⟩, s)) ∧
      (validatePost body ≠ [] →
        postMovieReview env reqUser movieId body s =
          (⟨400, .errors (validatePost body)⟩, s))) ∧
    ((∀ r, Review.findById s.reviews id = some r → r.isActive = false) →
      deleteReview env.now reqUser id s = (⟨404, .message "Review not found"⟩, s) ∧
      (validatePut body = [] →
        putReview env reqUser id body s = (⟨404, .message "Review not found"⟩, s)) ∧
      (validatePut body ≠ [] →
        putReview env reqUser id body s = (⟨400, .errors (validatePut body)⟩, s))) := by
  constructor
  · intro hm
    refine ⟨?_, ?_, ?_⟩
    · unfold postWatchlist
      cases h : Movie.findById s.movies movieId with
      | none => rfl
      | some m => simp [hm m h]
    · intro hv
      unfold postMovieReview
      simp only [hv, ne_eq, not_true_eq_false, if_false]
      cases h : Movie.findById s.movies movieId with
      | none => rfl
      | some m => simp [hm m h]
    · intro hv
      unfold postMovieReview
      rw [if_pos hv]
  · intro hr
    refine ⟨?_, ?_, ?_⟩
    · unfold deleteReview
      cases h : Review.findById s.reviews id with
      | none => rfl
      | some r => simp [hr r h]
    · intro hv
      unfold putReview
      simp only [hv, ne_eq, not_true_eq_false, if_false]
      cases h : Review.findById s.reviews id with
      | none => rfl
      | some r => simp [hr r h]
    · intro hv
      unfold putReview
      rw [if_pos hv]

/-- Witness of C25 amended: movie X soft-deleted (`storeC9`) and review 99 absent. -/
theorem notFound_changes_nothing_witness :
    postWatchlist userB 7 storeC9 = (⟨404, .message "Movie not found"⟩, storeC9) ∧
    postMovieReview ⟨100, 12⟩ userB 7 (bodyOf 4 "a fine movie indeed") storeC9 =
      (⟨404, .message "Movie not found"⟩, storeC9) ∧
    deleteReview 100 userA 99 storeC9 = (⟨404, .message "Review not found"⟩, storeC9) := by
  have h := notFound_changes_nothing ⟨100, 12⟩ userB 7 99
    (bodyOf 4 "a fine movie indeed") storeC9
  have hm : ∀ m, Movie.findById storeC9.movies 7 = some m → m.isActive = false := by
    intro m hm
    have e : Movie.findById storeC9.movies 7 =
        some { movieX with averageRating := 4, totalReviews := 1, isActive := false } := by
      decide!
    rw [e] at hm
    simp only [Option.some.injEq] at hm
    rw [← hm]
  have hr : ∀ r, Review.findById storeC9.reviews 99 = some r → r.isActive = false := by
    intro r hr
    have e : Review.findById storeC9.reviews 99 = none := by decide!
    rw [e] at hr
    cases hr
  refine ⟨(h.1 hm).1, (h.1 hm).2.1 (by decide!), ?_⟩
  have h2 := notFound_changes_nothing ⟨100, 12⟩ userA 7 99
    (bodyOf 4 "a fine movie indeed") storeC9
  exact (h2.2 hr).1

/-! ## Soft deletion and the (user, movie) slot -/

/-- A creation for a (user, movie) pair that already has a review, active or not:
rejected, the store unchanged, with the 'already reviewed' message when the body passes
validation and the movie exists and is active. -/
theorem postMovieReview_existing (env : Env) (reqUser : User) (movieId : ObjectId)
    (body : ReviewBody) (s : Store)
    (hex : ∃ r ∈ s.reviews, r.userId = reqUser._id ∧ r.movieId = movieId) :
    (postMovieReview env reqUser movieId body s).2 = s ∧
    (validatePost body ≠ [] →
      (postMovieReview env reqUser movieId body s).1 = ⟨400, .errors (validatePost body)⟩) ∧
    (validatePost body = [] →
      (∃ m, Movie.findById s.movies movieId = some m ∧ m.isActive = true) →
      (postMovieReview env reqUser movieId body s).1 =
        ⟨400, .message "You have already reviewed this movie"⟩) := by
  have hfind : s.reviews.find? (fun r => r.userId == reqUser._id && r.movieId == movieId)
      ≠ none := by
    obtain ⟨r, hr, h1, h2⟩ := hex
    intro hnone
    have := List.find?_eq_none.mp hnone r hr
    simp [h1, h2] at this
  unfold postMovieReview
  split
  · rename_i hv
    exact ⟨rfl, fun _ => rfl, fun h0 => absurd h0 hv⟩
  · rename_i hv
    simp only []
    split
    · rename_i hmovie
      refine ⟨rfl, fun h0 => absurd h0 hv, ?_⟩
      rintro - ⟨m, hm, -⟩
      rw [hmovie] at hm
      simp at hm
    · rename_i movie hmovie
      split
      · rename_i hact
        refine ⟨rfl, fun h0 => absurd h0 hv, ?_⟩
        rintro - ⟨m, hm, ha⟩
        rw [hmovie] at hm
        simp only [Option.some.injEq] at hm
        subst hm
        simp [ha] at hact
      · split
        · exact ⟨rfl, fun h0 => absurd h0 hv, fun _ _ => rfl⟩
        · rename_i hn
          exact absurd hn hfind

/-- `Review.findByIdAndUpdate` on a review that exists, when the rewritten review meets
no other holder of its key: the collection with that review rewritten. -/
theorem Review.findByIdAndUpdate_some (now : Nat) (id : ObjectId) (f : Review → Review) (s : Store)
    (r : Review) (hr : Review.findById s.reviews id = some r)
    (hd : Review.duplicateKey s.reviews (f r) = false) :
    Review.findByIdAndUpdate now id f s =
      some { s with reviews := updateFirst (fun x => x._id == id) f s.reviews } := by
  unfold Review.findByIdAndUpdate
  rw [hr]
  simp [hd, reviewSchema.post]

/-- The store after a creation answered 201 and the deletion of the new review by its
author: the deletion is answered 200, the new review is kept, inactive, under the same
user and movie, and the movie is still found and active. -/
theorem create_then_delete (env : Env) (now : Nat) (reqUser : User) (movieId : ObjectId)
    (body : ReviewBody) (s : Store)
    (h1 : (postMovieReview env reqUser movieId body s).1.status = 201) :
    (deleteReview now reqUser env.newId (postMovieReview env reqUser movieId body s).2).1.status
      = 200 ∧
    (∃ r, Review.findById
        (deleteReview now reqUser env.newId (postMovieReview env reqUser movieId body s).2).2.reviews
        env.newId = some r ∧
      r.isActive = false ∧ r.userId = reqUser._id ∧ r.movieId = movieId) ∧
    (∃ m, Movie.findById
        (deleteReview now reqUser env.newId (postMovieReview env reqUser movieId body s).2).2.movies
        movieId = some m ∧ m.isActive = true) := by
  rcases postMovieReview_cases env reqUser movieId body s with
    ⟨hne, -⟩ | ⟨-, movie, rating, text, hmovie, hact, -, hfresh, hdup, hres⟩
  · exact absurd h1 hne
  · rw [hres]
    generalize hd :
      (⟨env.newId, reqUser._id, movieId, rating, text, false, none, 0, 0, true, env.now⟩ :
        Review) = d at hdup
    have hdid : d._id = env.newId := by rw [← hd]
    have hduser : d.userId = reqUser._id := by rw [← hd]
    have hdmovie : d.movieId = movieId := by rw [← hd]
    have hdact : d.isActive = true := by rw [← hd]
    have hrev : (updateMovieRating env.now movieId { s with reviews := s.reviews ++ [d] }).reviews =
        s.reviews ++ [d] := updateMovieRating_reviews _ _ _
    have hnone : s.reviews.find? (fun x => x._id == env.newId) = none := by
      rw [List.find?_eq_none]
      intro x hx
      have := List.any_eq_false.mp hfresh x hx
      simpa using this
    have hfound : Review.findById
        (updateMovieRating env.now movieId { s with reviews := s.reviews ++ [d] }).reviews env.newId
        = some d := by
      rw [hrev]
      unfold Review.findById
      rw [List.find?_append, hnone]
      simp [hdid]
    have hkey : Review.duplicateKey
        (updateMovieRating env.now movieId { s with reviews := s.reviews ++ [d] }).reviews
        { d with isActive := false } = false := by
      rw [hrev]
      unfold Review.duplicateKey at hdup ⊢
      rw [List.any_append, hdup]
      simp
    have hupd := Review.findByIdAndUpdate_some now env.newId
      (fun r => { r with isActive := false }) _ d hfound hkey
    have hdel := deleteReview_of_active now reqUser env.newId _ d hfound hdact
    have hguard : ¬ (d.userId != reqUser._id && !reqUser.isAdmin) = true := by
      simp [hduser]
    rw [if_neg hguard, hupd] at hdel
    rw [hdel]
    refine ⟨rfl, ⟨{ d with isActive := false }, ?_, rfl, hduser, hdmovie⟩, ?_⟩
    · simp only []
      unfold Review.findById
      rw [find?_updateFirst _ _ (fun x hx => by simpa using hx)]
      unfold Review.findById at hfound
      rw [hfound]
      rfl
    · simp only []
      rw [updateMovieRating_find]
      simp only [hmovie, Option.map_some']
      exact ⟨_, rfl, hact⟩

/-- C28 as stated fails at this input: after user A created review 11 of movie X and
deleted it, a new creation by user A for movie X with rating 9 is answered 400 with the
validation errors, not with 'You have already reviewed this movie'. -/
theorem softDelete_then_invalid_body :
    scenario1.1.status = 201 ∧ (deleteReview 102 userA 11 scenario1.2).1.status = 200 ∧
    postMovieReview ⟨103, 13⟩ userA 7 (bodyOf 9 "a fine movie indeed")
        (deleteReview 102 userA 11 scenario1.2).2 =
      (⟨400, .errors ["Rating must be between 1 and 5"]⟩, (deleteReview 102 userA 11 scenario1.2).2)
      := by
  decide!

/-- C28 amended: after a user's creation answered 201 and the deletion of that review by
the same user (answered 200, the review kept with `isActive = false`), every new creation
by that user for that movie is rejected and leaves the store, the inactive review
included, unchanged; the answer is 400 'You have already reviewed this movie' when the
body passes validation, and 400 with the validation errors otherwise. -/
theorem softDelete_keeps_slot (env env2 : Env) (now : Nat) (reqUser : User) (movieId : ObjectId)
    (body body2 : ReviewBody) (s : Store)
    (h1 : (postMovieReview env reqUser movieId body s).1.status = 201) :
    (deleteReview now reqUser env.newId (postMovieReview env reqUser movieId body s).2).1.status
      = 200 ∧
    (∃ r, Review.findById
        (deleteReview now reqUser env.newId (postMovieReview env reqUser movieId body s).2).2.reviews
        env.newId = some r ∧ r.isActive = false) ∧
    (postMovieReview env2 reqUser movieId body2
        (deleteReview now reqUser env.newId (postMovieReview env reqUser movieId body s).2).2).2 =
      (deleteReview now reqUser env.newId (postMovieReview env reqUser movieId body s).2).2 ∧
    (validatePost body2 = [] →
      (postMovieReview env2 reqUser movieId body2
        (deleteReview now reqUser env.newId (postMovieReview env reqUser movieId body s).2).2).1 =
        ⟨400, .message "You have already reviewed this movie"⟩) ∧
    (validatePost body2 ≠ [] →
      (postMovieReview env2 reqUser movieId body2
        (deleteReview now reqUser env.newId (postMovieReview env reqUser movieId body s).2).2).1 =
        ⟨400, .errors (validatePost body2)⟩) := by
  obtain ⟨h200, ⟨r, hr, hinactive, huser, hmovie⟩, hm⟩ :=
    create_then_delete env now reqUser movieId body s h1
  have hmem : r ∈ (deleteReview now reqUser env.newId
      (postMovieReview env reqUser movieId body s).2).2.reviews := by
    unfold Review.findById at hr
    exact List.mem_of_find?_eq_some hr
  obtain ⟨e1, e2, e3⟩ := postMovieReview_existing env2 reqUser movieId body2 _
    ⟨r, hmem, huser, hmovie⟩
  exact ⟨h200, ⟨r, hr, hinactive⟩, e1, fun hv => e3 hv hm, e2⟩

/-- Witness of C28 amended: user A creates review 11 of movie X, deletes it and posts
again with a valid body. -/
theorem softDelete_keeps_slot_witness :
    postMovieReview ⟨103, 13⟩ userA 7 (bodyOf 5 "a very fine movie")
        (deleteReview 102 userA 11 scenario1.2).2 =
      (⟨400, .message "You have already reviewed this movie"⟩,
        (deleteReview 102 userA 11 scenario1.2).2) := by
  have h := softDelete_keeps_slot ⟨100, 11⟩ ⟨103, 13⟩ 102 userA 7
    (bodyOf 4 "a fine movie indeed") (bodyOf 5 "a very fine movie") store0 (by decide!)
  exact Prod.ext (h.2.2.2.1 (by decide!)) h.2.2.1

/-! ## Pages partition the result -/

theorem flatten_chunks {α : Type} (L : Nat) :
    ∀ (N : Nat) (l : List α), l.length ≤ N * L →
      ((List.range N).map (fun i => (l.drop (i * L)).take L)).flatten = l := by
  intro N
  induction N with
  | zero =>
    intro l hl
    have : l = [] := List.eq_nil_of_length_eq_zero (by omega)
    simp [this]
  | succ n ih =>
    intro l hl
    rw [List.range_succ_eq_map, List.map_cons, List.map_map, List.flatten_cons]
    have hrest : (List.map ((fun i => (l.drop (i * L)).take L) ∘ Nat.succ) (List.range n)) =
        (List.range n).map (fun i => ((l.drop L).drop (i * L)).take L) := by
      apply List.map_congr_left
      intro i _
      simp only [Function.comp, List.drop_drop]
      congr 2
      rw [Nat.succ_mul]; omega
    rw [hrest, ih (l.drop L) (by rw [List.length_drop]; rw [Nat.succ_mul] at hl; omega)]
    simp

theorem moviesMatching_page (Pf : Platform) (q : MoviesQuery) (pg : Option String)
    (s : Store) :
    moviesMatching Pf (sanitizeQuery { q with page := pg }) s =
      moviesMatching Pf (sanitizeQuery q) s := rfl

/-- The answer of `GET /movies` for page `P >= 1` and limit `L >= 1` of a valid query. -/
theorem getMovies_page (Pf : Platform) (q : MoviesQuery) (s : Store) (P L : Nat)
    (hv : validateMovies Pf q = []) (hP : moviesPage q = (P : ℤ)) (hL : moviesLimit q = (L : ℤ))
    (hP1 : 1 ≤ P) (hL1 : 1 ≤ L) :
    getMovies Pf q s =
      .ok (((moviesMatching Pf (sanitizeQuery q) s).drop ((P - 1) * L)).take L)
        (pagination (P : ℤ) (L : ℤ) (moviesMatching Pf (sanitizeQuery q) s).length) := by
  have hs : 0 ≤ (moviesPage q - 1) * moviesLimit q := by
    rw [hP, hL]; exact Int.mul_nonneg (by omega) (by omega)
  have hl : 1 ≤ moviesLimit q := by rw [hL]; omega
  have e := (skipLimit_some _ _ (moviesMatching Pf (sanitizeQuery q) s) hs hl).1
  have hskip : ((moviesPage q - 1) * moviesLimit q).toNat = (P - 1) * L := by
    rw [hP, hL]
    have : ((P : ℤ) - 1) * (L : ℤ) = (((P - 1) * L : Nat) : ℤ) := by
      push_cast [Nat.cast_sub hP1]; ring
    rw [this, Int.toNat_natCast]
  have hlim : (moviesLimit q).toNat = L := by rw [hL, Int.toNat_natCast]
  unfold getMovies
  simp only [hv, ne_eq, not_true_eq_false, if_false]
  rw [e, hskip, hlim, hP, hL]

theorem segment_eq {α : Type} (l : List α) (P L : Nat) (hP : 1 ≤ P) :
    (l.drop ((P - 1) * L)).take L = (l.take (min (P * L) l.length)).drop ((P - 1) * L) := by
  rw [List.take_drop]
  have e : (P - 1) * L + L = P * L := by
    have : P = (P - 1) + 1 := by omega
    conv_rhs => rw [this, Nat.succ_mul]
  rw [e]
  congr 1
  rw [List.take_eq_take]
  simp

theorem ceil_pages (T L : Nat) (hL : 1 ≤ L) :
    0 ≤ Math.ceil ((T : Number) / (L : Number)) ∧
      T ≤ (Math.ceil ((T : Number) / (L : Number))).toNat * L ∧
      ∀ P : Nat, Math.ceil ((T : Number) / (L : Number)) < (P : ℤ) → T ≤ (P - 1) * L := by
  have hpos : (0 : Number) < (L : Number) := by exact_mod_cast hL
  have h0 : 0 ≤ Math.ceil ((T : Number) / (L : Number)) :=
    Int.ceil_nonneg (div_nonneg (by positivity) (le_of_lt hpos))
  have hle : (T : Number) ≤ (Math.ceil ((T : Number) / (L : Number)) : Number) * L := by
    rw [← div_le_iff₀ hpos]
    exact Int.le_ceil _
  refine ⟨h0, ?_, ?_⟩
  · have hc : ((Math.ceil ((T : Number) / (L : Number))).toNat : ℤ) =
        Math.ceil ((T : Number) / (L : Number)) := Int.toNat_of_nonneg h0
    have : (T : Number) ≤
        (((Math.ceil ((T : Number) / (L : Number))).toNat * L : Nat) : Number) := by
      push_cast
      have hc2 : (((Math.ceil ((T : Number) / (L : Number))).toNat : ℤ) : Number) =
          (Math.ceil ((T : Number) / (L : Number)) : Number) := by rw [hc]
      rw [show (((Math.ceil ((T : Number) / (L : Number))).toNat : Nat) : Number) =
        (((Math.ceil ((T : Number) / (L : Number))).toNat : ℤ) : Number) by norm_cast, hc2]
      exact hle
    exact_mod_cast this
  · intro P hP
    have hP1 : 1 ≤ P := by omega
    have h1 : Math.ceil ((T : Number) / (L : Number)) ≤ ((P - 1 : Nat) : ℤ) := by
      rw [Nat.cast_sub hP1]; push_cast; omega
    have h2 : (Math.ceil ((T : Number) / (L : Number)) : Number) ≤ ((P - 1 : Nat) : Number) := by
      exact_mod_cast h1
    have : (T : Number) ≤ (((P - 1) * L : Nat) : Number) := by
      push_cast
      calc (T : Number) ≤ (Math.ceil ((T : Number) / (L : Number)) : Number) * L := hle
        _ ≤ ((P - 1 : Nat) : Number) * L := mul_le_mul_of_nonneg_right h2 (le_of_lt hpos)
    exact_mod_cast this

/-- C30: for a query of `GET /movies` that passes validation with limit `L`, the limit is
between 1 and 50 and, the filter, the sort and the collection being kept, page `P >= 1`
is the segment of the sorted matching list from index `(P - 1) * L` up to, and
excluding, `min (P * L) T`; the answer reports `totalPages = ceil(T / L)`, the count `T`
and `hasPrev` true exactly when `P > 1`; every page beyond `ceil(T / L)` is empty; and
the pages 1 to `ceil(T / L)` put one after the other are the whole sorted list. -/
theorem getMovies_pages_partition (Pf : Platform) (q : MoviesQuery) (s : Store) (L : Nat)
    (hv : validateMovies Pf q = []) (hL : moviesLimit q = (L : ℤ)) :
    (1 ≤ L ∧ L ≤ 50) ∧
    (∀ (P : Nat) (pg : Option String), 1 ≤ P →
      validateMovies Pf { q with page := pg } = [] →
      moviesPage { q with page := pg } = (P : ℤ) →
      (getMovies Pf { q with page := pg } s).items =
        ((moviesMatching Pf (sanitizeQuery q) s).take
          (min (P * L) (moviesMatching Pf (sanitizeQuery q) s).length)).drop ((P - 1) * L) ∧
      (getMovies Pf { q with page := pg } s).pagination? =
        some { currentPage := (P : ℤ)
               totalPages := Math.ceil
                 (((moviesMatching Pf (sanitizeQuery q) s).length : Number) / (L : Number))
               total := (moviesMatching Pf (sanitizeQuery q) s).length
               hasNext := decide ((P : ℤ) < Math.ceil
                 (((moviesMatching Pf (sanitizeQuery q) s).length : Number) / (L : Number)))
               hasPrev := decide (1 < P) } ∧
      (Math.ceil (((moviesMatching Pf (sanitizeQuery q) s).length : Number) / (L : Number))
          < (P : ℤ) →
        (getMovies Pf { q with page := pg } s).items = [])) ∧
    (∀ pages : Nat → Option String,
      (∀ i : Nat, (i : ℤ) < Math.ceil
          (((moviesMatching Pf (sanitizeQuery q) s).length : Number) / (L : Number)) →
        validateMovies Pf { q with page := pages i } = [] ∧
        moviesPage { q with page := pages i } = ((i + 1 : Nat) : ℤ)) →
      ((List.range (Math.ceil
          (((moviesMatching Pf (sanitizeQuery q) s).length : Number) / (L : Number))).toNat).map
        (fun i => (getMovies Pf { q with page := pages i } s).items)).flatten =
        moviesMatching Pf (sanitizeQuery q) s) := by
  obtain ⟨-, -, hlo, hhi⟩ := moviesLimit_of_valid Pf q hv
  rw [hL] at hlo hhi
  have hL1 : 1 ≤ L := by omega
  have hpage : ∀ (P : Nat) (pg : Option String), 1 ≤ P →
      validateMovies Pf { q with page := pg } = [] →
      moviesPage { q with page := pg } = (P : ℤ) →
      getMovies Pf { q with page := pg } s =
        .ok (((moviesMatching Pf (sanitizeQuery q) s).drop ((P - 1) * L)).take L)
          (pagination (P : ℤ) (L : ℤ) (moviesMatching Pf (sanitizeQuery q) s).length) := by
    intro P pg hP hvp hmp
    have := getMovies_page Pf { q with page := pg } s P L hvp hmp hL hP hL1
    rw [moviesMatching_page] at this
    exact this
  obtain ⟨-, hcover, hbeyond⟩ := ceil_pages (moviesMatching Pf (sanitizeQuery q) s).length L hL1
  refine ⟨⟨hL1, by omega⟩, ?_, ?_⟩
  · intro P pg hP hvp hmp
    rw [hpage P pg hP hvp hmp]
    refine ⟨?_, ?_, ?_⟩
    · exact segment_eq _ P L hP
    · simp only [Listing.pagination?, pagination, Int.cast_natCast, Option.some.injEq,
        Pagination.mk.injEq, true_and, decide_eq_decide]
      omega
    · intro hc
      simp only [Listing.items]
      rw [List.drop_eq_nil_of_le (hbeyond P hc), List.take_nil]
  · intro pages hpages
    have hmap : (List.range (Math.ceil
          (((moviesMatching Pf (sanitizeQuery q) s).length : Number) / (L : Number))).toNat).map
        (fun i => (getMovies Pf { q with page := pages i } s).items) =
        (List.range (Math.ceil
          (((moviesMatching Pf (sanitizeQuery q) s).length : Number) / (L : Number))).toNat).map
        (fun i => ((moviesMatching Pf (sanitizeQuery q) s).drop (i * L)).take L) := by
      apply List.map_congr_left
      intro i hi
      have hlt : (i : ℤ) < Math.ceil
          (((moviesMatching Pf (sanitizeQuery q) s).length : Number) / (L : Number)) :=
        Int.lt_toNat.mp (List.mem_range.mp hi)
      rw [hpage (i + 1) (pages i) (by omega) (hpages i hlt).1 (hpages i hlt).2]
      simp [Listing.items]
    rw [hmap]
    exact flatten_chunks L _ _ hcover

/-- Witness of C30: the three active movies of the sample catalog by title with limit 2:
page 1 is A, B; page 2 is C; page 3 is empty; the two pages together are A, B, C. -/
theorem getMovies_pages_partition_witness :
    (getMovies samplePlatform { limit := some "2", sortBy := some "title", page := some "3" }
      catalog).items = [] ∧
    ((getMovies samplePlatform { limit := some "2", sortBy := some "title", page := some "1" }
        catalog).items ++
      (getMovies samplePlatform { limit := some "2", sortBy := some "title", page := some "2" }
        catalog).items).map (fun m => m.title) = ["A", "B", "C"] := by
  have h := getMovies_pages_partition samplePlatform
    { limit := some "2", sortBy := some "title" } catalog 2 (by decide!) (by decide!)
  exact ⟨(h.2.1 3 (some "3") (by decide) (by decide!) (by decide!)).2.2 (by decide!),
    by decide!⟩

/-! ## The aggregate fields under the admin routes of the catalog -/

/-- C22 as stated fails at these inputs: an admin creates a movie with a body that
carries `averageRating: 5` and `totalReviews: 1000`, and the created movie holds (5,
1000); an admin updates movie X, which holds (3, 2), with `averageRating: 1` and
`totalReviews: 77`, and the movie holds (1, 77). -/
theorem adminMovie_body_writes_aggregate :
    (postMovie 2030 ⟨5, 8⟩ movieBodyWithAggregate store0).1.status = 201 ∧
    (Movie.findById (postMovie 2030 ⟨5, 8⟩ movieBodyWithAggregate store0).2.movies 8).map
      Movie.aggregate = some (5, 1000) ∧
    aggregateOfX scenario2.2 = some (3, 2) ∧
    (putMovie 2030 ⟨5, 8⟩ 7 movieBodyAggregateOnly scenario2.2).1.status = 200 ∧
    aggregateOfX (putMovie 2030 ⟨5, 8⟩ 7 movieBodyAggregateOnly scenario2.2).2
      = some (1, 77) := by
  decide!

/-- C22 amended: a movie created by `POST /movies` holds the `averageRating` and
`totalReviews` of the body, and 0 and 0 when the body carries neither; a movie updated by
`PUT /movies/:id` holds those of the body, and its previous values when the body
carries neither; no other movie is touched by the update. -/
theorem adminMovie_aggregate (maxYear : ℤ) (env : Env) (id : ObjectId) (body : MovieBody)
    (s : Store) :
    ((postMovie maxYear env body s).1.status = 201 →
      ∃ m, (postMovie maxYear env body s).2.movies = s.movies ++ [m] ∧ m._id = env.newId ∧
        m.averageRating = body.averageRating.getD 0 ∧
        m.totalReviews = body.totalReviews.getD 0 ∧
        (body.averageRating = none → body.totalReviews = none → Movie.aggregate m = (0, 0))) ∧
    ((putMovie maxYear env id body s).1.status = 200 →
      ∃ old new, Movie.findById s.movies id = some old ∧
        Movie.findById (putMovie maxYear env id body s).2.movies id = some new ∧
        new.averageRating = body.averageRating.getD old.averageRating ∧
        new.totalReviews = body.totalReviews.getD old.totalReviews ∧
        (body.averageRating = none → body.totalReviews = none →
          Movie.aggregate new = Movie.aggregate old) ∧
        ∀ m ∈ s.movies, m._id ≠ id → m ∈ (putMovie maxYear env id body s).2.movies) := by
  constructor
  · unfold postMovie
    split
    · intro h; simp at h
    · split
      · simp only []
        split
        · intro h; simp at h
        · intro _
          refine ⟨_, rfl, rfl, rfl, rfl, ?_⟩
          intro h1 h2
          simp [Movie.aggregate, h1, h2]
      · intro h; simp at h
  · unfold putMovie
    split
    · intro h; simp at h
    · split
      · intro h; simp at h
      · rename_i old hold
        intro _
        refine ⟨old, applyMovieUpdate env.now body old, hold, ?_, rfl, rfl, ?_, ?_⟩
        · simp only []
          rw [Movie.findById_findByIdAndUpdate env.now s.movies id (applyMovieUpdate env.now body)
            (fun _ => rfl), hold]
          rfl
        · intro h1 h2
          simp [Movie.aggregate, applyMovieUpdate, h1, h2]
        · intro m hm hne
          exact mem_updateFirst_of_not _ _ _ _ hm (by simpa using hne)

/-- Witness of C22 amended: a movie created from a body without aggregate fields holds
(0, 0), and an update of the title of movie X keeps (3, 2). -/
theorem adminMovie_aggregate_witness :
    (∃ m, (postMovie 2030 ⟨5, 8⟩ (movieBodyOf "Y") store0).2.movies = store0.movies ++ [m] ∧
      m._id = 8 ∧ Movie.aggregate m = (0, 0)) ∧
    aggregateOfX (putMovie 2030 ⟨5, 8⟩ 7 { title := some "X2" } scenario2.2).2 = some (3, 2) := by
  obtain ⟨m, h1, h2, -, -, h5⟩ :=
    (adminMovie_aggregate 2030 ⟨5, 8⟩ 7 (movieBodyOf "Y") store0).1 (by decide!)
  exact ⟨⟨m, h1, h2, h5 rfl rfl⟩, by decide!⟩

/-! ## A failing recompute -/

theorem Review.saveWith_false (now : Nat) (doc : Review) (s : Store) :
    Review.saveWith false now doc s =
      match Review.save now doc s with
      | none => (false, s)
      | some s2 => (true, s2) := by
  unfold Review.saveWith Review.save
  simp only []
  split
  · rfl
  · split
    · rfl
    · simp

theorem Review.saveWith_true (now : Nat) (doc : Review) (s : Store) :
    Review.saveWith true now doc s =
      match Review.saveWith false now doc s with
      | (false, s2) => (false, s2)
      | (true, _) =>
        (false, { s with reviews := s.reviews ++ [{ doc with reviewText := trim doc.reviewText }] })
      := by
  unfold Review.saveWith
  simp only []
  split
  · rfl
  · split
    · rfl
    · simp

theorem Review.saveWith_resolved (now : Nat) (doc : Review) (s s2 : Store)
    (h : Review.saveWith false now doc s = (true, s2)) :
    s2 = reviewSchema.post now .save (some { doc with reviewText := trim doc.reviewText })
      { s with reviews := s.reviews ++ [{ doc with reviewText := trim doc.reviewText }] } := by
  unfold Review.saveWith at h
  simp only [] at h
  split at h
  · simp at h
  · split at h
    · simp at h
    · simp only [Bool.false_eq_true, if_false, Prod.mk.injEq, true_and] at h
      exact h.symm

/-- Without a failure the handler with the fault switch is the handler of the route. -/
theorem postMovieReviewWith_false (env : Env) (reqUser : User) (movieId : ObjectId)
    (body : ReviewBody) (s : Store) :
    postMovieReviewWith false env reqUser movieId body s =
      postMovieReview env reqUser movieId body s := by
  unfold postMovieReviewWith postMovieReview
  split
  · rfl
  · simp only []
    split
    · rfl
    · split
      · rfl
      · split
        · rfl
        · split
          · rw [Review.saveWith_false]
            generalize Review.save env.now _ s = r
            cases r <;> rfl
          · rfl

/-- C26 as stated fails at this input: user A creates a review of movie X in the store
of the scenario while the recompute of the post `save` hook fails; the answer is 500,
yet the review collection holds the new review and the movie still holds (0, 0), the
rounded mean of its active reviews being 4. -/
theorem failedRecompute_keeps_review :
    (postMovieReviewWith true ⟨100, 11⟩ userA 7 (bodyOf 4 "a fine movie indeed") store0).1 =
      ⟨500, .serverError⟩ ∧
    store0.reviews = [] ∧
    (postMovieReviewWith true ⟨100, 11⟩ userA 7 (bodyOf 4 "a fine movie indeed")
      store0).2.reviews.map (fun r => (r._id, r.userId, r.movieId, r.rating, r.isActive)) =
      [(11, 1, 7, 4, true)] ∧
    aggregateOfX (postMovieReviewWith true ⟨100, 11⟩ userA 7 (bodyOf 4 "a fine movie indeed")
      store0).2 = some (0, 0) ∧
    Spec.aggregate (Spec.activeReviews 7 (postMovieReviewWith true ⟨100, 11⟩ userA 7
      (bodyOf 4 "a fine movie indeed") store0).2.reviews) = (4, 1) := by
  decide!

/-- C26 amended: if the recompute triggered by a review creation fails, on a request
that would otherwise be answered 201, the request reports an error (status 500) and
the movies are left as they were, but the review is not rolled back: the review
collection is the old one followed by the new active review. -/
theorem failedRecompute_no_rollback (env : Env) (reqUser : User) (movieId : ObjectId)
    (body : ReviewBody) (s : Store)
    (h : (postMovieReviewWith false env reqUser movieId body s).1.status = 201) :
    (postMovieReviewWith true env reqUser movieId body s).1 = ⟨500, .serverError⟩ ∧
    (postMovieReviewWith true env reqUser movieId body s).2.movies = s.movies ∧
    (postMovieReviewWith true env reqUser movieId body s).2.users = s.users ∧
    ∃ d, (postMovieReviewWith true env reqUser movieId body s).2.reviews = s.reviews ++ [d] ∧
      d._id = env.newId ∧ d.userId = reqUser._id ∧ d.movieId = movieId ∧ d.isActive = true ∧
      body.rating = some d.rating ∧
      (postMovieReviewWith false env reqUser movieId body s).2.reviews = s.reviews ++ [d] := by
  revert h
  unfold postMovieReviewWith
  split
  · intro h; simp at h
  · simp only []
    split
    · intro h; simp at h
    · split
      · intro h; simp at h
      · split
        · intro h; simp at h
        · split
          · rename_i rating text hr ht
            rw [Review.saveWith_true]
            generalize hsw : Review.saveWith false env.now _ s = r
            rcases r with ⟨ok, s2⟩
            cases ok with
            | false => intro h; simp at h
            | true =>
              intro _
              have hs2 := Review.saveWith_resolved _ _ _ _ hsw
              refine ⟨rfl, rfl, rfl, _, rfl, rfl, rfl, rfl, rfl,
                by simpa [sanitizeBody] using hr, ?_⟩
              rw [hs2]
              simp only [reviewSchema.post, updateMovieRating_reviews]
          · intro h; simp at h

/-- Witness of C26 amended: the creation of user A in the store of the scenario. -/
theorem failedRecompute_no_rollback_witness :
    (postMovieReviewWith true ⟨100, 11⟩ userA 7 (bodyOf 4 "a fine movie indeed") store0).1 =
      ⟨500, .serverError⟩ ∧
    (postMovieReviewWith true ⟨100, 11⟩ userA 7 (bodyOf 4 "a fine movie indeed")
      store0).2.movies = store0.movies :=
  ⟨(failedRecompute_no_rollback ⟨100, 11⟩ userA 7 (bodyOf 4 "a fine movie indeed") store0
      (by decide!)).1,
    (failedRecompute_no_rollback ⟨100, 11⟩ userA 7 (bodyOf 4 "a fine movie indeed") store0
      (by decide!)).2.1⟩

/-! ## The demo emulation and review uniqueness -/

/-- C27 as stated fails at this input: the demo state holds one review of movie '1';
adding a review of movie '1' again is answered with the success message, and the demo
reviews list holds two reviews of movie '1'. The same holds for
`DemoStateManager.addReview`. -/
theorem demo_addReview_duplicates :
    demoAfterOne.reviews.map (fun r => r.movieId) = ["1"] ∧
    (reviewsAPI.addReviewDemo 2000 "1" ⟨2, "not so fine after all"⟩ demoAfterOne).1.1 =
      "Review added successfully (demo mode)" ∧
    (reviewsAPI.addReviewDemo 2000 "1" ⟨2, "not so fine after all"⟩
      demoAfterOne).2.reviews.map (fun r => r.movieId) = ["1", "1"] ∧
    (DemoStateManager.addReview 2000 "1" ⟨2, "not so fine after all"⟩
      "The Shawshank Redemption" demoAfterOne).2.reviews.map (fun r => r.movieId)
      = ["1", "1"] := by
  decide!

/-- C27 amended: in demo mode `addReview` never rejects: for every demo state and movie
id it reports success and puts one new review of that movie, by the demo user, in front
of the reviews list, the earlier reviews kept; the list holds at most one review per
movie afterwards exactly when it did before and the movie had no review in it. -/
theorem demo_addReview_prepends (now : Nat) (movieId : String) (reviewData : ReviewData)
    (movieTitle : String) (st : DemoState) :
    ((reviewsAPI.addReviewDemo now movieId reviewData st).1.1 =
        "Review added successfully (demo mode)" ∧
      (reviewsAPI.addReviewDemo now movieId reviewData st).2.reviews =
        (reviewsAPI.addReviewDemo now movieId reviewData st).1.2 :: st.reviews ∧
      (reviewsAPI.addReviewDemo now movieId reviewData st).1.2.movieId = movieId ∧
      (reviewsAPI.addReviewDemo now movieId reviewData st).1.2.userId = st.userProfile._id ∧
      (((reviewsAPI.addReviewDemo now movieId reviewData st).2.reviews.map
          (fun r => r.movieId)).Nodup ↔
        (st.reviews.map (fun r => r.movieId)).Nodup ∧
          movieId ∉ st.reviews.map (fun r => r.movieId))) ∧
    ((DemoStateManager.addReview now movieId reviewData movieTitle st).2.reviews =
        (DemoStateManager.addReview now movieId reviewData movieTitle st).1 :: st.reviews ∧
      (DemoStateManager.addReview now movieId reviewData movieTitle st).1.movieId = movieId ∧
      (((DemoStateManager.addReview now movieId reviewData movieTitle st).2.reviews.map
          (fun r => r.movieId)).Nodup ↔
        (st.reviews.map (fun r => r.movieId)).Nodup ∧
          movieId ∉ st.reviews.map (fun r => r.movieId))) := by
  refine ⟨⟨rfl, rfl, rfl, rfl, ?_⟩, ⟨rfl, rfl, ?_⟩⟩
  · simp only [reviewsAPI.addReviewDemo, List.map_cons, List.nodup_cons]
    exact And.comm
  · simp only [DemoStateManager.addReview, List.map_cons, List.nodup_cons]
    exact And.comm

/-- Witness of C27 amended: after a review of movie '1', a review of movie '2' keeps one
review per movie. -/
theorem demo_addReview_prepends_witness :
    ((reviewsAPI.addReviewDemo 2000 "2" ⟨5, "an offer one cannot refuse"⟩
      demoAfterOne).2.reviews.map (fun r => r.movieId)).Nodup :=
  (demo_addReview_prepends 2000 "2" ⟨5, "an offer one cannot refuse"⟩ "The Godfather"
    demoAfterOne).1.2.2.2.2.mpr (by decide!)

/-! ## The allow-list of the profile route -/

/-- C29: whatever the body of `PUT /users/profile` holds, the update built from it has
the body's `username`, `bio` (both trimmed), `profilePicture` and `favoriteGenres` and
nothing else, so two bodies that agree on these four keys are handled alike; the
requester's `isAdmin`, `isActive`, `watchlist`, `password` and `email` are unchanged,
the four fields hold the update's values after a 200 and the old ones otherwise, and no
other user, movie or review is touched. -/
theorem putProfile_allowList (schemaValid : ProfileUpdates → Bool) (reqUser : User)
    (body : ProfileBody) (s : Store) :
    allowedUpdates (sanitizeProfile body) =
      { username := body.username.map trim, bio := body.bio.map trim
        profilePicture := body.profilePicture, favoriteGenres := body.favoriteGenres } ∧
    (∀ body2 : ProfileBody, body2.username = body.username → body2.bio = body.bio →
      body2.profilePicture = body.profilePicture →
      body2.favoriteGenres = body.favoriteGenres →
      putProfile schemaValid reqUser body2 s = putProfile schemaValid reqUser body s) ∧
    (∀ u, User.findById s.users reqUser._id = some u →
      ∃ u2, User.findById (putProfile schemaValid reqUser body s).2.users reqUser._id
          = some u2 ∧
        u2._id = u._id ∧ u2.isAdmin = u.isAdmin ∧ u2.isActive = u.isActive ∧
        u2.watchlist = u.watchlist ∧ u2.password = u.password ∧ u2.email = u.email ∧
        ((putProfile schemaValid reqUser body s).1.status = 200 →
          u2 = applyProfileUpdates (allowedUpdates (sanitizeProfile body)) u) ∧
        ((putProfile schemaValid reqUser body s).1.status ≠ 200 → u2 = u)) ∧
    (∀ x ∈ s.users, x._id ≠ reqUser._id →
      x ∈ (putProfile schemaValid reqUser body s).2.users) ∧
    (putProfile schemaValid reqUser body s).2.movies = s.movies ∧
    (putProfile schemaValid reqUser body s).2.reviews = s.reviews := by
  refine ⟨rfl, ?_, ?_, ?_, ?_, ?_⟩
  · intro body2 h1 h2 h3 h4
    have hv : validateProfile body2 = validateProfile body := by
      simp [validateProfile, h1, h2]
    have hu : allowedUpdates (sanitizeProfile body2) = allowedUpdates (sanitizeProfile body) := by
      simp [allowedUpdates, sanitizeProfile, h1, h2, h3, h4]
    unfold putProfile
    rw [hv, hu]
  · intro u hu
    unfold putProfile
    split
    · exact ⟨u, hu, rfl, rfl, rfl, rfl, rfl, rfl, fun h => by simp at h, fun _ => rfl⟩
    · split
      · exact ⟨u, hu, rfl, rfl, rfl, rfl, rfl, rfl, fun h => by simp at h, fun _ => rfl⟩
      · rw [hu]
        simp only []
        split
        · exact ⟨u, hu, rfl, rfl, rfl, rfl, rfl, rfl, fun h => by simp at h, fun _ => rfl⟩
        · refine ⟨applyProfileUpdates (allowedUpdates (sanitizeProfile body)) u, ?_, rfl, rfl,
            rfl, rfl, rfl, rfl, fun _ => rfl, fun h => by simp at h⟩
          unfold User.findByIdAndUpdate User.findById
          simp only []
          rw [find?_updateFirst _ _ (fun x hx => by simpa [applyProfileUpdates] using hx)]
          unfold User.findById at hu
          rw [hu]
          rfl
  · intro x hx hne
    unfold putProfile
    split
    · exact hx
    · split
      · exact hx
      · split
        · exact hx
        · split
          · exact hx
          · exact mem_updateFirst_of_not _ _ _ _ hx (by simpa using hne)
  · unfold putProfile
    repeat' split
    all_goals rfl
  · unfold putProfile
    repeat' split
    all_goals rfl

/-- Witness of C29: user A sends a body with a bio and with `isAdmin`, `isActive`,
`watchlist`, `password` and `email`; only the bio, trimmed, is written. -/
theorem putProfile_allowList_witness :
    User.findById (putProfile (fun _ => true) userA profileBodyEscalating storeC10).2.users 1
      = some { userA with watchlist := [3, 7], bio := "likes films" } ∧
    putProfile (fun _ => true) userA profileBodyEscalating storeC10 =
      putProfile (fun _ => true) userA { bio := some " likes films " } storeC10 :=
  ⟨by decide!, ((putProfile_allowList (fun _ => true) userA { bio := some " likes films " }
    storeC10).2.1 profileBodyEscalating rfl rfl rfl rfl)⟩

end MovieReview
